import Mathlib

/-! Turso3D `Graphics` (OpenGL back end): binding-state tracker and `PrepareDraw`.

A shallow embedding of `src/Turso3D/Graphics/GL/GLGraphics.cpp`.

* A C++ member function becomes a Lean function from the tracked state (`Graphics`) to the new
  state and the list of OpenGL calls it issued, in order.
* A fixed-size C array (`vertexBuffers[MAX_VERTEX_STREAMS]`, ...) is a total function on indices;
  the code only ever reads and writes indices below the array bound.
* A pointer to an object the tracker never mutates (vertex buffer, texture, linked program) is
  the object itself, carrying its address in the field `addr`; `nullptr` is `none`.
  Shader variations are mutated by `Compile()`, so they live in a heap keyed by address.
* `size_t` and `unsigned` arithmetic is written with an explicit modulus.
-/

namespace Turso3D

/-! ## Constants and external collaborators -/

/-- `IntVector2` (Math/IntVector2.h). -/
structure IntVector2 where
  x : Int
  y : Int
deriving DecidableEq, Repr

/-- `IntRect` (Math/IntRect.h). -/
structure IntRect where
  left : Int
  top : Int
  right : Int
  bottom : Int
deriving DecidableEq, Repr

/-- Constants of `GraphicsDefs.h` and of the platform. The header is not among the sources, so
the values are parameters of the development. `resizeFill` is the value `Vector<unsigned>::Resize`
gives to the elements it appends and `defaultRect` the value of a default-constructed `IntRect`
(`Vector.h` and `IntRect.h` are not among the sources either); `sizeBits` is the width of
`size_t`. -/
structure GraphicsDefs where
  MAX_VERTEX_STREAMS : Nat
  MAX_CONSTANT_BUFFERS : Nat
  MAX_TEXTURE_UNITS : Nat
  MAX_RENDERTARGETS : Nat
  MAX_SHADER_STAGES : Nat
  SHADER_VS : Nat
  SHADER_PS : Nat
  MAX_ELEMENT_SEMANTICS : Nat
  SEM_COLOR : Nat
  MAX_PRIMITIVE_TYPES : Nat
  resizeFill : Nat
  defaultRect : IntRect
  sizeBits : Nat

/-- `static const size_t MAX_VERTEX_ATTRIBUTES = 16;` (GLGraphics.h). -/
def MAX_VERTEX_ATTRIBUTES : Nat := 16

def GL_INT : Nat := 0x1404
def GL_FLOAT : Nat := 0x1406
def GL_UNSIGNED_BYTE : Nat := 0x1401
def GL_ARRAY_BUFFER : Nat := 0x8892
def GL_ELEMENT_ARRAY_BUFFER : Nat := 0x8893
def GL_UNIFORM_BUFFER : Nat := 0x8A11
def GL_TEXTURE0 : Nat := 0x84C0

/-- `static const unsigned elementGLType[]`. -/
def elementGLType : List Nat :=
  [GL_INT, GL_FLOAT, GL_FLOAT, GL_FLOAT, GL_FLOAT, GL_UNSIGNED_BYTE, GL_FLOAT, GL_FLOAT]

/-- `static const unsigned elementGLComponents[]`. -/
def elementGLComponents : List Nat := [1, 1, 2, 3, 4, 4, 12, 16]

/-- `static const unsigned glPrimitiveType[]` (GL_POINTS, GL_LINES, GL_LINE_STRIP, GL_TRIANGLES,
GL_TRIANGLE_STRIP). -/
def glPrimitiveType : List Nat := [0, 0, 1, 3, 4, 5]

/-! ## Objects referenced by the tracker -/

/-- One element of a vertex declaration (`VertexElement`). -/
structure VertexElement where
  type : Nat
  semantic : Nat
  index : Nat
  perInstance : Bool
  offset : Nat
deriving DecidableEq, Repr

/-- What `Graphics` reads of a `VertexBuffer`: `BufferObject()`, `VertexSize()`, `Elements()`. -/
structure VertexBuffer where
  addr : Nat
  bufferObject : Nat
  vertexSize : Nat
  elements : List VertexElement
deriving DecidableEq, Repr

/-- What `Graphics` reads of an `IndexBuffer`. -/
structure IndexBuffer where
  addr : Nat
  bufferObject : Nat
  indexSize : Nat
deriving DecidableEq, Repr

/-- What `Graphics` reads of a `ConstantBuffer`. -/
structure ConstantBuffer where
  addr : Nat
  bufferObject : Nat
deriving DecidableEq, Repr

/-- What `Graphics` reads of a `Texture`. -/
structure Texture where
  addr : Nat
  target : Nat
  textureObject : Nat
  width : Int
  height : Int
deriving DecidableEq, Repr

/-- The mutable part of a `ShaderVariation`: `Stage()`, `IsCompiled()`, `ShaderObject()`. -/
structure ShaderVariation where
  stage : Nat
  compiled : Bool
  shaderObject : Nat
deriving DecidableEq, Repr

/-- A `ShaderProgram` after `Link()`: `ProgramObject()` and `Attributes()`, the latter the
(semantic, semantic index) of each hardware slot in slot order. -/
structure ShaderProgram where
  addr : Nat
  programObject : Nat
  attributes : List (Nat × Nat)
deriving DecidableEq, Repr

/-- Outcome of `ShaderProgram::Link()`. -/
structure LinkResult where
  success : Bool
  programObject : Nat
  attributes : List (Nat × Nat)
deriving DecidableEq, Repr

/-- The shader compiler and linker (`GLShaderVariation.cpp`, `GLShaderProgram.cpp`), which are
not among the sources: `Compile` is the effect of `ShaderVariation::Compile()` on the variation,
`Link` the outcome of `ShaderProgram::Link()` for a program made of the two variations, and
`Release` the effect of `GPUObject::Release()` on a variation. The OpenGL calls these make
themselves are not recorded, except the `glUseProgram` of a successful `Link()`, which the
source of `SetShaders` relies on. -/
structure Backend where
  Compile : ShaderVariation → ShaderVariation
  Link : ShaderVariation → ShaderVariation → LinkResult
  Release : ShaderVariation → ShaderVariation

/-! ## OpenGL calls -/

/-- The OpenGL calls of `GLGraphics.cpp`, with their arguments. An argument written as a natural
number that has a 32-bit type (`GLuint`, `GLint`, `GLsizei`) is recorded as its 32-bit pattern:
the value itself for a signed argument that is not negative. The arguments of `glViewport` are
the integers of the clamped rectangle. -/
inductive GLCall where
  | glViewport (x y width height : Int)
  | glBindBufferBase (target index buffer : Nat)
  | glActiveTexture (texture : Nat)
  | glEnable (cap : Nat)
  | glDisable (cap : Nat)
  | glBindTexture (target texture : Nat)
  | glBindBuffer (target buffer : Nat)
  | glUseProgram (program : Nat)
  | glEnableVertexAttribArray (index : Nat)
  | glDisableVertexAttribArray (index : Nat)
  | glVertexAttribPointer (index size type : Nat) (normalized : Bool) (stride pointer : Nat)
  | glVertexAttribDivisorARB (index divisor : Nat)
  | glDrawArrays (mode first count : Nat)
  | glDrawElements (mode count type indices : Nat)
  | glDrawElementsBaseVertex (mode count type indices basevertex : Nat)
  | glDrawArraysInstanced (mode first count primcount : Nat)
  | glDrawElementsInstanced (mode count type indices primcount : Nat)
  | glDrawElementsInstancedBaseVertex (mode count type indices primcount basevertex : Nat)
deriving DecidableEq, Repr

/-- A call issued by `PrepareDraw` together with the vertex-buffer element it was issued for:
`origin = some (i, j)` for element `j` of the buffer in stream `i`, `none` for the calls of the
attribute enable/disable loop. -/
structure Issued where
  origin : Option (Nat × Nat)
  call : GLCall
deriving DecidableEq, Repr

/-! ## Tracked state -/

/-- The data members of `class Graphics` (GLGraphics.h), the heap of shader variations, and two
bookkeeping fields: `nextProgram`, the address the next `new ShaderProgram` returns, and
`released`, the GPU objects whose `Release()` has been called, in call order.
`attributeBySemantic` is constructed with `MAX_ELEMENT_SEMANTICS` inner vectors and never
resized, so it is indexed like the arrays; the inner vectors are lists. The program cache is an
association list in insertion order. -/
structure Graphics where
  backbufferSize : IntVector2
  renderTargetSize : IntVector2
  viewport : IntRect
  gpuObjects : List Nat
  shaderPrograms : List ((Nat × Nat) × ShaderProgram)
  vertexBuffers : Nat → Option VertexBuffer
  vertexAttributes : Nat → Bool
  vertexAttributeDivisors : Nat → Nat
  attributeBySemantic : Nat → List Nat
  indexBuffer : Option IndexBuffer
  constantBuffers : Nat → Nat → Option ConstantBuffer
  textures : Nat → Option Texture
  textureTargets : Nat → Nat
  renderTargets : Nat → Option Texture
  depthStencil : Option Texture
  renderTargetVector : List (Option Texture)
  vertexShader : Option Nat
  pixelShader : Option Nat
  shaderProgram : Option ShaderProgram
  blendState : Option Nat
  depthState : Option Nat
  rasterizerState : Option Nat
  primitiveType : Nat
  scissorRect : IntRect
  stencilRef : Nat
  vsConstantBuffers : Nat
  psConstantBuffers : Nat
  activeTexture : Nat
  boundVBO : Nat
  vertexAttributesDirty : Bool
  vertexBuffersDirty : Bool
  shaderVariations : Nat → ShaderVariation
  nextProgram : Nat
  released : List Nat

/-! ## Helpers for arrays, vectors and loops -/

/-- Array assignment `a[i] = v`. -/
def setAt {α : Type} (a : Nat → α) (i : Nat) (v : α) : Nat → α :=
  fun j => if j = i then v else a j

/-- The effect of `Vector<unsigned>::Resize(newSize)`: truncate, or append elements of value
`fill`. -/
def vectorResize (fill : Nat) (v : List Nat) (newSize : Nat) : List Nat :=
  v.take newSize ++ List.replicate (newSize - v.length) fill

/-- A `for` loop over `xs` whose body `f` updates the state and issues calls. -/
def forEach {α σ ε : Type} (f : σ → α → σ × List ε) : List α → σ → σ × List ε
  | [], s => (s, [])
  | x :: rest, s => ((forEach f rest (f s x).1).1, (f s x).2 ++ (forEach f rest (f s x).1).2)

/-! ## `ResetState`, the constructor and the simple setters -/

/-- `Graphics::ResetState()`. -/
def ResetState (D : GraphicsDefs) (g : Graphics) : Graphics :=
  { g with
    vertexBuffers := fun i => if i < D.MAX_VERTEX_STREAMS then none else g.vertexBuffers i
    vertexAttributes := fun i => if i < MAX_VERTEX_ATTRIBUTES then false else g.vertexAttributes i
    vertexAttributeDivisors :=
      fun i => if i < MAX_VERTEX_ATTRIBUTES then 0 else g.vertexAttributeDivisors i
    constantBuffers := fun i j =>
      if i < D.MAX_SHADER_STAGES ∧ j < D.MAX_CONSTANT_BUFFERS then none else g.constantBuffers i j
    textures := fun i => if i < D.MAX_TEXTURE_UNITS then none else g.textures i
    textureTargets := fun i => if i < D.MAX_TEXTURE_UNITS then 0 else g.textureTargets i
    indexBuffer := none
    vertexShader := none
    pixelShader := none
    shaderProgram := none
    blendState := none
    depthState := none
    rasterizerState := none
    vertexAttributesDirty := false
    vertexBuffersDirty := false
    primitiveType := D.MAX_PRIMITIVE_TYPES
    scissorRect := D.defaultRect
    stencilRef := 0
    activeTexture := 0
    boundVBO := 0 }

/-- `Graphics::Graphics()`: the member initialisers, the default-constructed containers, then
`ResetState()`. `raw` stands for the memory the object is constructed in: the members the
constructor does not initialise keep its content. -/
def Graphics.construct (D : GraphicsDefs) (raw : Graphics) : Graphics :=
  ResetState D { raw with
    backbufferSize := ⟨0, 0⟩
    renderTargetSize := ⟨0, 0⟩
    attributeBySemantic := fun _ => []
    gpuObjects := []
    shaderPrograms := []
    renderTargetVector := [] }

/-- `Graphics::SetVertexBuffer`. -/
def SetVertexBuffer (D : GraphicsDefs) (g : Graphics) (index : Nat)
    (buffer : Option VertexBuffer) : Graphics × List GLCall :=
  if index < D.MAX_VERTEX_STREAMS ∧ buffer ≠ g.vertexBuffers index then
    ({ g with vertexBuffers := setAt g.vertexBuffers index buffer, vertexBuffersDirty := true }, [])
  else (g, [])

/-- `Graphics::BindVBO`. -/
def BindVBO (g : Graphics) (vbo : Nat) : Graphics × List GLCall :=
  if vbo ≠ g.boundVBO then
    ({ g with boundVBO := vbo }, [GLCall.glBindBuffer GL_ARRAY_BUFFER vbo])
  else (g, [])

/-! ## `PrepareDraw` -/

/-- Body of the loop over hardware slots in `PrepareDraw` (source lines 576-594). -/
def assignSlot (D : GraphicsDefs) (shaderAttributes : List (Nat × Nat)) (g : Graphics) (i : Nat) :
    Graphics × List Issued :=
  if i < shaderAttributes.length ∧ (shaderAttributes.getD i (0, 0)).1 < D.MAX_ELEMENT_SEMANTICS then
    let attr := shaderAttributes.getD i (0, 0)
    let en : Graphics × List Issued :=
      if g.vertexAttributes i = false then
        ({ g with vertexAttributes := setAt g.vertexAttributes i true },
          [⟨none, GLCall.glEnableVertexAttribArray i⟩])
      else (g, [])
    let v := en.1.attributeBySemantic attr.1
    let v1 := if v.length ≤ attr.2 then vectorResize D.resizeFill v (attr.2 + 1) else v
    ({ en.1 with
        attributeBySemantic := setAt en.1.attributeBySemantic attr.1 (v1.set attr.2 i) },
      en.2)
  else if g.vertexAttributes i = true then
    ({ g with vertexAttributes := setAt g.vertexAttributes i false },
      [⟨none, GLCall.glDisableVertexAttribArray i⟩])
  else (g, [])

/-- First part of `PrepareDraw` (source lines 566-599): shader-driven slot assignment. -/
def assignAttributes (D : GraphicsDefs) (g : Graphics) : Graphics × List Issued :=
  match g.shaderProgram with
  | some program =>
    if g.vertexAttributesDirty = true then
      let cleared : Graphics := { g with
        attributeBySemantic :=
          fun i => if i < D.MAX_ELEMENT_SEMANTICS then [] else g.attributeBySemantic i }
      let r := forEach (assignSlot D program.attributes) (List.range MAX_VERTEX_ATTRIBUTES) cleared
      ({ r.1 with vertexAttributesDirty := false, vertexBuffersDirty := true }, r.2)
    else (g, [])
  | none => (g, [])

/-- The data pointer of an element (source lines 624-626), computed in `size_t`. -/
def dataStart (D : GraphicsDefs) (instanceStart : Nat) (buffer : VertexBuffer)
    (element : VertexElement) : Nat :=
  if element.perInstance = true then
    (element.offset + (instanceStart * buffer.vertexSize) % 2 ^ D.sizeBits) % 2 ^ D.sizeBits
  else element.offset

/-- The instancing divisor of an element (source line 632). -/
def elementDivisor (element : VertexElement) : Nat :=
  if element.perInstance = true then 1 else 0

/-- The divisor update of `PrepareDraw` (source lines 633-637). -/
def setDivisor (g : Graphics) (attributeIndex divisor : Nat) : Graphics × List GLCall :=
  if divisor ≠ g.vertexAttributeDivisors attributeIndex then
    ({ g with vertexAttributeDivisors := setAt g.vertexAttributeDivisors attributeIndex divisor },
      [GLCall.glVertexAttribDivisorARB attributeIndex divisor])
  else (g, [])

/-- The hardware slot `attributeBySemantic[element.semantic][element.index]` (source line 623). -/
def attributeIndex (g : Graphics) (element : VertexElement) : Nat :=
  (g.attributeBySemantic element.semantic).getD element.index 0

/-- The `glVertexAttribPointer` call of source lines 628-630. The stride parameter is a 32-bit
`GLsizei`, to which `buffer->VertexSize()` is converted; the data pointer is a `size_t`. -/
def pointerCall (D : GraphicsDefs) (g : Graphics) (instanceStart : Nat) (buffer : VertexBuffer)
    (element : VertexElement) : GLCall :=
  GLCall.glVertexAttribPointer (attributeIndex g element)
    (elementGLComponents.getD element.type 0) (elementGLType.getD element.type 0)
    (decide (element.semantic = D.SEM_COLOR)) (buffer.vertexSize % 2 ^ 32)
    (dataStart D instanceStart buffer element)

/-- Body of the loop over the elements of the buffer in stream `i` (source lines 613-638);
`je` is the element number and the element. -/
def bindElement (D : GraphicsDefs) (instanced : Bool) (instanceStart : Nat) (i : Nat)
    (buffer : VertexBuffer) (g : Graphics) (je : Nat × VertexElement) : Graphics × List Issued :=
  if je.2.index < (g.attributeBySemantic je.2.semantic).length then
    if g.vertexBuffersDirty = false ∧ instanced = true ∧ je.2.perInstance = true then (g, [])
    else
      ((setDivisor (BindVBO g buffer.bufferObject).1
          (attributeIndex (BindVBO g buffer.bufferObject).1 je.2) (elementDivisor je.2)).1,
        ((BindVBO g buffer.bufferObject).2 ++
          [pointerCall D (BindVBO g buffer.bufferObject).1 instanceStart buffer je.2] ++
          (setDivisor (BindVBO g buffer.bufferObject).1
            (attributeIndex (BindVBO g buffer.bufferObject).1 je.2) (elementDivisor je.2)).2).map
          (Issued.mk (some (i, je.1))))
  else (g, [])

/-- Body of the loop over vertex streams (source lines 606-640). -/
def bindStream (D : GraphicsDefs) (instanced : Bool) (instanceStart : Nat) (g : Graphics)
    (i : Nat) : Graphics × List Issued :=
  match g.vertexBuffers i with
  | some buffer => forEach (bindElement D instanced instanceStart i buffer) buffer.elements.enum g
  | none => (g, [])

/-- Second part of `PrepareDraw` (source lines 601-644): buffer-driven attribute pointers. -/
def bindVertexBuffers (D : GraphicsDefs) (g : Graphics) (instanced : Bool) (instanceStart : Nat) :
    Graphics × List Issued :=
  if g.vertexBuffersDirty = true ∨ instanced = true then
    let r := forEach (bindStream D instanced instanceStart) (List.range D.MAX_VERTEX_STREAMS) g
    ({ r.1 with vertexBuffersDirty := false }, r.2)
  else (g, [])

/-- `Graphics::PrepareDraw(instanced, instanceStart)`. -/
def PrepareDraw (D : GraphicsDefs) (g : Graphics) (instanced : Bool) (instanceStart : Nat) :
    Graphics × List Issued :=
  ((bindVertexBuffers D (assignAttributes D g).1 instanced instanceStart).1,
    (assignAttributes D g).2 ++ (bindVertexBuffers D (assignAttributes D g).1 instanced instanceStart).2)

/-- `Graphics::DrawInstanced(type, vertexStart, vertexCount, instanceStart, instanceCount)`, the
non-indexed form. -/
def DrawInstanced (D : GraphicsDefs) (g : Graphics)
    (type vertexStart vertexCount instanceStart instanceCount : Nat) : Graphics × List GLCall :=
  ((PrepareDraw D g true instanceStart).1,
    (PrepareDraw D g true instanceStart).2.map Issued.call ++
      [GLCall.glDrawArraysInstanced (glPrimitiveType.getD type 0) (vertexStart % 2 ^ 32)
        (vertexCount % 2 ^ 32) (instanceCount % 2 ^ 32)])

/-! ## Shader programs -/

/-- `shaderPrograms.Find(key)` on the program cache, a map from (vertex shader, pixel shader) to
the program it owns. -/
def findProgram (cache : List ((Nat × Nat) × ShaderProgram)) (key : Nat × Nat) :
    Option ShaderProgram :=
  (cache.find? (fun e => decide (e.1 = key))).map Prod.snd

/-- `shaderPrograms[key] = program`. -/
def insertProgram (cache : List ((Nat × Nat) × ShaderProgram)) (key : Nat × Nat)
    (program : ShaderProgram) : List ((Nat × Nat) × ShaderProgram) :=
  if cache.any (fun e => decide (e.1 = key)) then
    cache.map (fun e => if e.1 = key then (key, program) else e)
  else cache ++ [(key, program)]

/-- The lazy compilation in `SetShaders` (source lines 276-280 and 287-291). -/
def compileIfNeeded (B : Backend) (g : Graphics) (shader : Option Nat) (stage : Nat) : Graphics :=
  match shader with
  | some a =>
    if (g.shaderVariations a).stage = stage ∧ (g.shaderVariations a).compiled = false then
      { g with shaderVariations := setAt g.shaderVariations a (B.Compile (g.shaderVariations a)) }
    else g
  | none => g

/-- The program lookup, creation and binding in `SetShaders` (source lines 296-324). -/
def bindProgram (B : Backend) (g : Graphics) : Graphics × List GLCall :=
  match g.vertexShader, g.pixelShader with
  | some v, some p =>
    if (g.shaderVariations v).shaderObject ≠ 0 ∧ (g.shaderVariations p).shaderObject ≠ 0 then
      match findProgram g.shaderPrograms (v, p) with
      | some program =>
        ({ g with shaderProgram := some program }, [GLCall.glUseProgram program.programObject])
      | none =>
        let l := B.Link (g.shaderVariations v) (g.shaderVariations p)
        let newProgram : ShaderProgram := ⟨g.nextProgram, l.programObject, l.attributes⟩
        let g1 : Graphics := { g with
          shaderPrograms := insertProgram g.shaderPrograms (v, p) newProgram
          nextProgram := g.nextProgram + 1 }
        if l.success = true then
          ({ g1 with shaderProgram := some newProgram }, [GLCall.glUseProgram l.programObject])
        else ({ g1 with shaderProgram := none }, [GLCall.glUseProgram 0])
    else ({ g with shaderProgram := none }, [GLCall.glUseProgram 0])
  | _, _ => ({ g with shaderProgram := none }, [GLCall.glUseProgram 0])

/-- The vertex-shader tracking of `SetShaders` (source lines 274-283). -/
def trackVertexShader (D : GraphicsDefs) (B : Backend) (g : Graphics) (vs : Option Nat) :
    Graphics :=
  if vs ≠ g.vertexShader then { compileIfNeeded B g vs D.SHADER_VS with vertexShader := vs }
  else g

/-- The pixel-shader tracking of `SetShaders` (source lines 285-294). -/
def trackPixelShader (D : GraphicsDefs) (B : Backend) (g : Graphics) (ps : Option Nat) :
    Graphics :=
  if ps ≠ g.pixelShader then { compileIfNeeded B g ps D.SHADER_PS with pixelShader := ps }
  else g

/-- The shader tracking of `SetShaders` (source lines 274-294): compile what is not compiled
yet and record the two shaders. -/
def trackShaders (D : GraphicsDefs) (B : Backend) (g : Graphics) (vs ps : Option Nat) : Graphics :=
  trackPixelShader D B (trackVertexShader D B g vs) ps

/-- `Graphics::SetShaders(vs, ps)`. -/
def SetShaders (D : GraphicsDefs) (B : Backend) (g : Graphics) (vs ps : Option Nat) :
    Graphics × List GLCall :=
  if vs = g.vertexShader ∧ ps = g.pixelShader then (g, [])
  else
    ({ (bindProgram B (trackShaders D B g vs ps)).1 with vertexAttributesDirty := true },
      (bindProgram B (trackShaders D B g vs ps)).2)

/-- The erase loops of `CleanupShaderPrograms` (source lines 521-531 and 535-545): `hit` is the
test on the key, `current` the value of `shaderProgram`. Programs are compared by address. -/
def cleanupLoop (hit : Nat × Nat → Bool) :
    List ((Nat × Nat) × ShaderProgram) → Option ShaderProgram →
      List ((Nat × Nat) × ShaderProgram) × Option ShaderProgram
  | [], current => ([], current)
  | e :: rest, current =>
    if hit e.1 = true then
      cleanupLoop hit rest (if current.map ShaderProgram.addr = some e.2.addr then none else current)
    else ((e :: (cleanupLoop hit rest current).1), (cleanupLoop hit rest current).2)

/-- `Graphics::CleanupShaderPrograms(shader)`. -/
def CleanupShaderPrograms (D : GraphicsDefs) (g : Graphics) (shader : Option Nat) :
    Graphics × List GLCall :=
  match shader with
  | none => (g, [])
  | some s =>
    if (g.shaderVariations s).stage = D.SHADER_VS then
      ({ g with
          shaderPrograms := (cleanupLoop (fun k => decide (k.1 = s)) g.shaderPrograms g.shaderProgram).1
          shaderProgram := (cleanupLoop (fun k => decide (k.1 = s)) g.shaderPrograms g.shaderProgram).2 },
        [])
    else
      ({ g with
          shaderPrograms := (cleanupLoop (fun k => decide (k.2 = s)) g.shaderPrograms g.shaderProgram).1
          shaderProgram := (cleanupLoop (fun k => decide (k.2 = s)) g.shaderPrograms g.shaderProgram).2 },
        [])

/-- `Graphics::Close()`. The loop calls `Release()` once for every entry of `gpuObjects`, in
order: the calls are appended to `released`, and a shader variation is released as many times
as its address is in the vector. Tearing down the context and closing the window touch no
tracked member. -/
def Close (D : GraphicsDefs) (B : Backend) (g : Graphics) : Graphics × List GLCall :=
  (ResetState D { g with
      shaderPrograms := []
      released := g.released ++ g.gpuObjects
      shaderVariations :=
        fun a => Nat.iterate B.Release (g.gpuObjects.count a) (g.shaderVariations a)
      backbufferSize := ⟨0, 0⟩ },
    [])

/-- `Graphics::AddGPUObject(object)`; `none` is the null pointer. -/
def AddGPUObject (g : Graphics) (object : Option Nat) : Graphics :=
  match object with
  | some o => { g with gpuObjects := g.gpuObjects ++ [o] }
  | none => g

/-- Modelled from the spec: `Vector<T>::Remove(value)` of Base/Vector.h, which is not among the
sources. The spec has "deregistration on resource destruction is a linear scan": the first
element equal to the value, if there is one, is erased. -/
def vectorRemove (v : List Nat) (value : Nat) : List Nat := v.erase value

/-- `Graphics::RemoveGPUObject(object)`. -/
def RemoveGPUObject (g : Graphics) (object : Nat) : Graphics :=
  { g with gpuObjects := vectorRemove g.gpuObjects object }

/-! ## The other setters and the accessors -/

/-- Modelled from the spec: `Clamp` of Math/Math.h, which is not among the sources. The spec has
the viewport and scissor setters "clamp the requested rectangle" into the render target, "left/top
clamped ≥0" and "right/bottom clamped to render-target bounds": the value when it lies between
the two bounds, otherwise the bound it passes. -/
def Clamp (value lo hi : Int) : Int :=
  if value < lo then lo else if value > hi then hi else value

/-- `Graphics::SetRenderTargets`. `renderTargets_` is the vector of color targets. -/
def SetRenderTargets (D : GraphicsDefs) (g : Graphics) (renderTargets_ : List (Option Texture))
    (depthStencil_ : Option Texture) : Graphics × List GLCall :=
  if renderTargets_.isEmpty = true then (g, [])
  else
    let copied : Nat → Option Texture := fun i =>
      if i < D.MAX_RENDERTARGETS ∧ i < renderTargets_.length then renderTargets_.getD i none
      else g.renderTargets i
    let cleared : Nat → Option Texture := fun i =>
      if renderTargets_.length ≤ i ∧ i < D.MAX_RENDERTARGETS then none else copied i
    ({ g with
        renderTargets := cleared
        depthStencil := depthStencil_
        renderTargetSize :=
          match cleared 0 with
          | some target => ⟨target.width, target.height⟩
          | none => g.backbufferSize },
      [])

/-- `Graphics::SetRenderTarget`: the helper vector is resized to one element, which is then
assigned. -/
def SetRenderTarget (D : GraphicsDefs) (g : Graphics) (renderTarget_ depthStencil_ : Option Texture) :
    Graphics × List GLCall :=
  SetRenderTargets D { g with renderTargetVector := [renderTarget_] } [renderTarget_] depthStencil_

/-- `Graphics::ResetRenderTargets`. -/
def ResetRenderTargets (D : GraphicsDefs) (g : Graphics) : Graphics × List GLCall :=
  SetRenderTarget D g none none

/-- `Graphics::SetViewport`. -/
def SetViewport (g : Graphics) (viewport_ : IntRect) : Graphics × List GLCall :=
  let left := Clamp viewport_.left 0 (g.renderTargetSize.x - 1)
  let top := Clamp viewport_.top 0 (g.renderTargetSize.y - 1)
  let right := Clamp viewport_.right (left + 1) g.renderTargetSize.x
  let bottom := Clamp viewport_.bottom (top + 1) g.renderTargetSize.y
  ({ g with viewport := ⟨left, top, right, bottom⟩ },
    [GLCall.glViewport left top (right - left) (bottom - top)])

/-- `buffer ? buffer->BufferObject() : 0` for a constant buffer. -/
def constantBufferObject (buffer : Option ConstantBuffer) : Nat :=
  match buffer with
  | some b => b.bufferObject
  | none => 0

/-- The `glBindBufferBase` call of `SetConstantBuffer`, if any (source lines 214-228). The
binding point is passed as a 32-bit `GLuint`. -/
def bindConstantBuffer (D : GraphicsDefs) (g : Graphics) (stage index bufferObject : Nat) :
    List GLCall :=
  if stage = D.SHADER_VS then
    if index < g.vsConstantBuffers then
      [GLCall.glBindBufferBase GL_UNIFORM_BUFFER (index % 2 ^ 32) bufferObject]
    else []
  else if stage = D.SHADER_PS then
    if index < g.psConstantBuffers then
      [GLCall.glBindBufferBase GL_UNIFORM_BUFFER ((index + g.vsConstantBuffers) % 2 ^ 32)
        bufferObject]
    else []
  else []

/-- `Graphics::SetConstantBuffer`. -/
def SetConstantBuffer (D : GraphicsDefs) (g : Graphics) (stage index : Nat)
    (buffer : Option ConstantBuffer) : Graphics × List GLCall :=
  if stage < D.MAX_SHADER_STAGES ∧ index < D.MAX_CONSTANT_BUFFERS ∧
      buffer ≠ g.constantBuffers stage index then
    ({ g with
        constantBuffers :=
          setAt g.constantBuffers stage (setAt (g.constantBuffers stage) index buffer) },
      bindConstantBuffer D g stage index (constantBufferObject buffer))
  else (g, [])

/-- The active-unit switch of `SetTexture` (source lines 238-242); `activeTexture` is an
`unsigned`. -/
def activateUnit (g : Graphics) (index : Nat) : Graphics × List GLCall :=
  if index ≠ g.activeTexture then
    ({ g with activeTexture := index % 2 ^ 32 },
      [GLCall.glActiveTexture ((GL_TEXTURE0 + index) % 2 ^ 32)])
  else (g, [])

/-- The binding of `SetTexture` (source lines 243-256), run once the unit is active. -/
def bindTexture (g : Graphics) (index : Nat) (texture : Option Texture) : Graphics × List GLCall :=
  match texture with
  | some t =>
    if t.target ≠ g.textureTargets index then
      ({ g with textureTargets := setAt g.textureTargets index t.target },
        (if g.textureTargets index ≠ 0 then [GLCall.glDisable (g.textureTargets index)] else []) ++
          [GLCall.glEnable t.target, GLCall.glBindTexture t.target t.textureObject])
    else (g, [GLCall.glBindTexture t.target t.textureObject])
  | none =>
    if g.textureTargets index ≠ 0 then (g, [GLCall.glBindTexture (g.textureTargets index) 0])
    else (g, [])

/-- `Graphics::SetTexture`. -/
def SetTexture (D : GraphicsDefs) (g : Graphics) (index : Nat) (texture : Option Texture) :
    Graphics × List GLCall :=
  if index < D.MAX_TEXTURE_UNITS ∧ texture ≠ g.textures index then
    ((bindTexture (activateUnit { g with textures := setAt g.textures index texture } index).1
        index texture).1,
      (activateUnit { g with textures := setAt g.textures index texture } index).2 ++
        (bindTexture (activateUnit { g with textures := setAt g.textures index texture } index).1
          index texture).2)
  else (g, [])

/-- `buffer ? buffer->BufferObject() : 0` for an index buffer. -/
def indexBufferObject (buffer : Option IndexBuffer) : Nat :=
  match buffer with
  | some b => b.bufferObject
  | none => 0

/-- `Graphics::SetIndexBuffer`. -/
def SetIndexBuffer (g : Graphics) (buffer : Option IndexBuffer) : Graphics × List GLCall :=
  if g.indexBuffer ≠ buffer then
    ({ g with indexBuffer := buffer },
      [GLCall.glBindBuffer GL_ELEMENT_ARRAY_BUFFER (indexBufferObject buffer)])
  else (g, [])

/-- `Graphics::SetBlendState`. -/
def SetBlendState (g : Graphics) (state : Option Nat) : Graphics × List GLCall :=
  if state ≠ g.blendState then ({ g with blendState := state }, []) else (g, [])

/-- `Graphics::SetDepthState`. -/
def SetDepthState (g : Graphics) (state : Option Nat) (stencilRef_ : Nat) :
    Graphics × List GLCall :=
  if state ≠ g.depthState ∨ stencilRef_ ≠ g.stencilRef then ({ g with depthState := state }, [])
  else (g, [])

/-- `Graphics::SetRasterizerState`. -/
def SetRasterizerState (g : Graphics) (state : Option Nat) : Graphics × List GLCall :=
  if state ≠ g.rasterizerState then ({ g with rasterizerState := state }, []) else (g, [])

/-- `Graphics::SetScissorRect`. -/
def SetScissorRect (g : Graphics) (scissorRect_ : IntRect) : Graphics × List GLCall :=
  if scissorRect_ ≠ g.scissorRect then
    let left := Clamp scissorRect_.left 0 (g.renderTargetSize.x - 1)
    let top := Clamp scissorRect_.top 0 (g.renderTargetSize.y - 1)
    let right := Clamp scissorRect_.right (left + 1) g.renderTargetSize.x
    let bottom := Clamp scissorRect_.bottom (top + 1) g.renderTargetSize.y
    ({ g with scissorRect := ⟨left, top, right, bottom⟩ }, [])
  else (g, [])

/-- `Graphics::RenderTarget(index)`. -/
def RenderTarget (D : GraphicsDefs) (g : Graphics) (index : Nat) : Option Texture :=
  if index < D.MAX_RENDERTARGETS then g.renderTargets index else none

/-- `Graphics::DepthStencil()`. -/
def DepthStencil (g : Graphics) : Option Texture := g.depthStencil

/-- `Graphics::GetVertexBuffer(index)`. -/
def GetVertexBuffer (D : GraphicsDefs) (g : Graphics) (index : Nat) : Option VertexBuffer :=
  if index < D.MAX_VERTEX_STREAMS then g.vertexBuffers index else none

/-- `Graphics::GetConstantBuffer(stage, index)`. -/
def GetConstantBuffer (D : GraphicsDefs) (g : Graphics) (stage index : Nat) :
    Option ConstantBuffer :=
  if stage < D.MAX_SHADER_STAGES ∧ index < D.MAX_CONSTANT_BUFFERS then
    g.constantBuffers stage index
  else none

/-- `Graphics::GetTexture(index)`. -/
def GetTexture (D : GraphicsDefs) (g : Graphics) (index : Nat) : Option Texture :=
  if index < D.MAX_TEXTURE_UNITS then g.textures index else none

/-- `Graphics::GetIndexBuffer()`. -/
def GetIndexBuffer (g : Graphics) : Option IndexBuffer := g.indexBuffer

/-- `Graphics::GetVertexShader()`. -/
def GetVertexShader (g : Graphics) : Option Nat := g.vertexShader

/-- `Graphics::GetPixelShader()`. -/
def GetPixelShader (g : Graphics) : Option Nat := g.pixelShader

/-- `Graphics::GetBlendState()`. -/
def GetBlendState (g : Graphics) : Option Nat := g.blendState

/-- `Graphics::GetDepthState()`. -/
def GetDepthState (g : Graphics) : Option Nat := g.depthState

/-- `Graphics::GetRasterizerState()`. -/
def GetRasterizerState (g : Graphics) : Option Nat := g.rasterizerState

/-- `Graphics::StencilRef()`. -/
def StencilRef (g : Graphics) : Nat := g.stencilRef

/-- `Graphics::RenderTargetWidth()`. -/
def RenderTargetWidth (g : Graphics) : Int := g.renderTargetSize.x

/-- `Graphics::RenderTargetHeight()`. -/
def RenderTargetHeight (g : Graphics) : Int := g.renderTargetSize.y

/-- `Graphics::Width()`. -/
def Width (g : Graphics) : Int := g.backbufferSize.x

/-- `Graphics::Height()`. -/
def Height (g : Graphics) : Int := g.backbufferSize.y

/-! ## `ResetConstantBuffers` and the draw calls -/

/-- The inner loop of `ResetConstantBuffers` (source lines 385-386) for stage `i`, entered with
counter `j`: `for (size_t j = 0; i < MAX_CONSTANT_BUFFERS; ++j) SetConstantBuffer(i, j, nullptr)`.
The loop test reads `i`. In `resetStage D i fuel j g`, `fuel` bounds the number of iterations
the model runs: the result is `none` when the loop wants more. -/
def resetStage (D : GraphicsDefs) (i : Nat) : Nat → Nat → Graphics → Option (Graphics × List GLCall)
  | 0, _, g => if i < D.MAX_CONSTANT_BUFFERS then none else some (g, [])
  | fuel + 1, j, g =>
    if i < D.MAX_CONSTANT_BUFFERS then
      match resetStage D i fuel ((j + 1) % 2 ^ D.sizeBits) (SetConstantBuffer D g i j none).1 with
      | some r => some (r.1, (SetConstantBuffer D g i j none).2 ++ r.2)
      | none => none
    else some (g, [])

/-- The outer loop of `ResetConstantBuffers` (source lines 383-387) over the stages `stages`. -/
def resetStages (D : GraphicsDefs) (fuel : Nat) :
    List Nat → Graphics → Option (Graphics × List GLCall)
  | [], g => some (g, [])
  | i :: rest, g =>
    match resetStage D i fuel 0 g with
    | some r =>
      match resetStages D fuel rest r.1 with
      | some q => some (q.1, r.2 ++ q.2)
      | none => none
    | none => none

/-- `Graphics::ResetConstantBuffers()`, each inner loop run for at most `fuel` iterations. -/
def ResetConstantBuffers (D : GraphicsDefs) (fuel : Nat) (g : Graphics) :
    Option (Graphics × List GLCall) :=
  resetStages D fuel (List.range D.MAX_SHADER_STAGES) g

def GL_UNSIGNED_SHORT : Nat := 0x1403
def GL_UNSIGNED_INT : Nat := 0x1405

/-- The index type argument of the indexed draw calls:
`indexSize == sizeof(unsigned short) ? GL_UNSIGNED_SHORT : GL_UNSIGNED_INT`. -/
def indexType (indexSize : Nat) : Nat :=
  if indexSize = 2 then GL_UNSIGNED_SHORT else GL_UNSIGNED_INT

/-- `Graphics::Draw(type, vertexStart, vertexCount)`, the non-indexed form. -/
def Draw (D : GraphicsDefs) (g : Graphics) (type vertexStart vertexCount : Nat) :
    Graphics × List GLCall :=
  ((PrepareDraw D g false 0).1,
    (PrepareDraw D g false 0).2.map Issued.call ++
      [GLCall.glDrawArrays (glPrimitiveType.getD type 0) (vertexStart % 2 ^ 32)
        (vertexCount % 2 ^ 32)])

/-- `Graphics::Draw(type, indexStart, indexCount, vertexStart)`, the indexed form. -/
def DrawIndexed (D : GraphicsDefs) (g : Graphics) (type indexStart indexCount vertexStart : Nat) :
    Graphics × List GLCall :=
  match g.indexBuffer with
  | none => (g, [])
  | some buffer =>
    ((PrepareDraw D g false 0).1,
      (PrepareDraw D g false 0).2.map Issued.call ++
        [if vertexStart = 0 then
          GLCall.glDrawElements (glPrimitiveType.getD type 0) (indexCount % 2 ^ 32)
            (indexType buffer.indexSize) ((indexStart * buffer.indexSize) % 2 ^ D.sizeBits)
        else
          GLCall.glDrawElementsBaseVertex (glPrimitiveType.getD type 0) (indexCount % 2 ^ 32)
            (indexType buffer.indexSize) ((indexStart * buffer.indexSize) % 2 ^ D.sizeBits)
            (vertexStart % 2 ^ 32)])

/-- `Graphics::DrawInstanced(type, indexStart, indexCount, vertexStart, instanceStart,
instanceCount)`, the indexed form. -/
def DrawInstancedIndexed (D : GraphicsDefs) (g : Graphics)
    (type indexStart indexCount vertexStart instanceStart instanceCount : Nat) :
    Graphics × List GLCall :=
  match g.indexBuffer with
  | none => (g, [])
  | some buffer =>
    ((PrepareDraw D g true instanceStart).1,
      (PrepareDraw D g true instanceStart).2.map Issued.call ++
        [if vertexStart = 0 then
          GLCall.glDrawElementsInstanced (glPrimitiveType.getD type 0) (indexCount % 2 ^ 32)
            (indexType buffer.indexSize) ((indexStart * buffer.indexSize) % 2 ^ D.sizeBits)
            (instanceCount % 2 ^ 32)
        else
          GLCall.glDrawElementsInstancedBaseVertex (glPrimitiveType.getD type 0)
            (indexCount % 2 ^ 32) (indexType buffer.indexSize)
            ((indexStart * buffer.indexSize) % 2 ^ D.sizeBits) (instanceCount % 2 ^ 32)
            (vertexStart % 2 ^ 32)])

/-! ## Sample configuration and sample runs -/

/-- The values of Turso3D for the constants (for the sample runs only): four vertex streams,
semantics POSITION = 0, NORMAL = 1, BINORMAL = 2, TANGENT = 3, TEXCOORD = 4, COLOR = 5,
BLENDWEIGHT = 6, BLENDINDICES = 7, appended vector elements zero, a zero default rectangle,
`size_t` of 64 bits. -/
def sampleDefs : GraphicsDefs where
  MAX_VERTEX_STREAMS := 4
  MAX_CONSTANT_BUFFERS := 15
  MAX_TEXTURE_UNITS := 16
  MAX_RENDERTARGETS := 4
  MAX_SHADER_STAGES := 2
  SHADER_VS := 0
  SHADER_PS := 1
  MAX_ELEMENT_SEMANTICS := 8
  SEM_COLOR := 5
  MAX_PRIMITIVE_TYPES := 6
  resizeFill := 0
  defaultRect := ⟨0, 0, 0, 0⟩
  sizeBits := 64

def SEM_POSITION : Nat := 0
def SEM_NORMAL : Nat := 1
def SEM_TEXCOORD : Nat := 4

/-- The sample configuration with another value for appended vector elements. -/
def sampleDefsFill (fill : Nat) : GraphicsDefs := { sampleDefs with resizeFill := fill }

/-- Memory before construction: every member zero; the shader variation at address `a` is
already compiled, with stage `a % 2` and shader object `a`. -/
def rawMemory : Graphics where
  backbufferSize := ⟨0, 0⟩
  renderTargetSize := ⟨0, 0⟩
  viewport := ⟨0, 0, 0, 0⟩
  gpuObjects := []
  shaderPrograms := []
  vertexBuffers := fun _ => none
  vertexAttributes := fun _ => false
  vertexAttributeDivisors := fun _ => 0
  attributeBySemantic := fun _ => []
  indexBuffer := none
  constantBuffers := fun _ _ => none
  textures := fun _ => none
  textureTargets := fun _ => 0
  renderTargets := fun _ => none
  depthStencil := none
  renderTargetVector := []
  vertexShader := none
  pixelShader := none
  shaderProgram := none
  blendState := none
  depthState := none
  rasterizerState := none
  primitiveType := 0
  scissorRect := ⟨0, 0, 0, 0⟩
  stencilRef := 0
  vsConstantBuffers := 0
  psConstantBuffers := 0
  activeTexture := 0
  boundVBO := 0
  vertexAttributesDirty := false
  vertexBuffersDirty := false
  shaderVariations := fun a => ⟨a % 2, true, a⟩
  nextProgram := 1000
  released := []

/-- A sample back end. Linking fails when the pixel shader has shader object 9; otherwise the
program object is the sum of the two shader objects, and the attribute list is chosen by the
vertex shader's object: 2 declares POSITION 0 and TEXCOORD 0; 4 declares NORMAL 0, an unknown
semantic and POSITION 0; 6 declares TEXCOORD 1 only; 8 declares TEXCOORD 0 only. -/
def sampleBackend : Backend where
  Compile := fun v => { v with compiled := true }
  Release := fun v => { v with compiled := false, shaderObject := 0 }
  Link := fun vs ps =>
    if ps.shaderObject = 9 then ⟨false, 0, []⟩
    else ⟨true, vs.shaderObject + ps.shaderObject,
      if vs.shaderObject = 2 then [(SEM_POSITION, 0), (SEM_TEXCOORD, 0)]
      else if vs.shaderObject = 4 then [(SEM_NORMAL, 0), (8, 0), (SEM_POSITION, 0)]
      else if vs.shaderObject = 6 then [(SEM_TEXCOORD, 1)]
      else if vs.shaderObject = 8 then [(SEM_TEXCOORD, 0)]
      else []⟩

/-- A freshly constructed `Graphics`. -/
def fresh (D : GraphicsDefs) : Graphics := Graphics.construct D rawMemory

/-- A vertex buffer with one per-vertex element, TEXCOORD 0 (two floats). -/
def texcoordBuffer : VertexBuffer := ⟨500, 11, 8, [⟨2, SEM_TEXCOORD, 0, false, 0⟩]⟩

/-- Sample run: shaders 6 and 3 bound (the program declares TEXCOORD 1 only, at slot 0) and
`texcoordBuffer` in stream 0. -/
def texcoordOneState (fill : Nat) : Graphics :=
  (SetVertexBuffer (sampleDefsFill fill)
    (SetShaders (sampleDefsFill fill) sampleBackend (fresh (sampleDefsFill fill)) (some 6) (some 3)).1
    0 (some texcoordBuffer)).1

/-- Sample run: shaders 2 and 3 bound and one draw prepared (slots 0 and 1 enabled), then
shaders 4 and 3 bound (NORMAL at slot 0, an unknown semantic at slot 1, POSITION at slot 2). -/
def secondShaderState : Graphics :=
  (SetShaders sampleDefs sampleBackend
    (PrepareDraw sampleDefs
      (SetShaders sampleDefs sampleBackend (fresh sampleDefs) (some 2) (some 3)).1 false 0).1
    (some 4) (some 3)).1

/-- A mesh vertex buffer: one per-vertex element, POSITION 0 (three floats), 12 bytes a vertex. -/
def meshBuffer : VertexBuffer := ⟨600, 21, 12, [⟨3, SEM_POSITION, 0, false, 0⟩]⟩

/-- A vertex buffer that reports a vertex size of 2^32 + 12 bytes: one per-vertex element,
POSITION 0 (three floats). -/
def wideBuffer : VertexBuffer := ⟨650, 23, 2 ^ 32 + 12, [⟨3, SEM_POSITION, 0, false, 0⟩]⟩

/-- Sample run: shaders 2 and 3 bound and `wideBuffer` in stream 0. -/
def wideStrideState : Graphics :=
  (SetVertexBuffer sampleDefs
    (SetShaders sampleDefs sampleBackend (fresh sampleDefs) (some 2) (some 3)).1
    0 (some wideBuffer)).1

/-- An instance-data vertex buffer: one per-instance element, TEXCOORD 0 (four floats), 16 bytes
an instance. -/
def instanceBuffer : VertexBuffer := ⟨700, 22, 16, [⟨4, SEM_TEXCOORD, 0, true, 0⟩]⟩

/-- Sample run: shaders 2 and 3 bound (POSITION 0 at slot 0, TEXCOORD 0 at slot 1),
`meshBuffer` in stream 0 and `instanceBuffer` in stream 1. -/
def instancedState : Graphics :=
  (SetVertexBuffer sampleDefs
    (SetVertexBuffer sampleDefs
      (SetShaders sampleDefs sampleBackend (fresh sampleDefs) (some 2) (some 3)).1
      0 (some meshBuffer)).1
    1 (some instanceBuffer)).1

/-- Sample run: `instancedState` after a first instanced draw of 10 instances from instance 0. -/
def afterFirstDraw : Graphics := (DrawInstanced sampleDefs instancedState 4 0 3 0 10).1

/-- Sample run: shaders 8 and 3 bound (TEXCOORD 0 at slot 0), `texcoordBuffer` in stream 0 and
`instanceBuffer` in stream 1: a per-vertex and a per-instance element with the same semantic and
index. -/
def sharedSlotState : Graphics :=
  (SetVertexBuffer sampleDefs
    (SetVertexBuffer sampleDefs
      (SetShaders sampleDefs sampleBackend (fresh sampleDefs) (some 8) (some 3)).1
      0 (some texcoordBuffer)).1
    1 (some instanceBuffer)).1

/-- Sample run: shaders 2 and 9 bound on a fresh `Graphics`; linking a program with the pixel
shader at address 9 fails. -/
def failedLinkState : Graphics :=
  (SetShaders sampleDefs sampleBackend (fresh sampleDefs) (some 2) (some 9)).1

/-- Sample run: after the failed link, the shaders are unbound and then bound again. -/
def reboundState : Graphics :=
  (SetShaders sampleDefs sampleBackend
    (SetShaders sampleDefs sampleBackend failedLinkState none none).1 (some 2) (some 9)).1

/-- Sample run: shaders 2 and 3 bound (the link succeeds), then shaders 2 and 9. -/
def relinkFailedState : Graphics :=
  (SetShaders sampleDefs sampleBackend
    (SetShaders sampleDefs sampleBackend (fresh sampleDefs) (some 2) (some 3)).1
    (some 2) (some 9)).1

/-- Sample run: shaders 2 and 3 bound on a fresh `Graphics`, then shaders 4 and 3. -/
def twoProgramsState : Graphics :=
  (SetShaders sampleDefs sampleBackend
    (SetShaders sampleDefs sampleBackend (fresh sampleDefs) (some 2) (some 3)).1
    (some 4) (some 3)).1

/-- Sample run: shaders 2 and 3 bound on a fresh `Graphics` (the link succeeds). -/
def boundProgramState : Graphics :=
  (SetShaders sampleDefs sampleBackend (fresh sampleDefs) (some 2) (some 3)).1

/-- Sample run: the shader at address 3, which reports the pixel stage, bound as vertex shader
and the shader at address 2, which reports the vertex stage, bound as pixel shader. -/
def wrongSideState : Graphics :=
  (SetShaders sampleDefs sampleBackend (fresh sampleDefs) (some 3) (some 2)).1

/-- Sample run: a fresh `Graphics` on a device that reports 12 uniform blocks for each stage
(the query of `SetMode`, source lines 100-104). -/
def queriedState : Graphics :=
  { fresh sampleDefs with vsConstantBuffers := 12, psConstantBuffers := 12 }

def sampleConstantBuffer : ConstantBuffer := ⟨800, 31⟩

/-- A 2D texture (target `GL_TEXTURE_2D`) of 800 x 600. -/
def largeTarget : Texture := ⟨900, 0x0DE1, 41, 800, 600⟩

/-- A 2D texture of 100 x 100. -/
def smallTarget : Texture := ⟨901, 0x0DE1, 42, 100, 100⟩

/-- Sample run: `largeTarget` set as the render target of a fresh `Graphics`. -/
def largeTargetState : Graphics := (SetRenderTarget sampleDefs (fresh sampleDefs) (some largeTarget) none).1

/-- Sample run: with `largeTarget` as render target the scissor rectangle is set to the whole
target, then `smallTarget` becomes the render target. -/
def shrunkTargetState : Graphics :=
  (SetRenderTarget sampleDefs
    (SetScissorRect largeTargetState ⟨0, 0, 800, 600⟩).1 (some smallTarget) none).1

/-- The states `Graphics` goes through: construction, then any sequence of the operations
above. -/
inductive Reachable (D : GraphicsDefs) (B : Backend) : Graphics → Prop where
  | construct (raw : Graphics) : Reachable D B (Graphics.construct D raw)
  | setShaders (g : Graphics) (vs ps : Option Nat) :
      Reachable D B g → Reachable D B (SetShaders D B g vs ps).1
  | cleanupShaderPrograms (g : Graphics) (shader : Option Nat) :
      Reachable D B g → Reachable D B (CleanupShaderPrograms D g shader).1
  | close (g : Graphics) : Reachable D B g → Reachable D B (Close D B g).1
  | setVertexBuffer (g : Graphics) (index : Nat) (buffer : Option VertexBuffer) :
      Reachable D B g → Reachable D B (SetVertexBuffer D g index buffer).1
  | bindVBO (g : Graphics) (vbo : Nat) : Reachable D B g → Reachable D B (BindVBO g vbo).1
  | prepareDraw (g : Graphics) (instanced : Bool) (instanceStart : Nat) :
      Reachable D B g → Reachable D B (PrepareDraw D g instanced instanceStart).1

/-! ## The part of the OpenGL state the attribute pointers live in -/

/-- What `glVertexAttribPointer` records for a slot: the buffer bound to `GL_ARRAY_BUFFER` at the
time of the call, and the arguments. -/
structure AttribPointer where
  buffer : Nat
  size : Nat
  type : Nat
  normalized : Bool
  stride : Nat
  pointer : Nat
deriving DecidableEq, Repr

/-- The `GL_ARRAY_BUFFER` binding and the attribute pointer of each slot (OpenGL's side). -/
structure GLState where
  arrayBuffer : Nat
  pointers : Nat → Option AttribPointer

/-- The effect of one call on the `GL_ARRAY_BUFFER` binding and the attribute pointers, as
OpenGL defines it. -/
def GLState.apply (s : GLState) : GLCall → GLState
  | GLCall.glBindBuffer target buffer =>
    if target = GL_ARRAY_BUFFER then { s with arrayBuffer := buffer } else s
  | GLCall.glVertexAttribPointer index size type normalized stride pointer =>
    { s with pointers :=
        setAt s.pointers index (some ⟨s.arrayBuffer, size, type, normalized, stride, pointer⟩) }
  | _ => s

/-- The OpenGL state after a list of calls. -/
def GLState.replay (s : GLState) (calls : List GLCall) : GLState :=
  calls.foldl GLState.apply s

/-- OpenGL state of a new context: nothing bound, no pointer set. -/
def glInitial : GLState := ⟨0, fun _ => none⟩

/-- The variant of `PrepareDraw` the specification compares with: the same two parts, but the
vertex-buffer loop never skips an element (the test of source line 618 always fails when the
vertex buffers are dirty, so the loop is run as if they were). -/
def PrepareDrawNoSkip (D : GraphicsDefs) (g : Graphics) (instanced : Bool) (instanceStart : Nat) :
    Graphics × List Issued :=
  ((bindVertexBuffers D { (assignAttributes D g).1 with vertexBuffersDirty := true }
      instanced instanceStart).1,
    (assignAttributes D g).2 ++
      (bindVertexBuffers D { (assignAttributes D g).1 with vertexBuffersDirty := true }
        instanced instanceStart).2)

/-- OpenGL state after the first draw of the sample run. -/
def apiAfterFirstDraw : GLState :=
  glInitial.replay
    ((SetShaders sampleDefs sampleBackend (fresh sampleDefs) (some 2) (some 3)).2 ++
      (DrawInstanced sampleDefs instancedState 4 0 3 0 10).2)

/-! ## The buffer bindings and the active texture unit on OpenGL's side -/

/-- The `GL_ARRAY_BUFFER` and `GL_ELEMENT_ARRAY_BUFFER` bindings and the active texture unit, the
latter as the enum value passed to `glActiveTexture` (`GL_TEXTURE0` + unit). -/
structure BindingState where
  arrayBuffer : Nat
  elementArrayBuffer : Nat
  activeTexture : Nat
deriving DecidableEq, Repr

/-- The effect of one call on the two buffer bindings and the active texture unit, as OpenGL
defines it. -/
def BindingState.apply (s : BindingState) : GLCall → BindingState
  | GLCall.glBindBuffer target buffer =>
    if target = GL_ARRAY_BUFFER then { s with arrayBuffer := buffer }
    else if target = GL_ELEMENT_ARRAY_BUFFER then { s with elementArrayBuffer := buffer }
    else s
  | GLCall.glActiveTexture texture => { s with activeTexture := texture }
  | _ => s

/-- The bindings after a list of calls. -/
def BindingState.replay (s : BindingState) (calls : List GLCall) : BindingState :=
  calls.foldl BindingState.apply s

/-- A new context: nothing bound, unit 0 active. -/
def bindingsInitial : BindingState := ⟨0, 0, GL_TEXTURE0⟩

/-- One call of `SetIndexBuffer`, `BindVBO` or `SetTexture`. -/
inductive BindingOp where
  | setIndexBuffer (buffer : Option IndexBuffer)
  | bindVBO (vbo : Nat)
  | setTexture (index : Nat) (texture : Option Texture)
deriving DecidableEq, Repr

/-- Run one of the three calls. -/
def BindingOp.run (D : GraphicsDefs) (g : Graphics) : BindingOp → Graphics × List GLCall
  | BindingOp.setIndexBuffer buffer => SetIndexBuffer g buffer
  | BindingOp.bindVBO vbo => BindVBO g vbo
  | BindingOp.setTexture index texture => SetTexture D g index texture

/-- Run a sequence of the three calls, collecting the OpenGL calls in order. -/
def runBindingOps (D : GraphicsDefs) (ops : List BindingOp) (g : Graphics) :
    Graphics × List GLCall :=
  forEach (BindingOp.run D) ops g

/-- The tracked bindings mirror those of OpenGL. -/
def Mirrors (g : Graphics) (api : BindingState) : Prop :=
  api.elementArrayBuffer = indexBufferObject g.indexBuffer ∧
  api.arrayBuffer = g.boundVBO ∧
  api.activeTexture = (GL_TEXTURE0 + g.activeTexture) % 2 ^ 32

/-- Sample run of the three binding calls: a texture in unit 3, a vertex buffer object, an index
buffer, the texture of unit 3 removed, a texture in unit 1. -/
def sampleBindingOps : List BindingOp :=
  [BindingOp.setTexture 3 (some largeTarget), BindingOp.bindVBO 7,
   BindingOp.setIndexBuffer (some ⟨1, 55, 2⟩), BindingOp.setTexture 3 none,
   BindingOp.setTexture 1 (some smallTarget)]

/-! ## Sequences of registry calls and of shader calls -/

/-- One call of `AddGPUObject` or `RemoveGPUObject`. -/
inductive RegistryOp where
  | add (object : Option Nat)
  | remove (object : Nat)
deriving DecidableEq, Repr

/-- Run one registry call. -/
def RegistryOp.run (g : Graphics) : RegistryOp → Graphics
  | RegistryOp.add object => AddGPUObject g object
  | RegistryOp.remove object => RemoveGPUObject g object

/-- Run a sequence of registry calls. -/
def runRegistryOps (ops : List RegistryOp) (g : Graphics) : Graphics :=
  ops.foldl RegistryOp.run g

/-- The specification's side of the registry: the number of registrations of object `o` that
are live after one more call, `n` being the number before it. A registration of `o` adds one, a
removal of `o` takes one away if there is one. -/
def registrationStep (o : Nat) (n : Nat) : RegistryOp → Nat
  | RegistryOp.add (some x) => if x = o then n + 1 else n
  | RegistryOp.add none => n
  | RegistryOp.remove x => if x = o then n - 1 else n

/-- The number of registrations of `o` made by `ops` and not since removed. -/
def liveRegistrations (o : Nat) (ops : List RegistryOp) : Nat :=
  ops.foldl (registrationStep o) 0

/-- The `Release()` calls made between state `g` and the later state `g1`, in order. -/
def releasesBetween (g g1 : Graphics) : List Nat := g1.released.drop g.released.length

/-- One call of `SetShaders`, `CleanupShaderPrograms` or `Close`. -/
inductive ShaderOp where
  | setShaders (vs ps : Option Nat)
  | cleanupShaderPrograms (shader : Option Nat)
  | close
deriving DecidableEq, Repr

/-- Run one of the three calls. -/
def ShaderOp.run (D : GraphicsDefs) (B : Backend) (g : Graphics) : ShaderOp → Graphics × List GLCall
  | ShaderOp.setShaders vs ps => SetShaders D B g vs ps
  | ShaderOp.cleanupShaderPrograms shader => CleanupShaderPrograms D g shader
  | ShaderOp.close => Close D B g

/-- Run a sequence of the three calls, collecting the OpenGL calls in order. -/
def runShaderOps (D : GraphicsDefs) (B : Backend) (ops : List ShaderOp) (g : Graphics) :
    Graphics × List GLCall :=
  forEach (ShaderOp.run D B) ops g

/-- Sample run: a color target and a depth-stencil bound on a fresh `Graphics`. -/
def targetsBoundState : Graphics :=
  (SetRenderTarget sampleDefs (fresh sampleDefs) (some largeTarget) (some smallTarget)).1

/-- Sample run: the objects 7, 8 and 7 again registered, then 8 removed. -/
def sampleRegistryOps : List RegistryOp :=
  [RegistryOp.add (some 7), RegistryOp.add (some 8), RegistryOp.add (some 7), RegistryOp.remove 8]

/-- Sample run: the objects 7 and 8 registered, a null pointer passed, then 8 removed. -/
def singleRegistryOps : List RegistryOp :=
  [RegistryOp.add (some 7), RegistryOp.add (some 8), RegistryOp.add none, RegistryOp.remove 8]

/-- Sample run of the three shader calls. -/
def sampleShaderOps : List ShaderOp :=
  [ShaderOp.setShaders (some 2) (some 3), ShaderOp.setShaders (some 4) (some 3),
   ShaderOp.cleanupShaderPrograms (some 2), ShaderOp.setShaders (some 4) (some 5)]

/-! ## Predicates used in the statements -/

/-- Element `e` belongs to a vertex buffer bound to one of the streams and has a hardware slot:
the test of source line 614 passes for it. -/
def MappedElement (D : GraphicsDefs) (g : Graphics) (e : VertexElement) : Prop :=
  ∃ (i j : Nat) (buffer : VertexBuffer), i < D.MAX_VERTEX_STREAMS ∧
    g.vertexBuffers i = some buffer ∧ buffer.elements[j]? = some e ∧
    e.index < (g.attributeBySemantic e.semantic).length

/-- Elements of the bound buffers that are given the same hardware slot agree on whether they
advance per instance. -/
def DivisorsAgree (D : GraphicsDefs) (g : Graphics) : Prop :=
  ∀ e1 e2, MappedElement D g e1 → MappedElement D g e2 →
    attributeIndex g e1 = attributeIndex g e2 → e1.perInstance = e2.perInstance

/-- Call `c` of the vertex-buffer loop run from state `g` was issued for element `j` of the
buffer in stream `i`: the element has a slot, was not skipped, and `c` is one of the three calls
of source lines 621-636 for it. -/
def IssuedFor (D : GraphicsDefs) (g : Graphics) (instanced : Bool) (instanceStart : Nat)
    (c : Issued) (i j : Nat) (buffer : VertexBuffer) (e : VertexElement) : Prop :=
  i < D.MAX_VERTEX_STREAMS ∧ c.origin = some (i, j) ∧ g.vertexBuffers i = some buffer ∧
    buffer.elements[j]? = some e ∧ e.index < (g.attributeBySemantic e.semantic).length ∧
    ¬ (g.vertexBuffersDirty = false ∧ instanced = true ∧ e.perInstance = true) ∧
    (c.call = GLCall.glBindBuffer GL_ARRAY_BUFFER buffer.bufferObject ∨
      c.call = pointerCall D g instanceStart buffer e ∨
      c.call = GLCall.glVertexAttribDivisorARB (attributeIndex g e) (elementDivisor e))

/-- The key test of `CleanupShaderPrograms` for shader `s`: the first member of the pair when
`s` reports the vertex stage (source line 523), the second member otherwise (source line 537). -/
def cleanupHit (D : GraphicsDefs) (g : Graphics) (s : Nat) : Nat × Nat → Bool :=
  if (g.shaderVariations s).stage = D.SHADER_VS then fun k => decide (k.1 = s)
  else fun k => decide (k.2 = s)

/-- Some entry of the cache that passes the key test owns the program at the address of
`current`. -/
def holdsCurrent (hit : Nat × Nat → Bool) (cache : List ((Nat × Nat) × ShaderProgram))
    (current : Option ShaderProgram) : Bool :=
  cache.any (fun e => hit e.1 && decide (current.map ShaderProgram.addr = some e.2.addr))

/-- Two states differ at most in the members the shader tracking of `SetShaders` writes: the
shader variations and the two tracked shaders. -/
def SameButShaders (g g1 : Graphics) : Prop :=
  g1 = { g with shaderVariations := g1.shaderVariations, vertexShader := g1.vertexShader,
                pixelShader := g1.pixelShader }

/-- Two states differ at most in the members the slot loop of `PrepareDraw` writes:
`vertexAttributes` and `attributeBySemantic`. -/
def SameButAttributes (g g1 : Graphics) : Prop :=
  g1 = { g with vertexAttributes := g1.vertexAttributes,
                attributeBySemantic := g1.attributeBySemantic }

/-- Two states differ at most in the members the vertex-buffer loop of `PrepareDraw` writes:
`boundVBO` and `vertexAttributeDivisors`. -/
def SameButPointers (g g1 : Graphics) : Prop :=
  g1 = { g with boundVBO := g1.boundVBO, vertexAttributeDivisors := g1.vertexAttributeDivisors }

/-- Whether the program declares a known semantic at hardware slot `i` (the test of source
line 576). -/
def slotUsed (D : GraphicsDefs) (shaderAttributes : List (Nat × Nat)) (i : Nat) : Bool :=
  decide (i < shaderAttributes.length ∧
    (shaderAttributes.getD i (0, 0)).1 < D.MAX_ELEMENT_SEMANTICS)

/-- The current program, when there is one, is the program the cache holds under the key
(tracked vertex shader, tracked pixel shader). -/
def ProgramOwned (g : Graphics) : Prop :=
  ∀ p, g.shaderProgram = some p →
    ∃ v q, g.vertexShader = some v ∧ g.pixelShader = some q ∧
      findProgram g.shaderPrograms (v, q) = some p

/-- The hardware slot an attribute enable or disable call names. -/
def callSlot : GLCall → Option Nat
  | GLCall.glEnableVertexAttribArray i => some i
  | GLCall.glDisableVertexAttribArray i => some i
  | _ => none

/-- The call one iteration of the slot loop of `PrepareDraw` issues for slot `i` when the
enable flags are those of `g` (source lines 580-584 and 590-594). -/
def slotChange (D : GraphicsDefs) (shaderAttributes : List (Nat × Nat)) (g : Graphics) (i : Nat) :
    Option GLCall :=
  if slotUsed D shaderAttributes i = true then
    if g.vertexAttributes i = false then some (GLCall.glEnableVertexAttribArray i) else none
  else if g.vertexAttributes i = true then some (GLCall.glDisableVertexAttribArray i)
  else none

/-- The state after the loop of source lines 568-569, which empties the semantic map. -/
def clearSemantics (D : GraphicsDefs) (g : Graphics) : Graphics :=
  { g with attributeBySemantic :=
      fun i => if i < D.MAX_ELEMENT_SEMANTICS then [] else g.attributeBySemantic i }

/-! ## Uniform-buffer binding points, texture sequences -/

/-- The capability query of `Graphics::SetMode` (source lines 99-104): each `glGetIntegerv`
result is an `int`, and the assignment converts it to `size_t`. `vsBlocks` and `psBlocks` are
the two values the device reports. -/
def queryCapabilities (D : GraphicsDefs) (g : Graphics) (vsBlocks psBlocks : Int) : Graphics :=
  { g with
    vsConstantBuffers := (vsBlocks % 2 ^ D.sizeBits).toNat
    psConstantBuffers := (psBlocks % 2 ^ D.sizeBits).toNat }

/-- The binding point `SetConstantBuffer` passes to `glBindBufferBase` for the slot
(stage, index) (source lines 217-218 and 222-223); `none` for a slot it never binds. -/
def bindingPoint (D : GraphicsDefs) (g : Graphics) (stage index : Nat) : Option Nat :=
  if stage < D.MAX_SHADER_STAGES ∧ index < D.MAX_CONSTANT_BUFFERS then
    if stage = D.SHADER_VS then
      if index < g.vsConstantBuffers then some (index % 2 ^ 32) else none
    else if stage = D.SHADER_PS then
      if index < g.psConstantBuffers then some ((index + g.vsConstantBuffers) % 2 ^ 32) else none
    else none
  else none

/-- The indexed `GL_UNIFORM_BUFFER` binding points on OpenGL's side: the buffer object bound to
each. -/
structure UniformState where
  bindings : Nat → Nat

/-- The effect of one call on the uniform-buffer binding points, as OpenGL defines it. -/
def UniformState.apply (s : UniformState) : GLCall → UniformState
  | GLCall.glBindBufferBase target index buffer =>
    if target = GL_UNIFORM_BUFFER then { bindings := setAt s.bindings index buffer } else s
  | _ => s

/-- The binding points after a list of calls. -/
def UniformState.replay (s : UniformState) (calls : List GLCall) : UniformState :=
  calls.foldl UniformState.apply s

/-- Run a sequence of `SetTexture(index, texture)` calls, collecting the OpenGL calls in
order. -/
def runSetTextures (D : GraphicsDefs) (ops : List (Nat × Option Texture)) (g : Graphics) :
    Graphics × List GLCall :=
  forEach (fun s op => SetTexture D s op.1 op.2) ops g

/-- A cube-map texture (target `GL_TEXTURE_CUBE_MAP`). -/
def cubeTarget : Texture := ⟨902, 0x8513, 43, 64, 64⟩

/-- Sample run of `SetTexture` calls: a 2D texture in unit 3, a cube map in unit 3, null in
unit 3, a 2D texture in unit 1. -/
def sampleTextureOps : List (Nat × Option Texture) :=
  [(3, some largeTarget), (3, some cubeTarget), (3, none), (1, some smallTarget)]

/-- Sample run: the viewport set to the whole 800 x 600 target, then `smallTarget` becomes the
render target. -/
def shrunkViewportState : Graphics :=
  (SetRenderTarget sampleDefs
    (SetViewport largeTargetState ⟨0, 0, 800, 600⟩).1 (some smallTarget) none).1

/-! ## The array accesses of `PrepareDraw` -/

/-- An access `PrepareDraw` makes to one of the member arrays, to the semantic map or to one of
the two element tables, with the index it uses; for an element of an inner vector of the
semantic map, also the size of that vector at the time of the access. -/
inductive Access where
  | vertexAttributes (i : Nat)
  | vertexAttributeDivisors (i : Nat)
  | attributeBySemantic (semantic : Nat)
  | semanticVector (index size : Nat)
  | elementGLComponents (i : Nat)
  | elementGLType (i : Nat)
deriving DecidableEq, Repr

/-- The access is within the array: `vertexAttributes` and `vertexAttributeDivisors` have
`MAX_VERTEX_ATTRIBUTES` elements (GLGraphics.h), `attributeBySemantic` is constructed with
`MAX_ELEMENT_SEMANTICS` inner vectors, the tables have the elements listed in the source. -/
def Access.inRange (D : GraphicsDefs) : Access → Bool
  | Access.vertexAttributes i => decide (i < MAX_VERTEX_ATTRIBUTES)
  | Access.vertexAttributeDivisors i => decide (i < MAX_VERTEX_ATTRIBUTES)
  | Access.attributeBySemantic semantic => decide (semantic < D.MAX_ELEMENT_SEMANTICS)
  | Access.semanticVector index size => decide (index < size)
  | Access.elementGLComponents i => decide (i < Turso3D.elementGLComponents.length)
  | Access.elementGLType i => decide (i < Turso3D.elementGLType.length)

/-- The accesses of one iteration of the slot loop (source lines 576-594), run in state `g`:
`vertexAttributes[i]` in both branches; in the first, `attributeBySemantic[attribute.first]` and,
after the resize, its element `attribute.second`. -/
def assignSlotAccesses (D : GraphicsDefs) (shaderAttributes : List (Nat × Nat)) (g : Graphics)
    (i : Nat) : List Access :=
  if i < shaderAttributes.length ∧ (shaderAttributes.getD i (0, 0)).1 < D.MAX_ELEMENT_SEMANTICS then
    let attr := shaderAttributes.getD i (0, 0)
    let v := g.attributeBySemantic attr.1
    let v1 := if v.length ≤ attr.2 then vectorResize D.resizeFill v (attr.2 + 1) else v
    [Access.vertexAttributes i, Access.attributeBySemantic attr.1,
      Access.semanticVector attr.2 v1.length]
  else [Access.vertexAttributes i]

/-- The accesses of the first part of `PrepareDraw` (source lines 566-600): the clearing loop,
then the slot loop. -/
def assignAttributesAccesses (D : GraphicsDefs) (g : Graphics) : List Access :=
  match g.shaderProgram with
  | some program =>
    if g.vertexAttributesDirty = true then
      (List.range D.MAX_ELEMENT_SEMANTICS).map Access.attributeBySemantic ++
        (forEach (fun s i => ((assignSlot D program.attributes s i).1,
            assignSlotAccesses D program.attributes s i))
          (List.range MAX_VERTEX_ATTRIBUTES) (clearSemantics D g)).2
    else []
  | none => []

/-- The accesses of one iteration of the element loop (source lines 613-638), run in state `g`:
`attributeBySemantic[element.semantic]` for the size test; for an element that passes it and is
not skipped, the element `element.index` of that vector, the two tables at `element.type`, and
`vertexAttributeDivisors` at the slot read from the map. -/
def bindElementAccesses (instanced : Bool) (g : Graphics) (element : VertexElement) :
    List Access :=
  Access.attributeBySemantic element.semantic ::
    (if element.index < (g.attributeBySemantic element.semantic).length then
      if g.vertexBuffersDirty = false ∧ instanced = true ∧ element.perInstance = true then []
      else
        [Access.semanticVector element.index (g.attributeBySemantic element.semantic).length,
          Access.elementGLComponents element.type, Access.elementGLType element.type,
          Access.vertexAttributeDivisors (attributeIndex g element)]
    else [])

/-- The accesses of one iteration of the loop over vertex streams (source lines 606-640). -/
def bindStreamAccesses (D : GraphicsDefs) (instanced : Bool) (instanceStart : Nat) (g : Graphics)
    (i : Nat) : List Access :=
  match g.vertexBuffers i with
  | some buffer =>
    (forEach (fun s je => ((bindElement D instanced instanceStart i buffer s je).1,
        bindElementAccesses instanced s je.2)) buffer.elements.enum g).2
  | none => []

/-- The accesses of the second part of `PrepareDraw` (source lines 602-644). -/
def bindVertexBuffersAccesses (D : GraphicsDefs) (g : Graphics) (instanced : Bool)
    (instanceStart : Nat) : List Access :=
  if g.vertexBuffersDirty = true ∨ instanced = true then
    (forEach (fun s i => ((bindStream D instanced instanceStart s i).1,
        bindStreamAccesses D instanced instanceStart s i))
      (List.range D.MAX_VERTEX_STREAMS) g).2
  else []

/-- The accesses of `PrepareDraw(instanced, instanceStart)`, in order. -/
def prepareDrawAccesses (D : GraphicsDefs) (g : Graphics) (instanced : Bool)
    (instanceStart : Nat) : List Access :=
  assignAttributesAccesses D g ++
    bindVertexBuffersAccesses D (assignAttributes D g).1 instanced instanceStart

theorem forEach_nil {α σ ε : Type} (f : σ → α → σ × List ε) (s : σ) :
    forEach f [] s = (s, []) := rfl

theorem forEach_cons {α σ ε : Type} (f : σ → α → σ × List ε) (x : α) (xs : List α) (s : σ) :
    forEach f (x :: xs) s =
      ((forEach f xs (f s x).1).1, (f s x).2 ++ (forEach f xs (f s x).1).2) := rfl

/-- A reflexive and transitive relation that every loop body respects relates the state before
the loop to the state after it. -/
theorem forEach_rel {α σ ε : Type} (f : σ → α → σ × List ε) (R : σ → σ → Prop)
    (hrefl : ∀ s, R s s) (htrans : ∀ a b c, R a b → R b c → R a c) (xs : List α)
    (hstep : ∀ s x, x ∈ xs → R s (f s x).1) : ∀ s, R s (forEach f xs s).1 := by
  induction xs with
  | nil => intro s; exact hrefl s
  | cons x rest ih =>
    intro s
    rw [forEach_cons]
    exact htrans _ _ _ (hstep s x (List.mem_cons_self x rest))
      (ih (fun t y hy => hstep t y (List.mem_cons_of_mem x hy)) (f s x).1)

/-- Every call of a loop is a call of one of its iterations, run from a state satisfying any
invariant `Inv` the iterations preserve. -/
theorem forEach_calls {α σ ε : Type} (f : σ → α → σ × List ε) (Inv : σ → Prop) (P : ε → Prop)
    (xs : List α) (hinv : ∀ s x, x ∈ xs → Inv s → Inv (f s x).1)
    (hcall : ∀ s x, x ∈ xs → Inv s → ∀ c ∈ (f s x).2, P c) :
    ∀ s, Inv s → ∀ c ∈ (forEach f xs s).2, P c := by
  induction xs with
  | nil => intro s _ c hc; simp [forEach_nil] at hc
  | cons x rest ih =>
    intro s hs c hc
    rw [forEach_cons] at hc
    rcases List.mem_append.mp hc with h | h
    · exact hcall s x (List.mem_cons_self x rest) hs c h
    · exact ih (fun t y hy => hinv t y (List.mem_cons_of_mem x hy))
        (fun t y hy => hcall t y (List.mem_cons_of_mem x hy)) (f s x).1
        (hinv s x (List.mem_cons_self x rest) hs) c h

/-- An invariant preserved by every iteration holds after the loop. -/
theorem forEach_inv {α σ ε : Type} (f : σ → α → σ × List ε) (Inv : σ → Prop)
    (xs : List α) (hinv : ∀ s x, x ∈ xs → Inv s → Inv (f s x).1) :
    ∀ s, Inv s → Inv (forEach f xs s).1 := by
  induction xs with
  | nil => intro s hs; exact hs
  | cons x rest ih =>
    intro s hs
    rw [forEach_cons]
    exact ih (fun t y hy => hinv t y (List.mem_cons_of_mem x hy)) (f s x).1
      (hinv s x (List.mem_cons_self x rest) hs)

/-! ## The frame of the vertex-buffer loop -/

theorem SameButPointers.refl_pointers (g : Graphics) : SameButPointers g g := rfl

theorem SameButPointers.trans_pointers (a b c : Graphics) (h1 : SameButPointers a b)
    (h2 : SameButPointers b c) : SameButPointers a c := by
  unfold SameButPointers at *
  rw [h2, h1]

theorem bindVBO_same (g : Graphics) (vbo : Nat) : SameButPointers g (BindVBO g vbo).1 := by
  unfold BindVBO SameButPointers
  split <;> rfl

theorem sameButPointers_setDivisors (g : Graphics) (d : Nat → Nat) :
    SameButPointers g { g with vertexAttributeDivisors := d } := rfl

/-- What `SameButPointers` keeps: every member the two parts of `PrepareDraw` read. -/
theorem SameButPointers.fields_pointers {g g1 : Graphics} (h : SameButPointers g g1) :
    g1.vertexAttributes = g.vertexAttributes ∧ g1.attributeBySemantic = g.attributeBySemantic ∧
    g1.vertexBuffers = g.vertexBuffers ∧ g1.shaderProgram = g.shaderProgram ∧
    g1.vertexAttributesDirty = g.vertexAttributesDirty ∧
    g1.vertexBuffersDirty = g.vertexBuffersDirty := by
  unfold SameButPointers at h
  rw [h]
  exact ⟨rfl, rfl, rfl, rfl, rfl, rfl⟩

theorem setDivisor_same (g : Graphics) (a d : Nat) : SameButPointers g (setDivisor g a d).1 := by
  unfold setDivisor
  split
  · exact sameButPointers_setDivisors _ _
  · exact SameButPointers.refl_pointers g

theorem bindElement_same (D : GraphicsDefs) (instanced : Bool) (instanceStart i : Nat)
    (buffer : VertexBuffer) (g : Graphics) (je : Nat × VertexElement) :
    SameButPointers g (bindElement D instanced instanceStart i buffer g je).1 := by
  unfold bindElement
  split
  · split
    · exact SameButPointers.refl_pointers g
    · exact SameButPointers.trans_pointers _ _ _ (bindVBO_same g buffer.bufferObject)
        (setDivisor_same _ _ _)
  · exact SameButPointers.refl_pointers g

theorem bindStream_same (D : GraphicsDefs) (instanced : Bool) (instanceStart : Nat)
    (g : Graphics) (i : Nat) : SameButPointers g (bindStream D instanced instanceStart g i).1 := by
  unfold bindStream
  split
  · exact forEach_rel _ SameButPointers SameButPointers.refl_pointers SameButPointers.trans_pointers _
      (fun s x _ => bindElement_same D instanced instanceStart i _ s x) g
  · exact SameButPointers.refl_pointers g

theorem bindStreams_same (D : GraphicsDefs) (instanced : Bool) (instanceStart : Nat)
    (xs : List Nat) (g : Graphics) :
    SameButPointers g (forEach (bindStream D instanced instanceStart) xs g).1 :=
  forEach_rel _ SameButPointers SameButPointers.refl_pointers SameButPointers.trans_pointers xs
    (fun s x _ => bindStream_same D instanced instanceStart s x) g

theorem bindVertexBuffers_vertexAttributes (D : GraphicsDefs) (g : Graphics) (instanced : Bool)
    (instanceStart : Nat) :
    (bindVertexBuffers D g instanced instanceStart).1.vertexAttributes = g.vertexAttributes := by
  unfold bindVertexBuffers
  split
  · exact (bindStreams_same D instanced instanceStart (List.range D.MAX_VERTEX_STREAMS) g).fields_pointers.1
  · rfl

/-! ## The calls of the vertex-buffer loop -/

theorem bindVBO_calls (g : Graphics) (vbo : Nat) :
    ∀ x ∈ (BindVBO g vbo).2, x = GLCall.glBindBuffer GL_ARRAY_BUFFER vbo := by
  unfold BindVBO
  split <;> simp

theorem setDivisor_calls (g : Graphics) (a d : Nat) :
    ∀ x ∈ (setDivisor g a d).2, x = GLCall.glVertexAttribDivisorARB a d := by
  unfold setDivisor
  split <;> simp

theorem attributeIndex_same {g s : Graphics} (h : SameButPointers g s) (e : VertexElement) :
    attributeIndex s e = attributeIndex g e := by
  unfold attributeIndex
  rw [h.fields_pointers.2.1]

theorem pointerCall_same (D : GraphicsDefs) {g s : Graphics} (h : SameButPointers g s)
    (instanceStart : Nat) (buffer : VertexBuffer) (e : VertexElement) :
    pointerCall D s instanceStart buffer e = pointerCall D g instanceStart buffer e := by
  unfold pointerCall
  rw [attributeIndex_same h]

/-- The calls one element gives rise to. -/
theorem bindElement_calls (D : GraphicsDefs) (instanced : Bool) (instanceStart i : Nat)
    (buffer : VertexBuffer) (g : Graphics) (je : Nat × VertexElement) :
    ∀ c ∈ (bindElement D instanced instanceStart i buffer g je).2,
      c.origin = some (i, je.1) ∧
      je.2.index < (g.attributeBySemantic je.2.semantic).length ∧
      ¬ (g.vertexBuffersDirty = false ∧ instanced = true ∧ je.2.perInstance = true) ∧
      (c.call = GLCall.glBindBuffer GL_ARRAY_BUFFER buffer.bufferObject ∨
        c.call = pointerCall D g instanceStart buffer je.2 ∨
        c.call = GLCall.glVertexAttribDivisorARB (attributeIndex g je.2) (elementDivisor je.2)) := by
  intro c hc
  unfold bindElement at hc
  by_cases hmap : je.2.index < (g.attributeBySemantic je.2.semantic).length
  · rw [if_pos hmap] at hc
    by_cases hskip : g.vertexBuffersDirty = false ∧ instanced = true ∧ je.2.perInstance = true
    · rw [if_pos hskip] at hc
      simp at hc
    · rw [if_neg hskip] at hc
      have hb := bindVBO_same g buffer.bufferObject
      rw [attributeIndex_same hb, pointerCall_same D hb] at hc
      rcases List.mem_map.mp hc with ⟨x, hx, rfl⟩
      refine ⟨rfl, hmap, hskip, ?_⟩
      rcases List.mem_append.mp hx with hx | hx
      · rcases List.mem_append.mp hx with hx | hx
        · exact Or.inl (bindVBO_calls _ _ x hx)
        · exact Or.inr (Or.inl (List.mem_singleton.mp hx))
      · exact Or.inr (Or.inr (setDivisor_calls _ _ _ x hx))
  · rw [if_neg hmap] at hc
    simp at hc

/-- The calls one stream gives rise to, when the loop was entered in state `g`. -/
theorem bindStream_calls (D : GraphicsDefs) (instanced : Bool) (instanceStart : Nat)
    (g s : Graphics) (hs : SameButPointers g s) (i : Nat) (hi : i < D.MAX_VERTEX_STREAMS) :
    ∀ c ∈ (bindStream D instanced instanceStart s i).2,
      ∃ j buffer e, IssuedFor D g instanced instanceStart c i j buffer e := by
  intro c hc
  unfold bindStream at hc
  cases hbuf : s.vertexBuffers i with
  | none => rw [hbuf] at hc; simp at hc
  | some buffer =>
    rw [hbuf] at hc
    simp only at hc
    have hgbuf : g.vertexBuffers i = some buffer := by rw [← hs.fields_pointers.2.2.1]; exact hbuf
    refine forEach_calls (bindElement D instanced instanceStart i buffer) (SameButPointers g)
      (fun c => ∃ j buffer e, IssuedFor D g instanced instanceStart c i j buffer e)
      buffer.elements.enum
      (fun t x _ ht => SameButPointers.trans_pointers _ _ _ ht (bindElement_same D _ _ _ _ t x))
      ?_ s hs c hc
    intro t x hx ht c1 hc1
    obtain ⟨h1, h2, h3, h4⟩ := bindElement_calls D instanced instanceStart i buffer t x c1 hc1
    have hf := ht.fields_pointers
    refine ⟨x.1, buffer, x.2, hi, h1, hgbuf, List.mem_enum_iff_getElem?.mp hx, ?_, ?_, ?_⟩
    · rw [← hf.2.1]; exact h2
    · rw [← hf.2.2.2.2.2]; exact h3
    · rw [← attributeIndex_same ht, ← pointerCall_same D ht]; exact h4

/-- Every call of the vertex-buffer part of `PrepareDraw` was issued for an element of a bound
buffer that has a slot and is not skipped. -/
theorem bindVertexBuffers_calls (D : GraphicsDefs) (g : Graphics) (instanced : Bool)
    (instanceStart : Nat) :
    ∀ c ∈ (bindVertexBuffers D g instanced instanceStart).2,
      ∃ i j buffer e, IssuedFor D g instanced instanceStart c i j buffer e := by
  intro c hc
  unfold bindVertexBuffers at hc
  by_cases hrun : g.vertexBuffersDirty = true ∨ instanced = true
  · rw [if_pos hrun] at hc
    simp only at hc
    exact forEach_calls (bindStream D instanced instanceStart) (SameButPointers g)
      (fun c => ∃ i j buffer e, IssuedFor D g instanced instanceStart c i j buffer e)
      (List.range D.MAX_VERTEX_STREAMS)
      (fun t x _ ht => SameButPointers.trans_pointers _ _ _ ht (bindStream_same D _ _ t x))
      (fun t x hx ht c1 hc1 =>
        ⟨x, bindStream_calls D instanced instanceStart g t ht x (List.mem_range.mp hx) c1 hc1⟩)
      g (SameButPointers.refl_pointers g) c hc
  · rw [if_neg hrun] at hc
    simp at hc

/-! ## The divisors -/

/-- A property that each iteration keeps, and that the iteration for `x0` establishes, holds
after a loop that visits `x0`. -/
theorem forEach_establish {α σ ε : Type} (f : σ → α → σ × List ε) (Inv Q : σ → Prop)
    (xs : List α) (x0 : α) (hx0 : x0 ∈ xs)
    (hinv : ∀ s x, x ∈ xs → Inv s → Inv (f s x).1)
    (hstable : ∀ s x, x ∈ xs → Inv s → Q s → Q (f s x).1)
    (hest : ∀ s, Inv s → Q (f s x0).1) : ∀ s, Inv s → Q (forEach f xs s).1 := by
  induction xs with
  | nil => simp at hx0
  | cons x rest ih =>
    intro s hs
    rw [forEach_cons]
    rcases List.mem_cons.mp hx0 with h | h
    · subst h
      exact (forEach_inv f (fun t => Inv t ∧ Q t) rest
        (fun t y hy ht => ⟨hinv t y (List.mem_cons_of_mem x0 hy) ht.1,
          hstable t y (List.mem_cons_of_mem x0 hy) ht.1 ht.2⟩)
        (f s x0).1 ⟨hinv s x0 (List.mem_cons_self x0 rest) hs, hest s hs⟩).2
    · exact ih h (fun t y hy => hinv t y (List.mem_cons_of_mem x hy))
        (fun t y hy => hstable t y (List.mem_cons_of_mem x hy)) (f s x).1
        (hinv s x (List.mem_cons_self x rest) hs)

theorem bindVBO_divisors (g : Graphics) (vbo : Nat) :
    (BindVBO g vbo).1.vertexAttributeDivisors = g.vertexAttributeDivisors := by
  unfold BindVBO
  split <;> rfl

theorem setDivisor_divisors (g : Graphics) (a d t : Nat) :
    (setDivisor g a d).1.vertexAttributeDivisors t =
      if t = a then d else g.vertexAttributeDivisors t := by
  unfold setDivisor
  by_cases h : d ≠ g.vertexAttributeDivisors a
  · rw [if_pos h]
    rfl
  · rw [if_neg h]
    have h1 : d = g.vertexAttributeDivisors a := by simpa using h
    by_cases ht : t = a
    · rw [if_pos ht, ht, h1]
    · rw [if_neg ht]

theorem setDivisor_noop (g : Graphics) (a d : Nat) (h : d = g.vertexAttributeDivisors a) :
    setDivisor g a d = (g, []) := by
  unfold setDivisor
  rw [if_neg (by simpa using h)]

theorem setDivisor_issued (g : Graphics) (a d : Nat) :
    (setDivisor g a d).2 =
      if d ≠ g.vertexAttributeDivisors a then [GLCall.glVertexAttribDivisorARB a d] else [] := by
  unfold setDivisor
  split <;> rfl

/-- The state and the calls of an element that has a slot and is not skipped. -/
theorem bindElement_processed (D : GraphicsDefs) (instanced : Bool) (instanceStart i : Nat)
    (buffer : VertexBuffer) (g : Graphics) (je : Nat × VertexElement)
    (hmap : je.2.index < (g.attributeBySemantic je.2.semantic).length)
    (hskip : ¬ (g.vertexBuffersDirty = false ∧ instanced = true ∧ je.2.perInstance = true)) :
    bindElement D instanced instanceStart i buffer g je =
      ((setDivisor (BindVBO g buffer.bufferObject).1 (attributeIndex g je.2)
          (elementDivisor je.2)).1,
        ((BindVBO g buffer.bufferObject).2 ++ [pointerCall D g instanceStart buffer je.2] ++
          (setDivisor (BindVBO g buffer.bufferObject).1 (attributeIndex g je.2)
            (elementDivisor je.2)).2).map (Issued.mk (some (i, je.1)))) := by
  unfold bindElement
  rw [if_pos hmap, if_neg hskip, attributeIndex_same (bindVBO_same g buffer.bufferObject),
    pointerCall_same D (bindVBO_same g buffer.bufferObject)]

/-- An element without a slot, or a skipped one, changes nothing and issues nothing. -/
theorem bindElement_skipped (D : GraphicsDefs) (instanced : Bool) (instanceStart i : Nat)
    (buffer : VertexBuffer) (g : Graphics) (je : Nat × VertexElement)
    (h : ¬ (je.2.index < (g.attributeBySemantic je.2.semantic).length ∧
      ¬ (g.vertexBuffersDirty = false ∧ instanced = true ∧ je.2.perInstance = true))) :
    bindElement D instanced instanceStart i buffer g je = (g, []) := by
  unfold bindElement
  by_cases hmap : je.2.index < (g.attributeBySemantic je.2.semantic).length
  · rw [if_pos hmap]
    by_cases hskip : g.vertexBuffersDirty = false ∧ instanced = true ∧ je.2.perInstance = true
    · rw [if_pos hskip]
    · exact absurd ⟨hmap, hskip⟩ h
  · rw [if_neg hmap]

/-- The per-element divisor rule (source lines 632-637). -/
theorem bindElement_divisor (D : GraphicsDefs) (instanced : Bool) (instanceStart i : Nat)
    (buffer : VertexBuffer) (g : Graphics) (je : Nat × VertexElement)
    (hmap : je.2.index < (g.attributeBySemantic je.2.semantic).length)
    (hskip : ¬ (g.vertexBuffersDirty = false ∧ instanced = true ∧ je.2.perInstance = true)) :
    ((⟨some (i, je.1),
        GLCall.glVertexAttribDivisorARB (attributeIndex g je.2) (elementDivisor je.2)⟩ : Issued) ∈
        (bindElement D instanced instanceStart i buffer g je).2 ↔
      elementDivisor je.2 ≠ g.vertexAttributeDivisors (attributeIndex g je.2)) ∧
    (bindElement D instanced instanceStart i buffer g je).1.vertexAttributeDivisors
        (attributeIndex g je.2) = elementDivisor je.2 ∧
    (∀ c ∈ (bindElement D instanced instanceStart i buffer g je).2, ∀ a d,
      c.call = GLCall.glVertexAttribDivisorARB a d →
        a = attributeIndex g je.2 ∧ d = elementDivisor je.2 ∧
        elementDivisor je.2 ≠ g.vertexAttributeDivisors (attributeIndex g je.2)) := by
  rw [bindElement_processed D instanced instanceStart i buffer g je hmap hskip]
  simp only [setDivisor_divisors, setDivisor_issued, bindVBO_divisors, if_true]
  refine ⟨?_, trivial, ?_⟩
  · constructor
    · intro hmem
      rcases List.mem_map.mp hmem with ⟨x, hx, hxe⟩
      have hx2 : x = GLCall.glVertexAttribDivisorARB (attributeIndex g je.2)
          (elementDivisor je.2) := by
        injection hxe
      by_contra hne
      rw [if_neg (not_not.mpr hne), List.append_nil] at hx
      rcases List.mem_append.mp hx with hx | hx
      · rw [bindVBO_calls _ _ x hx] at hx2
        cases hx2
      · rw [List.mem_singleton.mp hx] at hx2
        unfold pointerCall at hx2
        cases hx2
    · intro hne
      rw [if_pos hne]
      exact List.mem_map.mpr ⟨_, by simp, rfl⟩
  · intro c hc a d hcall
    rcases List.mem_map.mp hc with ⟨x, hx, rfl⟩
    simp only at hcall
    subst hcall
    rcases List.mem_append.mp hx with hx | hx
    · rcases List.mem_append.mp hx with hx | hx
      · have := bindVBO_calls _ _ _ hx
        cases this
      · have := List.mem_singleton.mp hx
        unfold pointerCall at this
        cases this
    · by_cases hne : elementDivisor je.2 ≠ g.vertexAttributeDivisors (attributeIndex g je.2)
      · rw [if_pos hne] at hx
        have := List.mem_singleton.mp hx
        injection this with h1 h2
        exact ⟨h1, h2, hne⟩
      · rw [if_neg hne] at hx
        simp at hx

theorem elementDivisor_perVertex (e : VertexElement) (h : e.perInstance = false) :
    elementDivisor e = 0 := by
  unfold elementDivisor
  simp [h]

theorem mappedElement_congr (D : GraphicsDefs) {g a : Graphics}
    (hvb : g.vertexBuffers = a.vertexBuffers)
    (hmap : g.attributeBySemantic = a.attributeBySemantic) (e : VertexElement) :
    MappedElement D g e ↔ MappedElement D a e := by
  unfold MappedElement
  rw [hvb, hmap]

theorem attributeIndex_congr {g a : Graphics}
    (hmap : g.attributeBySemantic = a.attributeBySemantic) (e : VertexElement) :
    attributeIndex g e = attributeIndex a e := by
  unfold attributeIndex
  rw [hmap]

/-- An element keeps a zero divisor at slot `t` when every element sharing `t` is per-vertex. -/
theorem bindElement_keeps_zero (D : GraphicsDefs) (instanced : Bool) (instanceStart i : Nat)
    (buffer : VertexBuffer) (a s : Graphics) (hs : SameButPointers a s) (t : Nat)
    (hagree : ∀ e, MappedElement D a e → attributeIndex a e = t → e.perInstance = false)
    (hi : i < D.MAX_VERTEX_STREAMS) (hbuf : a.vertexBuffers i = some buffer)
    (je : Nat × VertexElement) (hje : buffer.elements[je.1]? = some je.2)
    (hq : s.vertexAttributeDivisors t = 0) :
    (bindElement D instanced instanceStart i buffer s je).1.vertexAttributeDivisors t = 0 := by
  by_cases hproc : je.2.index < (s.attributeBySemantic je.2.semantic).length ∧
      ¬ (s.vertexBuffersDirty = false ∧ instanced = true ∧ je.2.perInstance = true)
  · rw [bindElement_processed D instanced instanceStart i buffer s je hproc.1 hproc.2,
      setDivisor_divisors, bindVBO_divisors]
    by_cases ht : t = attributeIndex s je.2
    · rw [if_pos ht]
      have hmapped : MappedElement D a je.2 :=
        ⟨i, je.1, buffer, hi, hbuf, hje, by rw [← hs.fields_pointers.2.1]; exact hproc.1⟩
      exact elementDivisor_perVertex _
        (hagree je.2 hmapped (by rw [← attributeIndex_same hs]; exact ht.symm))
    · rw [if_neg ht]; exact hq
  · rw [bindElement_skipped D instanced instanceStart i buffer s je hproc]; exact hq

/-- A per-vertex element that has a slot leaves the divisor of its slot at zero. -/
theorem bindElement_sets_zero (D : GraphicsDefs) (instanced : Bool) (instanceStart i : Nat)
    (buffer : VertexBuffer) (a s : Graphics) (hs : SameButPointers a s) (j0 : Nat)
    (e0 : VertexElement) (hmap : e0.index < (a.attributeBySemantic e0.semantic).length)
    (hpv : e0.perInstance = false) :
    (bindElement D instanced instanceStart i buffer s (j0, e0)).1.vertexAttributeDivisors
      (attributeIndex a e0) = 0 := by
  have hmap1 : e0.index < (s.attributeBySemantic e0.semantic).length := by
    rw [hs.fields_pointers.2.1]; exact hmap
  have hskip : ¬ (s.vertexBuffersDirty = false ∧ instanced = true ∧ e0.perInstance = true) := by
    rw [hpv]; simp
  rw [bindElement_processed D instanced instanceStart i buffer s (j0, e0) hmap1 hskip,
    setDivisor_divisors, attributeIndex_same hs, if_pos rfl]
  exact elementDivisor_perVertex _ hpv

theorem bindStream_keeps_zero (D : GraphicsDefs) (instanced : Bool) (instanceStart : Nat)
    (a s : Graphics) (hs : SameButPointers a s) (t : Nat)
    (hagree : ∀ e, MappedElement D a e → attributeIndex a e = t → e.perInstance = false)
    (i : Nat) (hi : i < D.MAX_VERTEX_STREAMS) (hq : s.vertexAttributeDivisors t = 0) :
    (bindStream D instanced instanceStart s i).1.vertexAttributeDivisors t = 0 := by
  unfold bindStream
  cases hbuf : s.vertexBuffers i with
  | none => exact hq
  | some buffer =>
    have hbufa : a.vertexBuffers i = some buffer := by rw [← hs.fields_pointers.2.2.1]; exact hbuf
    exact (forEach_inv (bindElement D instanced instanceStart i buffer)
      (fun u => SameButPointers a u ∧ u.vertexAttributeDivisors t = 0) buffer.elements.enum
      (fun u x hx hu => ⟨SameButPointers.trans_pointers _ _ _ hu.1 (bindElement_same D _ _ _ _ u x),
        bindElement_keeps_zero D instanced instanceStart i buffer a u hu.1 t hagree hi hbufa x
          (List.mem_enum_iff_getElem?.mp hx) hu.2⟩)
      s ⟨hs, hq⟩).2

theorem bindStream_sets_zero (D : GraphicsDefs) (instanced : Bool) (instanceStart : Nat)
    (a s : Graphics) (hs : SameButPointers a s) (i0 j0 : Nat) (b0 : VertexBuffer)
    (e0 : VertexElement) (hi0 : i0 < D.MAX_VERTEX_STREAMS) (hb0 : a.vertexBuffers i0 = some b0)
    (he0 : b0.elements[j0]? = some e0)
    (hmap : e0.index < (a.attributeBySemantic e0.semantic).length)
    (hpv : e0.perInstance = false)
    (hagree : ∀ e, MappedElement D a e → attributeIndex a e = attributeIndex a e0 →
      e.perInstance = false) :
    (bindStream D instanced instanceStart s i0).1.vertexAttributeDivisors
      (attributeIndex a e0) = 0 := by
  unfold bindStream
  have hbufs : s.vertexBuffers i0 = some b0 := by rw [hs.fields_pointers.2.2.1]; exact hb0
  rw [hbufs]
  exact forEach_establish (bindElement D instanced instanceStart i0 b0) (SameButPointers a)
    (fun u => u.vertexAttributeDivisors (attributeIndex a e0) = 0) b0.elements.enum (j0, e0)
    (List.mem_enum_iff_getElem?.mpr he0)
    (fun u x _ hu => SameButPointers.trans_pointers _ _ _ hu (bindElement_same D _ _ _ _ u x))
    (fun u x hx hu hq => bindElement_keeps_zero D instanced instanceStart i0 b0 a u hu _ hagree
      hi0 hb0 x (List.mem_enum_iff_getElem?.mp hx) hq)
    (fun u hu => bindElement_sets_zero D instanced instanceStart i0 b0 a u hu j0 e0 hmap hpv)
    s hs

/-- After the loop over the streams, the divisor of the slot of every per-vertex element of a
bound buffer is zero, provided no per-instance element shares that slot. -/
theorem bindStreams_set_zero (D : GraphicsDefs) (instanced : Bool) (instanceStart : Nat)
    (a : Graphics) (e0 : VertexElement) (hm : MappedElement D a e0)
    (hpv : e0.perInstance = false)
    (hagree : ∀ e, MappedElement D a e → attributeIndex a e = attributeIndex a e0 →
      e.perInstance = false) :
    (forEach (bindStream D instanced instanceStart) (List.range D.MAX_VERTEX_STREAMS)
      a).1.vertexAttributeDivisors (attributeIndex a e0) = 0 := by
  obtain ⟨i0, j0, b0, hi0, hb0, he0, hmap⟩ := hm
  exact forEach_establish (bindStream D instanced instanceStart) (SameButPointers a)
    (fun u => u.vertexAttributeDivisors (attributeIndex a e0) = 0)
    (List.range D.MAX_VERTEX_STREAMS) i0 (List.mem_range.mpr hi0)
    (fun u x _ hu => SameButPointers.trans_pointers _ _ _ hu (bindStream_same D _ _ u x))
    (fun u x hx hu hq => bindStream_keeps_zero D instanced instanceStart a u hu _ hagree x
      (List.mem_range.mp hx) hq)
    (fun u hu => bindStream_sets_zero D instanced instanceStart a u hu i0 j0 b0 e0 hi0 hb0 he0
      hmap hpv hagree)
    a (SameButPointers.refl_pointers a)

/-- With clean vertex buffers, an instanced pass over an element whose slot already has divisor
zero when it is per-vertex changes no divisor and issues no divisor call. -/
theorem bindElement_quiet (D : GraphicsDefs) (instanceStart i : Nat) (buffer : VertexBuffer)
    (g1 s : Graphics) (hs : SameButPointers g1 s)
    (hdiv : s.vertexAttributeDivisors = g1.vertexAttributeDivisors)
    (hclean : g1.vertexBuffersDirty = false)
    (hzero : ∀ e, MappedElement D g1 e → e.perInstance = false →
      g1.vertexAttributeDivisors (attributeIndex g1 e) = 0)
    (hi : i < D.MAX_VERTEX_STREAMS) (hbuf : g1.vertexBuffers i = some buffer)
    (je : Nat × VertexElement) (hje : buffer.elements[je.1]? = some je.2) :
    (bindElement D true instanceStart i buffer s je).1.vertexAttributeDivisors =
        g1.vertexAttributeDivisors ∧
    ∀ c ∈ (bindElement D true instanceStart i buffer s je).2, ∀ a d,
      c.call ≠ GLCall.glVertexAttribDivisorARB a d := by
  by_cases hproc : je.2.index < (s.attributeBySemantic je.2.semantic).length ∧
      ¬ (s.vertexBuffersDirty = false ∧ true = true ∧ je.2.perInstance = true)
  · have hsclean : s.vertexBuffersDirty = false := by rw [hs.fields_pointers.2.2.2.2.2]; exact hclean
    have hpv : je.2.perInstance = false := by
      cases hp : je.2.perInstance with
      | false => rfl
      | true => exact absurd ⟨hsclean, rfl, hp⟩ hproc.2
    have hmapped : MappedElement D g1 je.2 :=
      ⟨i, je.1, buffer, hi, hbuf, hje, by rw [← hs.fields_pointers.2.1]; exact hproc.1⟩
    have hnoop : elementDivisor je.2 =
        (BindVBO s buffer.bufferObject).1.vertexAttributeDivisors (attributeIndex s je.2) := by
      rw [bindVBO_divisors, hdiv, attributeIndex_same hs, hzero je.2 hmapped hpv]
      exact elementDivisor_perVertex _ hpv
    rw [bindElement_processed D true instanceStart i buffer s je hproc.1 hproc.2,
      setDivisor_noop _ _ _ hnoop]
    refine ⟨by rw [bindVBO_divisors]; exact hdiv, ?_⟩
    intro c hc a d hcall
    rcases List.mem_map.mp hc with ⟨x, hx, rfl⟩
    simp only at hcall
    subst hcall
    rw [List.append_nil] at hx
    rcases List.mem_append.mp hx with hx | hx
    · have := bindVBO_calls _ _ _ hx
      cases this
    · have := List.mem_singleton.mp hx
      unfold pointerCall at this
      cases this
  · rw [bindElement_skipped D true instanceStart i buffer s je hproc]
    exact ⟨hdiv, by simp⟩

theorem bindStream_quiet (D : GraphicsDefs) (instanceStart : Nat) (g1 s : Graphics)
    (hs : SameButPointers g1 s)
    (hdiv : s.vertexAttributeDivisors = g1.vertexAttributeDivisors)
    (hclean : g1.vertexBuffersDirty = false)
    (hzero : ∀ e, MappedElement D g1 e → e.perInstance = false →
      g1.vertexAttributeDivisors (attributeIndex g1 e) = 0)
    (i : Nat) (hi : i < D.MAX_VERTEX_STREAMS) :
    (SameButPointers g1 (bindStream D true instanceStart s i).1 ∧
      (bindStream D true instanceStart s i).1.vertexAttributeDivisors =
        g1.vertexAttributeDivisors) ∧
    ∀ c ∈ (bindStream D true instanceStart s i).2, ∀ a d,
      c.call ≠ GLCall.glVertexAttribDivisorARB a d := by
  unfold bindStream
  cases hbuf : s.vertexBuffers i with
  | none => exact ⟨⟨hs, hdiv⟩, by simp⟩
  | some buffer =>
    have hbuf1 : g1.vertexBuffers i = some buffer := by rw [← hs.fields_pointers.2.2.1]; exact hbuf
    have hstep : ∀ u x, x ∈ buffer.elements.enum →
        (SameButPointers g1 u ∧ u.vertexAttributeDivisors = g1.vertexAttributeDivisors) →
        (SameButPointers g1 (bindElement D true instanceStart i buffer u x).1 ∧
          (bindElement D true instanceStart i buffer u x).1.vertexAttributeDivisors =
            g1.vertexAttributeDivisors) :=
      fun u x hx hu => ⟨SameButPointers.trans_pointers _ _ _ hu.1 (bindElement_same D _ _ _ _ u x),
        (bindElement_quiet D instanceStart i buffer g1 u hu.1 hu.2 hclean hzero hi hbuf1 x
          (List.mem_enum_iff_getElem?.mp hx)).1⟩
    exact ⟨forEach_inv _ _ _ hstep s ⟨hs, hdiv⟩,
      forEach_calls _ _ _ _ hstep
        (fun u x hx hu => (bindElement_quiet D instanceStart i buffer g1 u hu.1 hu.2 hclean
          hzero hi hbuf1 x (List.mem_enum_iff_getElem?.mp hx)).2) s ⟨hs, hdiv⟩⟩

/-! ## The slot loop -/

theorem assignSlot_vertexAttributes (D : GraphicsDefs) (attrs : List (Nat × Nat)) (g : Graphics)
    (i j : Nat) :
    (assignSlot D attrs g i).1.vertexAttributes j =
      if j = i then slotUsed D attrs i else g.vertexAttributes j := by
  unfold assignSlot
  by_cases hc : i < attrs.length ∧ (attrs.getD i (0, 0)).1 < D.MAX_ELEMENT_SEMANTICS
  · have hs : slotUsed D attrs i = true := decide_eq_true hc
    rw [if_pos hc, hs]
    by_cases he : g.vertexAttributes i = false
    · by_cases hj : j = i <;> simp [he, hj, setAt]
    · by_cases hj : j = i
      · subst hj
        have ht : g.vertexAttributes j = true := by simpa using he
        simp [ht]
      · simp [he, hj]
  · have hs : slotUsed D attrs i = false := decide_eq_false hc
    rw [if_neg hc, hs]
    by_cases he : g.vertexAttributes i = true
    · by_cases hj : j = i <;> simp [he, hj, setAt]
    · by_cases hj : j = i
      · subst hj
        have ht : g.vertexAttributes j = false := by simpa using he
        simp [ht]
      · simp [he, hj]

theorem assignSlots_vertexAttributes (D : GraphicsDefs) (attrs : List (Nat × Nat)) (xs : List Nat)
    (j : Nat) : ∀ g : Graphics,
    (forEach (assignSlot D attrs) xs g).1.vertexAttributes j =
      if j ∈ xs then slotUsed D attrs j else g.vertexAttributes j := by
  induction xs with
  | nil => intro g; simp [forEach_nil]
  | cons x rest ih =>
    intro g
    rw [forEach_cons]
    simp only [ih, assignSlot_vertexAttributes, List.mem_cons]
    by_cases h1 : j ∈ rest
    · simp [h1]
    · by_cases h2 : j = x
      · subst h2; simp [h1]
      · simp [h1, h2]

theorem slotUsed_iff (D : GraphicsDefs) (attrs : List (Nat × Nat)) (i : Nat) :
    slotUsed D attrs i = true ↔ ∃ a, attrs[i]? = some a ∧ a.1 < D.MAX_ELEMENT_SEMANTICS := by
  unfold slotUsed
  simp only [decide_eq_true_eq, List.getD_eq_getElem?_getD]
  constructor
  · rintro ⟨hlt, hsem⟩
    refine ⟨attrs[i], List.getElem?_eq_getElem hlt, ?_⟩
    simpa [List.getElem?_eq_getElem hlt] using hsem
  · rintro ⟨a, ha, hsem⟩
    have hlt : i < attrs.length := by
      rcases List.getElem?_eq_some_iff.mp ha with ⟨h, _⟩
      exact h
    refine ⟨hlt, ?_⟩
    simpa [ha] using hsem

/-! ## The frame and the calls of the slot loop -/

theorem SameButAttributes.refl_attributes (g : Graphics) : SameButAttributes g g := rfl

theorem SameButAttributes.trans_attributes (a b c : Graphics) (h1 : SameButAttributes a b)
    (h2 : SameButAttributes b c) : SameButAttributes a c := by
  unfold SameButAttributes at *
  rw [h2, h1]

/-- What `SameButAttributes` keeps. -/
theorem SameButAttributes.fields_attributes {g g1 : Graphics} (h : SameButAttributes g g1) :
    g1.vertexBuffers = g.vertexBuffers ∧ g1.shaderProgram = g.shaderProgram ∧
    g1.vertexAttributeDivisors = g.vertexAttributeDivisors ∧ g1.boundVBO = g.boundVBO ∧
    g1.vertexAttributesDirty = g.vertexAttributesDirty ∧
    g1.vertexBuffersDirty = g.vertexBuffersDirty := by
  unfold SameButAttributes at h
  rw [h]
  exact ⟨rfl, rfl, rfl, rfl, rfl, rfl⟩

theorem assignSlot_same (D : GraphicsDefs) (attrs : List (Nat × Nat)) (g : Graphics) (i : Nat) :
    SameButAttributes g (assignSlot D attrs g i).1 := by
  unfold assignSlot
  split
  · simp only
    split <;> rfl
  · split <;> rfl

/-- The slot loop issues enable and disable calls only, none on behalf of a buffer element. -/
theorem assignSlot_calls (D : GraphicsDefs) (attrs : List (Nat × Nat)) (g : Graphics) (i : Nat) :
    ∀ c ∈ (assignSlot D attrs g i).2, c.origin = none ∧
      (c.call = GLCall.glEnableVertexAttribArray i ∨
        c.call = GLCall.glDisableVertexAttribArray i) := by
  intro c hc
  unfold assignSlot at hc
  split at hc
  · simp only at hc
    split at hc
    · rw [List.mem_singleton.mp hc]; exact ⟨rfl, Or.inl rfl⟩
    · simp at hc
  · split at hc
    · rw [List.mem_singleton.mp hc]; exact ⟨rfl, Or.inr rfl⟩
    · simp at hc

theorem assignAttributes_calls (D : GraphicsDefs) (g : Graphics) :
    ∀ c ∈ (assignAttributes D g).2, c.origin = none ∧
      ∃ i, c.call = GLCall.glEnableVertexAttribArray i ∨
        c.call = GLCall.glDisableVertexAttribArray i := by
  intro c hc
  unfold assignAttributes at hc
  split at hc
  · split at hc
    · simp only at hc
      exact forEach_calls (assignSlot D _) (fun _ => True)
        (fun c => c.origin = none ∧ ∃ i, c.call = GLCall.glEnableVertexAttribArray i ∨
          c.call = GLCall.glDisableVertexAttribArray i)
        (List.range MAX_VERTEX_ATTRIBUTES) (fun _ _ _ _ => trivial)
        (fun t x _ _ c1 hc1 =>
          ⟨(assignSlot_calls D _ t x c1 hc1).1, x, (assignSlot_calls D _ t x c1 hc1).2⟩)
        _ trivial c hc
    · simp at hc
  · simp at hc

/-- The slot part of `PrepareDraw` does nothing when the attribute map is clean or no program is
bound. -/
theorem assignAttributes_noop (D : GraphicsDefs) (g : Graphics)
    (h : g.vertexAttributesDirty = false ∨ g.shaderProgram = none) :
    assignAttributes D g = (g, []) := by
  unfold assignAttributes
  rcases h with h | h
  · split
    · simp [h]
    · rfl
  · rw [h]

/-- What the slot part of `PrepareDraw` keeps, and the state of the flag after it. -/
theorem assignAttributes_fields (D : GraphicsDefs) (g : Graphics) :
    (assignAttributes D g).1.vertexBuffers = g.vertexBuffers ∧
    (assignAttributes D g).1.shaderProgram = g.shaderProgram ∧
    (assignAttributes D g).1.vertexAttributeDivisors = g.vertexAttributeDivisors ∧
    ((assignAttributes D g).1.vertexAttributesDirty = false ∨
      (assignAttributes D g).1.shaderProgram = none) := by
  unfold assignAttributes
  split
  next program hp =>
    split
    next hd =>
      have h := (forEach_rel (assignSlot D program.attributes) SameButAttributes
        SameButAttributes.refl_attributes SameButAttributes.trans_attributes (List.range MAX_VERTEX_ATTRIBUTES)
        (fun t x _ => assignSlot_same D _ t x)
        { g with attributeBySemantic :=
            fun i => if i < D.MAX_ELEMENT_SEMANTICS then [] else g.attributeBySemantic i }).fields_attributes
      exact ⟨h.1, h.2.1, h.2.2.1, Or.inl rfl⟩
    next hd =>
      have hf : g.vertexAttributesDirty = false := by simpa using hd
      exact ⟨rfl, rfl, rfl, Or.inl hf⟩
  next hp => exact ⟨rfl, rfl, rfl, Or.inr hp⟩

/-! ## Two consecutive instanced draws -/

theorem bindVertexBuffers_instanced (D : GraphicsDefs) (g : Graphics) (instanceStart : Nat) :
    bindVertexBuffers D g true instanceStart =
      ({ (forEach (bindStream D true instanceStart) (List.range D.MAX_VERTEX_STREAMS) g).1 with
          vertexBuffersDirty := false },
        (forEach (bindStream D true instanceStart) (List.range D.MAX_VERTEX_STREAMS) g).2) := by
  unfold bindVertexBuffers
  rw [if_pos (Or.inr rfl)]

/-- With clean vertex buffers, the slot part idle and every per-vertex slot at divisor zero, an
instanced `PrepareDraw` issues no divisor call. -/
theorem prepareDraw_quiet (D : GraphicsDefs) (g1 : Graphics) (instanceStart : Nat)
    (hclean : g1.vertexBuffersDirty = false)
    (hidle : g1.vertexAttributesDirty = false ∨ g1.shaderProgram = none)
    (hzero : ∀ e, MappedElement D g1 e → e.perInstance = false →
      g1.vertexAttributeDivisors (attributeIndex g1 e) = 0) :
    ∀ c ∈ (PrepareDraw D g1 true instanceStart).2, ∀ a d,
      c.call ≠ GLCall.glVertexAttribDivisorARB a d := by
  intro c hc
  unfold PrepareDraw at hc
  rw [assignAttributes_noop D g1 hidle, bindVertexBuffers_instanced] at hc
  simp only [List.nil_append] at hc
  exact forEach_calls (bindStream D true instanceStart)
    (fun u => SameButPointers g1 u ∧ u.vertexAttributeDivisors = g1.vertexAttributeDivisors)
    (fun c => ∀ a d, c.call ≠ GLCall.glVertexAttribDivisorARB a d)
    (List.range D.MAX_VERTEX_STREAMS)
    (fun u x hx hu => (bindStream_quiet D instanceStart g1 u hu.1 hu.2 hclean hzero x
      (List.mem_range.mp hx)).1)
    (fun u x hx hu => (bindStream_quiet D instanceStart g1 u hu.1 hu.2 hclean hzero x
      (List.mem_range.mp hx)).2)
    g1 ⟨SameButPointers.refl_pointers g1, rfl⟩ c hc

/-- The state an instanced `PrepareDraw` leaves: clean vertex buffers, the slot part idle, and,
when elements sharing a slot agree on their divisor, divisor zero at every per-vertex slot. -/
theorem prepareDraw_instanced_state (D : GraphicsDefs) (g : Graphics) (instanceStart : Nat) :
    (PrepareDraw D g true instanceStart).1.vertexBuffersDirty = false ∧
    ((PrepareDraw D g true instanceStart).1.vertexAttributesDirty = false ∨
      (PrepareDraw D g true instanceStart).1.shaderProgram = none) ∧
    (DivisorsAgree D (PrepareDraw D g true instanceStart).1 →
      ∀ e, MappedElement D (PrepareDraw D g true instanceStart).1 e → e.perInstance = false →
        (PrepareDraw D g true instanceStart).1.vertexAttributeDivisors
          (attributeIndex (PrepareDraw D g true instanceStart).1 e) = 0) := by
  have hfa := assignAttributes_fields D g
  have hf := (bindStreams_same D true instanceStart (List.range D.MAX_VERTEX_STREAMS)
    (assignAttributes D g).1).fields_pointers
  have hg1 : (PrepareDraw D g true instanceStart).1 =
      { (forEach (bindStream D true instanceStart) (List.range D.MAX_VERTEX_STREAMS)
          (assignAttributes D g).1).1 with vertexBuffersDirty := false } := by
    unfold PrepareDraw
    rw [bindVertexBuffers_instanced]
  have hvb : (PrepareDraw D g true instanceStart).1.vertexBuffers =
      (assignAttributes D g).1.vertexBuffers := by rw [hg1]; exact hf.2.2.1
  have hmap : (PrepareDraw D g true instanceStart).1.attributeBySemantic =
      (assignAttributes D g).1.attributeBySemantic := by rw [hg1]; exact hf.2.1
  refine ⟨by rw [hg1], ?_, ?_⟩
  · rcases hfa.2.2.2 with h | h
    · left; rw [hg1]; exact hf.2.2.2.2.1.trans h
    · right; rw [hg1]; exact hf.2.2.2.1.trans h
  · intro hagree e hm hpv
    rw [attributeIndex_congr hmap]
    have hdiv : (PrepareDraw D g true instanceStart).1.vertexAttributeDivisors =
        (forEach (bindStream D true instanceStart) (List.range D.MAX_VERTEX_STREAMS)
          (assignAttributes D g).1).1.vertexAttributeDivisors := by rw [hg1]
    rw [hdiv]
    refine bindStreams_set_zero D true instanceStart (assignAttributes D g).1 e
      ((mappedElement_congr D hvb hmap e).mp hm) hpv ?_
    intro e1 hm1 hidx
    rw [hagree e1 e ((mappedElement_congr D hvb hmap e1).mpr hm1) hm
      (by rw [attributeIndex_congr hmap, attributeIndex_congr hmap]; exact hidx)]
    exact hpv

/-- The data pointer in closed form. -/
theorem dataStart_eq (D : GraphicsDefs) (instanceStart : Nat) (buffer : VertexBuffer)
    (e : VertexElement) :
    dataStart D instanceStart buffer e =
      if e.perInstance = true then
        (e.offset + instanceStart * buffer.vertexSize) % 2 ^ D.sizeBits
      else e.offset := by
  unfold dataStart
  split
  · exact Nat.add_mod_mod _ _ _
  · rfl

/-- The elements with a slot after the first draw of the sample run. -/
theorem sample_mapped (e : VertexElement)
    (h : MappedElement sampleDefs (PrepareDraw sampleDefs instancedState true 0).1 e) :
    e = ⟨3, SEM_POSITION, 0, false, 0⟩ ∨ e = ⟨4, SEM_TEXCOORD, 0, true, 0⟩ := by
  obtain ⟨i, j, buffer, hi, hb, he, _⟩ := h
  have hi4 : i < 4 := hi
  have h0 : (PrepareDraw sampleDefs instancedState true 0).1.vertexBuffers 0 =
      some meshBuffer := by decide
  have h1 : (PrepareDraw sampleDefs instancedState true 0).1.vertexBuffers 1 =
      some instanceBuffer := by decide
  have h2 : (PrepareDraw sampleDefs instancedState true 0).1.vertexBuffers 2 = none := by decide
  have h3 : (PrepareDraw sampleDefs instancedState true 0).1.vertexBuffers 3 = none := by decide
  interval_cases i
  · rw [h0] at hb
    injection hb with hb
    subst hb
    left
    cases j with
    | zero => simpa [meshBuffer] using he.symm
    | succ n => simp [meshBuffer] at he
  · rw [h1] at hb
    injection hb with hb
    subst hb
    right
    cases j with
    | zero => simpa [instanceBuffer] using he.symm
    | succ n => simp [instanceBuffer] at he
  · rw [h2] at hb; cases hb
  · rw [h3] at hb; cases hb

theorem sample_divisorsAgree :
    DivisorsAgree sampleDefs (PrepareDraw sampleDefs instancedState true 0).1 := by
  intro e1 e2 hm1 hm2 hidx
  have hp : attributeIndex (PrepareDraw sampleDefs instancedState true 0).1
      ⟨3, SEM_POSITION, 0, false, 0⟩ = 0 := by decide
  have ht : attributeIndex (PrepareDraw sampleDefs instancedState true 0).1
      ⟨4, SEM_TEXCOORD, 0, true, 0⟩ = 1 := by decide
  rcases sample_mapped e1 hm1 with h1 | h1 <;> rcases sample_mapped e2 hm2 with h2 | h2 <;>
    subst h1 <;> subst h2
  · rfl
  · rw [hp, ht] at hidx; cases hidx
  · rw [hp, ht] at hidx; cases hidx
  · rfl

/-! ## The program cache -/

theorem findProgram_eq_none_iff (cache : List ((Nat × Nat) × ShaderProgram)) (key : Nat × Nat) :
    findProgram cache key = none ↔ key ∉ cache.map Prod.fst := by
  unfold findProgram
  simp only [Option.map_eq_none', List.find?_eq_none, decide_eq_true_eq, List.mem_map, not_exists,
    not_and]

theorem insertProgram_new (cache : List ((Nat × Nat) × ShaderProgram)) (key : Nat × Nat)
    (program : ShaderProgram) (h : findProgram cache key = none) :
    insertProgram cache key program = cache ++ [(key, program)] := by
  have hk := (findProgram_eq_none_iff cache key).mp h
  unfold insertProgram
  have hany : cache.any (fun e => decide (e.1 = key)) = false := by
    rw [List.any_eq_false]
    intro e he heq
    exact hk (List.mem_map.mpr ⟨e, he, by simpa using heq⟩)
  rw [hany]
  rfl

theorem findProgram_append_new (cache : List ((Nat × Nat) × ShaderProgram)) (key : Nat × Nat)
    (program : ShaderProgram) (h : findProgram cache key = none) :
    findProgram (cache ++ [(key, program)]) key = some program := by
  unfold findProgram at *
  have h1 : cache.find? (fun e => decide (e.1 = key)) = none := by
    simpa using h
  rw [List.find?_append, h1]
  simp

theorem SameButShaders.refl_shaders (g : Graphics) : SameButShaders g g := rfl

theorem SameButShaders.trans_shaders (a b c : Graphics) (h1 : SameButShaders a b)
    (h2 : SameButShaders b c) : SameButShaders a c := by
  unfold SameButShaders at *
  rw [h2, h1]

/-- What `SameButShaders` keeps. -/
theorem SameButShaders.fields_shaders {g g1 : Graphics} (h : SameButShaders g g1) :
    g1.shaderPrograms = g.shaderPrograms ∧ g1.nextProgram = g.nextProgram ∧
    g1.shaderProgram = g.shaderProgram := by
  unfold SameButShaders at h
  rw [h]
  exact ⟨rfl, rfl, rfl⟩

theorem compileIfNeeded_same (B : Backend) (g : Graphics) (shader : Option Nat) (stage : Nat) :
    SameButShaders g (compileIfNeeded B g shader stage) := by
  unfold compileIfNeeded
  cases shader with
  | none => rfl
  | some a =>
    simp only
    split <;> rfl

theorem trackVertexShader_same (D : GraphicsDefs) (B : Backend) (g : Graphics)
    (vs : Option Nat) : SameButShaders g (trackVertexShader D B g vs) := by
  unfold trackVertexShader
  split
  · exact SameButShaders.trans_shaders _ _ _ (compileIfNeeded_same B g vs D.SHADER_VS) rfl
  · rfl

theorem trackPixelShader_same (D : GraphicsDefs) (B : Backend) (g : Graphics)
    (ps : Option Nat) : SameButShaders g (trackPixelShader D B g ps) := by
  unfold trackPixelShader
  split
  · exact SameButShaders.trans_shaders _ _ _ (compileIfNeeded_same B g ps D.SHADER_PS) rfl
  · rfl

theorem trackVertexShader_vertexShader (D : GraphicsDefs) (B : Backend) (g : Graphics)
    (vs : Option Nat) : (trackVertexShader D B g vs).vertexShader = vs := by
  unfold trackVertexShader
  split
  · rfl
  · rename_i h
    exact (not_not.mp h).symm

theorem compileIfNeeded_vertexShader (B : Backend) (g : Graphics) (shader : Option Nat)
    (stage : Nat) : (compileIfNeeded B g shader stage).vertexShader = g.vertexShader := by
  unfold compileIfNeeded
  cases shader with
  | none => rfl
  | some a =>
    simp only
    split <;> rfl

theorem trackPixelShader_fields (D : GraphicsDefs) (B : Backend) (g : Graphics)
    (ps : Option Nat) : (trackPixelShader D B g ps).pixelShader = ps ∧
      (trackPixelShader D B g ps).vertexShader = g.vertexShader := by
  unfold trackPixelShader
  split
  · exact ⟨rfl, compileIfNeeded_vertexShader B g ps D.SHADER_PS⟩
  · rename_i h
    exact ⟨(not_not.mp h).symm, rfl⟩

theorem trackShaders_fields (D : GraphicsDefs) (B : Backend) (g : Graphics) (vs ps : Option Nat) :
    (trackShaders D B g vs ps).vertexShader = vs ∧ (trackShaders D B g vs ps).pixelShader = ps ∧
    (trackShaders D B g vs ps).shaderPrograms = g.shaderPrograms ∧
    (trackShaders D B g vs ps).nextProgram = g.nextProgram ∧
    (trackShaders D B g vs ps).shaderProgram = g.shaderProgram := by
  have h := (SameButShaders.trans_shaders _ _ _ (trackVertexShader_same D B g vs)
    (trackPixelShader_same D B (trackVertexShader D B g vs) ps)).fields_shaders
  have hp := trackPixelShader_fields D B (trackVertexShader D B g vs) ps
  unfold trackShaders
  exact ⟨hp.2.trans (trackVertexShader_vertexShader D B g vs), hp.1, h.1, h.2.1, h.2.2⟩

/-- The fall-back of `SetShaders`: a shader is null or has no shader object. -/
theorem bindProgram_unusable (B : Backend) (t : Graphics)
    (h : t.vertexShader = none ∨ t.pixelShader = none ∨
      (∃ v, t.vertexShader = some v ∧ (t.shaderVariations v).shaderObject = 0) ∨
      (∃ p, t.pixelShader = some p ∧ (t.shaderVariations p).shaderObject = 0)) :
    (bindProgram B t).1.shaderPrograms = t.shaderPrograms ∧
    (bindProgram B t).1.nextProgram = t.nextProgram ∧
    (bindProgram B t).1.shaderProgram = none ∧
    (bindProgram B t).2 = [GLCall.glUseProgram 0] := by
  unfold bindProgram
  cases hv : t.vertexShader with
  | none => exact ⟨rfl, rfl, rfl, rfl⟩
  | some v =>
    cases hp : t.pixelShader with
    | none => exact ⟨rfl, rfl, rfl, rfl⟩
    | some p =>
      simp only
      have hzero : ¬ ((t.shaderVariations v).shaderObject ≠ 0 ∧
          (t.shaderVariations p).shaderObject ≠ 0) := by
        rintro ⟨h1, h2⟩
        rcases h with h | h | ⟨v1, hv1, h0⟩ | ⟨p1, hp1, h0⟩
        · rw [hv] at h; cases h
        · rw [hp] at h; cases h
        · rw [hv] at hv1; injection hv1 with hv1; subst hv1; exact h1 h0
        · rw [hp] at hp1; injection hp1 with hp1; subst hp1; exact h2 h0
      rw [if_neg hzero]
      exact ⟨rfl, rfl, rfl, rfl⟩

/-- The cache hit of `SetShaders`. -/
theorem bindProgram_cached (B : Backend) (t : Graphics) (v p : Nat) (program : ShaderProgram)
    (hv : t.vertexShader = some v) (hp : t.pixelShader = some p)
    (hvo : (t.shaderVariations v).shaderObject ≠ 0)
    (hpo : (t.shaderVariations p).shaderObject ≠ 0)
    (hfind : findProgram t.shaderPrograms (v, p) = some program) :
    (bindProgram B t).1.shaderPrograms = t.shaderPrograms ∧
    (bindProgram B t).1.nextProgram = t.nextProgram ∧
    (bindProgram B t).1.shaderProgram = some program ∧
    (bindProgram B t).2 = [GLCall.glUseProgram program.programObject] := by
  unfold bindProgram
  rw [hv, hp]
  simp only
  rw [if_pos ⟨hvo, hpo⟩, hfind]
  exact ⟨rfl, rfl, rfl, rfl⟩

/-- The cache miss of `SetShaders`. -/
theorem bindProgram_created (B : Backend) (t : Graphics) (v p : Nat)
    (hv : t.vertexShader = some v) (hp : t.pixelShader = some p)
    (hvo : (t.shaderVariations v).shaderObject ≠ 0)
    (hpo : (t.shaderVariations p).shaderObject ≠ 0)
    (hfind : findProgram t.shaderPrograms (v, p) = none) :
    (bindProgram B t).1.shaderPrograms = t.shaderPrograms ++ [((v, p), ⟨t.nextProgram,
        (B.Link (t.shaderVariations v) (t.shaderVariations p)).programObject,
        (B.Link (t.shaderVariations v) (t.shaderVariations p)).attributes⟩)] ∧
    (bindProgram B t).1.nextProgram = t.nextProgram + 1 ∧
    (bindProgram B t).1.shaderProgram =
      (if (B.Link (t.shaderVariations v) (t.shaderVariations p)).success = true then
        some ⟨t.nextProgram,
          (B.Link (t.shaderVariations v) (t.shaderVariations p)).programObject,
          (B.Link (t.shaderVariations v) (t.shaderVariations p)).attributes⟩
      else none) ∧
    (bindProgram B t).2 =
      [GLCall.glUseProgram
        (if (B.Link (t.shaderVariations v) (t.shaderVariations p)).success = true then
          (B.Link (t.shaderVariations v) (t.shaderVariations p)).programObject
        else 0)] := by
  unfold bindProgram
  rw [hv, hp]
  simp only
  rw [if_pos ⟨hvo, hpo⟩, hfind]
  simp only
  rw [insertProgram_new _ _ _ hfind]
  split <;> exact ⟨rfl, rfl, rfl, rfl⟩

theorem bindProgram_fields (B : Backend) (t : Graphics) :
    (bindProgram B t).1.shaderVariations = t.shaderVariations ∧
    (bindProgram B t).1.vertexShader = t.vertexShader ∧
    (bindProgram B t).1.pixelShader = t.pixelShader := by
  unfold bindProgram
  split
  · split
    · split
      · exact ⟨rfl, rfl, rfl⟩
      · simp only
        split <;> exact ⟨rfl, rfl, rfl⟩
    · exact ⟨rfl, rfl, rfl⟩
  · exact ⟨rfl, rfl, rfl⟩

/-- `SetShaders` with a pair other than the tracked one: the state is that of the program
binding run after the shader tracking, with the attribute map marked dirty. -/
theorem setShaders_changed (D : GraphicsDefs) (B : Backend) (g : Graphics) (vs ps : Option Nat)
    (h : ¬ (vs = g.vertexShader ∧ ps = g.pixelShader)) :
    (SetShaders D B g vs ps).1.shaderPrograms =
      (bindProgram B (trackShaders D B g vs ps)).1.shaderPrograms ∧
    (SetShaders D B g vs ps).1.nextProgram =
      (bindProgram B (trackShaders D B g vs ps)).1.nextProgram ∧
    (SetShaders D B g vs ps).1.shaderProgram =
      (bindProgram B (trackShaders D B g vs ps)).1.shaderProgram ∧
    (SetShaders D B g vs ps).2 = (bindProgram B (trackShaders D B g vs ps)).2 ∧
    (SetShaders D B g vs ps).1.shaderVariations = (trackShaders D B g vs ps).shaderVariations := by
  unfold SetShaders
  rw [if_neg h]
  exact ⟨rfl, rfl, rfl, rfl, (bindProgram_fields B _).1⟩

/-- The program binding either leaves the cache and the allocation counter alone, or appends
one new program under the pair of tracked shaders, which had no entry. -/
theorem bindProgram_cache_change (B : Backend) (t : Graphics) :
    ((bindProgram B t).1.shaderPrograms = t.shaderPrograms ∧
      (bindProgram B t).1.nextProgram = t.nextProgram) ∨
    ∃ (v p : Nat) (program : ShaderProgram), t.vertexShader = some v ∧ t.pixelShader = some p ∧
      findProgram t.shaderPrograms (v, p) = none ∧ program.addr = t.nextProgram ∧
      (bindProgram B t).1.shaderPrograms = t.shaderPrograms ++ [((v, p), program)] ∧
      (bindProgram B t).1.nextProgram = t.nextProgram + 1 := by
  rcases hv : t.vertexShader with _ | v
  · left
    have hu := bindProgram_unusable B t (Or.inl hv)
    exact ⟨hu.1, hu.2.1⟩
  · rcases hp : t.pixelShader with _ | p
    · left
      have hu := bindProgram_unusable B t (Or.inr (Or.inl hp))
      exact ⟨hu.1, hu.2.1⟩
    · by_cases hvo : (t.shaderVariations v).shaderObject = 0
      · left
        have hu := bindProgram_unusable B t (Or.inr (Or.inr (Or.inl ⟨v, hv, hvo⟩)))
        exact ⟨hu.1, hu.2.1⟩
      · by_cases hpo : (t.shaderVariations p).shaderObject = 0
        · left
          have hu := bindProgram_unusable B t (Or.inr (Or.inr (Or.inr ⟨p, hp, hpo⟩)))
          exact ⟨hu.1, hu.2.1⟩
        · rcases hfind : findProgram t.shaderPrograms (v, p) with _ | program
          · right
            have hu := bindProgram_created B t v p hv hp hvo hpo hfind
            exact ⟨v, p, ⟨t.nextProgram,
              (B.Link (t.shaderVariations v) (t.shaderVariations p)).programObject,
              (B.Link (t.shaderVariations v) (t.shaderVariations p)).attributes⟩,
              rfl, rfl, hfind, rfl, hu.1, hu.2.1⟩
          · left
            have hu := bindProgram_cached B t v p program hv hp hvo hpo hfind
            exact ⟨hu.1, hu.2.1⟩

/-- `SetShaders` either leaves the cache and the allocation counter alone, or appends one new
program under the pair, which had no entry. -/
theorem setShaders_cache_change (D : GraphicsDefs) (B : Backend) (g : Graphics)
    (vs ps : Option Nat) :
    ((SetShaders D B g vs ps).1.shaderPrograms = g.shaderPrograms ∧
      (SetShaders D B g vs ps).1.nextProgram = g.nextProgram) ∨
    ∃ (v p : Nat) (program : ShaderProgram), vs = some v ∧ ps = some p ∧
      findProgram g.shaderPrograms (v, p) = none ∧ program.addr = g.nextProgram ∧
      (SetShaders D B g vs ps).1.shaderPrograms = g.shaderPrograms ++ [((v, p), program)] ∧
      (SetShaders D B g vs ps).1.nextProgram = g.nextProgram + 1 := by
  by_cases hpair : vs = g.vertexShader ∧ ps = g.pixelShader
  · left
    unfold SetShaders
    rw [if_pos hpair]
    exact ⟨rfl, rfl⟩
  · have hs := setShaders_changed D B g vs ps hpair
    have ht := trackShaders_fields D B g vs ps
    rw [hs.1, hs.2.1]
    rcases bindProgram_cache_change B (trackShaders D B g vs ps) with
      hc | ⟨v, p, program, hv, hp, hnone, haddr, hcache, hnext⟩
    · left
      exact ⟨hc.1.trans ht.2.2.1, hc.2.trans ht.2.2.2.1⟩
    · right
      refine ⟨v, p, program, ht.1.symm.trans hv, ht.2.1.symm.trans hp, ?_, ?_, ?_, ?_⟩
      · rw [← ht.2.2.1]; exact hnone
      · rw [← ht.2.2.2.1]; exact haddr
      · rw [← ht.2.2.1]; exact hcache
      · rw [← ht.2.2.2.1]; exact hnext

/-- While the cache holds an entry for the pair, `SetShaders` with that pair creates no program
and leaves the cache as it is. -/
theorem setShaders_keeps_cache (D : GraphicsDefs) (B : Backend) (g : Graphics) (v p : Nat)
    (h : findProgram g.shaderPrograms (v, p) ≠ none) :
    (SetShaders D B g (some v) (some p)).1.shaderPrograms = g.shaderPrograms ∧
    (SetShaders D B g (some v) (some p)).1.nextProgram = g.nextProgram := by
  rcases setShaders_cache_change D B g (some v) (some p) with hc | ⟨v1, p1, _, hv, hp, hnone, _⟩
  · exact hc
  · injection hv with hv
    injection hp with hp
    subst hv
    subst hp
    exact absurd hnone h

/-- The erase loops keep a sublist of the cache. -/
theorem cleanupLoop_sublist (hit : Nat × Nat → Bool) (cache : List ((Nat × Nat) × ShaderProgram)) :
    ∀ current, List.Sublist (cleanupLoop hit cache current).1 cache := by
  induction cache with
  | nil => intro current; exact List.Sublist.slnil
  | cons e rest ih =>
    intro current
    unfold cleanupLoop
    split
    · exact List.Sublist.cons e (ih _)
    · exact List.Sublist.cons₂ e (ih _)

theorem cleanupShaderPrograms_sublist (D : GraphicsDefs) (g : Graphics) (shader : Option Nat) :
    List.Sublist (CleanupShaderPrograms D g shader).1.shaderPrograms g.shaderPrograms := by
  unfold CleanupShaderPrograms
  cases shader with
  | none => exact List.Sublist.refl _
  | some a =>
    simp only
    split
    · exact cleanupLoop_sublist _ _ _
    · exact cleanupLoop_sublist _ _ _

theorem SameButPointers.programs_pointers {g g1 : Graphics} (h : SameButPointers g g1) :
    g1.shaderPrograms = g.shaderPrograms := by
  unfold SameButPointers at h
  rw [h]

theorem SameButAttributes.programs_attributes {g g1 : Graphics} (h : SameButAttributes g g1) :
    g1.shaderPrograms = g.shaderPrograms := by
  unfold SameButAttributes at h
  rw [h]

theorem assignAttributes_shaderPrograms (D : GraphicsDefs) (g : Graphics) :
    (assignAttributes D g).1.shaderPrograms = g.shaderPrograms := by
  unfold assignAttributes
  split
  next program hp =>
    split
    · exact (forEach_rel (assignSlot D program.attributes) SameButAttributes
        SameButAttributes.refl_attributes SameButAttributes.trans_attributes (List.range MAX_VERTEX_ATTRIBUTES)
        (fun t x _ => assignSlot_same D _ t x)
        { g with attributeBySemantic :=
            fun i => if i < D.MAX_ELEMENT_SEMANTICS then [] else g.attributeBySemantic i }
        ).programs_attributes
    · rfl
  next hp => rfl

theorem bindVertexBuffers_shaderPrograms (D : GraphicsDefs) (g : Graphics) (instanced : Bool)
    (instanceStart : Nat) :
    (bindVertexBuffers D g instanced instanceStart).1.shaderPrograms = g.shaderPrograms := by
  unfold bindVertexBuffers
  split
  · exact (bindStreams_same D instanced instanceStart _ g).programs_pointers
  · rfl

theorem prepareDraw_shaderPrograms (D : GraphicsDefs) (g : Graphics) (instanced : Bool)
    (instanceStart : Nat) :
    (PrepareDraw D g instanced instanceStart).1.shaderPrograms = g.shaderPrograms := by
  unfold PrepareDraw
  simp only
  rw [bindVertexBuffers_shaderPrograms, assignAttributes_shaderPrograms]

/-- In every reachable state the cache has at most one entry for a pair. -/
theorem reachable_keys_nodup (D : GraphicsDefs) (B : Backend) (g : Graphics)
    (h : Reachable D B g) : (g.shaderPrograms.map Prod.fst).Nodup := by
  induction h with
  | construct raw => exact List.nodup_nil
  | setShaders g vs ps _ ih =>
    rcases setShaders_cache_change D B g vs ps with hc | ⟨v, p, program, _, _, hnone, _, hc, _⟩
    · rw [hc.1]; exact ih
    · rw [hc, List.map_append, List.nodup_append]
      refine ⟨ih, List.nodup_singleton _, ?_⟩
      intro k hk hk1
      rw [List.map_singleton, List.mem_singleton] at hk1
      subst hk1
      exact (findProgram_eq_none_iff _ _).mp hnone hk
  | cleanupShaderPrograms g shader _ ih =>
    exact List.Nodup.sublist (List.Sublist.map _ (cleanupShaderPrograms_sublist D g shader)) ih
  | close g _ _ => exact List.nodup_nil
  | setVertexBuffer g index buffer _ ih =>
    unfold SetVertexBuffer
    split
    · exact ih
    · exact ih
  | bindVBO g vbo _ ih =>
    unfold BindVBO
    split
    · exact ih
    · exact ih
  | prepareDraw g instanced instanceStart _ ih =>
    rw [prepareDraw_shaderPrograms]; exact ih

/-- A cache without duplicate keys maps a key to at most one program. -/
theorem nodup_keys_unique (cache : List ((Nat × Nat) × ShaderProgram))
    (h : (cache.map Prod.fst).Nodup) (key : Nat × Nat) (p1 p2 : ShaderProgram)
    (h1 : (key, p1) ∈ cache) (h2 : (key, p2) ∈ cache) : p1 = p2 := by
  induction cache with
  | nil => simp at h1
  | cons e rest ih =>
    rw [List.map_cons, List.nodup_cons] at h
    rcases List.mem_cons.mp h1 with h1 | h1 <;> rcases List.mem_cons.mp h2 with h2 | h2
    · rw [← h1] at h2
      injection h2 with _ h2
      exact h2.symm
    · exact absurd (List.mem_map.mpr ⟨(key, p2), h2, by rw [← h1]⟩) h.1
    · exact absurd (List.mem_map.mpr ⟨(key, p1), h1, by rw [← h2]⟩) h.1
    · exact ih h.2 h1 h2

/-! ## The erase loops -/

theorem cleanupLoop_cache (hit : Nat × Nat → Bool) (cache : List ((Nat × Nat) × ShaderProgram)) :
    ∀ current, (cleanupLoop hit cache current).1 = cache.filter (fun e => !hit e.1) := by
  induction cache with
  | nil => intro current; rfl
  | cons e rest ih =>
    intro current
    unfold cleanupLoop
    by_cases h : hit e.1 = true
    · rw [if_pos h, ih, List.filter_cons]
      simp [h]
    · rw [if_neg h]
      simp only [ih, List.filter_cons]
      simp [h]

theorem holdsCurrent_none (hit : Nat × Nat → Bool) (cache : List ((Nat × Nat) × ShaderProgram)) :
    holdsCurrent hit cache none = false := by
  unfold holdsCurrent
  simp

theorem holdsCurrent_cons (hit : Nat × Nat → Bool) (e : (Nat × Nat) × ShaderProgram)
    (rest : List ((Nat × Nat) × ShaderProgram)) (current : Option ShaderProgram) :
    holdsCurrent hit (e :: rest) current =
      ((hit e.1 && decide (current.map ShaderProgram.addr = some e.2.addr)) ||
        holdsCurrent hit rest current) := rfl

theorem cleanupLoop_current (hit : Nat × Nat → Bool)
    (cache : List ((Nat × Nat) × ShaderProgram)) :
    ∀ current, (cleanupLoop hit cache current).2 =
      if holdsCurrent hit cache current = true then none else current := by
  induction cache with
  | nil => intro current; rfl
  | cons e rest ih =>
    intro current
    unfold cleanupLoop
    by_cases h : hit e.1 = true
    · rw [if_pos h, ih, holdsCurrent_cons, h]
      by_cases hc : current.map ShaderProgram.addr = some e.2.addr
      · rw [if_pos hc, holdsCurrent_none, decide_eq_true hc]
        rfl
      · rw [if_neg hc, decide_eq_false hc]
        rfl
    · rw [if_neg h, holdsCurrent_cons, Bool.eq_false_iff.mpr h]
      simp only [ih]
      rfl

/-- `CleanupShaderPrograms` in closed form: the entries that pass the key test are filtered out,
and the current program is cleared when one of them owns it. -/
theorem cleanupShaderPrograms_eq (D : GraphicsDefs) (g : Graphics) (s : Nat) :
    (CleanupShaderPrograms D g (some s)).1.shaderPrograms =
      g.shaderPrograms.filter (fun e => !cleanupHit D g s e.1) ∧
    (CleanupShaderPrograms D g (some s)).1.shaderProgram =
      (if holdsCurrent (cleanupHit D g s) g.shaderPrograms g.shaderProgram = true then none
        else g.shaderProgram) ∧
    (CleanupShaderPrograms D g (some s)).2 = [] := by
  unfold CleanupShaderPrograms cleanupHit
  simp only
  split
  · exact ⟨cleanupLoop_cache _ _ _, cleanupLoop_current _ _ _, rfl⟩
  · exact ⟨cleanupLoop_cache _ _ _, cleanupLoop_current _ _ _, rfl⟩

theorem cleanupShaderPrograms_mem (D : GraphicsDefs) (g : Graphics) (s : Nat)
    (e : (Nat × Nat) × ShaderProgram) :
    e ∈ (CleanupShaderPrograms D g (some s)).1.shaderPrograms ↔
      e ∈ g.shaderPrograms ∧ cleanupHit D g s e.1 = false := by
  rw [(cleanupShaderPrograms_eq D g s).1, List.mem_filter]
  simp

/-! ## The setters -/

theorem setAt_same {α : Type} (a : Nat → α) (i : Nat) (v : α) : setAt a i v i = v := by
  unfold setAt
  rw [if_pos rfl]

theorem setAt_other {α : Type} (a : Nat → α) (i j : Nat) (v : α) (h : j ≠ i) :
    setAt a i v j = a j := by
  unfold setAt
  rw [if_neg h]

theorem activateUnit_textures (g : Graphics) (index : Nat) :
    (activateUnit g index).1.textures = g.textures := by
  unfold activateUnit
  split <;> rfl

theorem bindTexture_textures (g : Graphics) (index : Nat) (texture : Option Texture) :
    (bindTexture g index texture).1.textures = g.textures := by
  unfold bindTexture
  cases texture with
  | none => simp only; split <;> rfl
  | some t => simp only; split <;> rfl

/-- The texture slots after `SetTexture`. -/
theorem setTexture_textures (D : GraphicsDefs) (g : Graphics) (index : Nat)
    (texture : Option Texture) :
    (SetTexture D g index texture).1.textures =
      if index < D.MAX_TEXTURE_UNITS then setAt g.textures index texture else g.textures := by
  unfold SetTexture
  by_cases hi : index < D.MAX_TEXTURE_UNITS
  · rw [if_pos hi]
    by_cases hne : texture ≠ g.textures index
    · rw [if_pos ⟨hi, hne⟩]
      simp only
      rw [bindTexture_textures, activateUnit_textures]
    · rw [if_neg (fun h => hne h.2)]
      have heq : texture = g.textures index := by simpa using hne
      funext j
      unfold setAt
      split
      · rename_i hj
        rw [hj, heq]
      · rfl
  · rw [if_neg hi, if_neg (fun h => hi h.1)]

/-- The vertex-buffer slots after `SetVertexBuffer`. -/
theorem setVertexBuffer_vertexBuffers (D : GraphicsDefs) (g : Graphics) (index : Nat)
    (buffer : Option VertexBuffer) :
    (SetVertexBuffer D g index buffer).1.vertexBuffers =
      if index < D.MAX_VERTEX_STREAMS then setAt g.vertexBuffers index buffer
      else g.vertexBuffers := by
  unfold SetVertexBuffer
  by_cases hi : index < D.MAX_VERTEX_STREAMS
  · rw [if_pos hi]
    by_cases hne : buffer ≠ g.vertexBuffers index
    · rw [if_pos ⟨hi, hne⟩]
    · rw [if_neg (fun h => hne h.2)]
      have heq : buffer = g.vertexBuffers index := by simpa using hne
      funext j
      unfold setAt
      split
      · rename_i hj
        rw [hj, heq]
      · rfl
  · rw [if_neg hi, if_neg (fun h => hi h.1)]

/-- The constant-buffer slots after `SetConstantBuffer`. -/
theorem setConstantBuffer_constantBuffers (D : GraphicsDefs) (g : Graphics) (stage index : Nat)
    (buffer : Option ConstantBuffer) (st ix : Nat) :
    (SetConstantBuffer D g stage index buffer).1.constantBuffers st ix =
      if stage < D.MAX_SHADER_STAGES ∧ index < D.MAX_CONSTANT_BUFFERS ∧ st = stage ∧ ix = index
      then buffer else g.constantBuffers st ix := by
  unfold SetConstantBuffer
  by_cases hr : stage < D.MAX_SHADER_STAGES ∧ index < D.MAX_CONSTANT_BUFFERS
  · by_cases hne : buffer ≠ g.constantBuffers stage index
    · rw [if_pos ⟨hr.1, hr.2, hne⟩]
      simp only
      by_cases hst : st = stage
      · by_cases hix : ix = index
        · rw [if_pos ⟨hr.1, hr.2, hst, hix⟩, hst, hix, setAt_same, setAt_same]
        · rw [if_neg (fun h => hix h.2.2.2), hst, setAt_same, setAt_other _ _ _ _ hix]
      · rw [if_neg (fun h => hst h.2.2.1), setAt_other _ _ _ _ hst]
    · rw [if_neg (fun h => hne h.2.2)]
      have heq : buffer = g.constantBuffers stage index := by simpa using hne
      by_cases hh : st = stage ∧ ix = index
      · rw [if_pos ⟨hr.1, hr.2, hh.1, hh.2⟩, hh.1, hh.2, heq]
      · rw [if_neg (fun h => hh ⟨h.2.2.1, h.2.2.2⟩)]
  · rw [if_neg (fun h => hr ⟨h.1, h.2.1⟩), if_neg (fun h => hr ⟨h.1, h.2.1⟩)]

/-- The calls of `SetConstantBuffer`. -/
theorem setConstantBuffer_calls (D : GraphicsDefs) (g : Graphics) (stage index : Nat)
    (buffer : Option ConstantBuffer) :
    (SetConstantBuffer D g stage index buffer).2 =
      if stage < D.MAX_SHADER_STAGES ∧ index < D.MAX_CONSTANT_BUFFERS ∧
          buffer ≠ g.constantBuffers stage index then
        bindConstantBuffer D g stage index (constantBufferObject buffer)
      else [] := by
  unfold SetConstantBuffer
  split <;> rfl

/-! ## The mirror of the buffer bindings and of the active texture unit -/

theorem replay_append (api : BindingState) (a b : List GLCall) :
    api.replay (a ++ b) = (api.replay a).replay b := by
  unfold BindingState.replay
  rw [List.foldl_append]

theorem replay_nil (api : BindingState) : api.replay [] = api := rfl

theorem setIndexBuffer_mirrors (g : Graphics) (buffer : Option IndexBuffer) (api : BindingState)
    (h : Mirrors g api) :
    Mirrors (SetIndexBuffer g buffer).1 (api.replay (SetIndexBuffer g buffer).2) := by
  unfold SetIndexBuffer
  split
  · exact ⟨rfl, h.2.1, h.2.2⟩
  · exact h

theorem bindVBO_mirrors (g : Graphics) (vbo : Nat) (api : BindingState) (h : Mirrors g api) :
    Mirrors (BindVBO g vbo).1 (api.replay (BindVBO g vbo).2) := by
  unfold BindVBO
  split
  · exact ⟨h.1, rfl, h.2.2⟩
  · exact h

theorem activateUnit_mirrors (g : Graphics) (index : Nat) (api : BindingState)
    (h : Mirrors g api) :
    Mirrors (activateUnit g index).1 (api.replay (activateUnit g index).2) := by
  unfold activateUnit
  split
  · refine ⟨h.1, h.2.1, ?_⟩
    show (GL_TEXTURE0 + index) % 2 ^ 32 = (GL_TEXTURE0 + index % 2 ^ 32) % 2 ^ 32
    rw [Nat.add_mod_mod]
  · exact h

theorem bindTexture_mirrors (g : Graphics) (index : Nat) (texture : Option Texture)
    (api : BindingState) (h : Mirrors g api) :
    Mirrors (bindTexture g index texture).1 (api.replay (bindTexture g index texture).2) := by
  unfold bindTexture
  cases texture with
  | none =>
    simp only
    split
    · exact h
    · exact h
  | some t =>
    simp only
    split
    · split
      · exact h
      · exact h
    · exact h

theorem setTexture_mirrors (D : GraphicsDefs) (g : Graphics) (index : Nat)
    (texture : Option Texture) (api : BindingState) (h : Mirrors g api) :
    Mirrors (SetTexture D g index texture).1 (api.replay (SetTexture D g index texture).2) := by
  unfold SetTexture
  split
  · simp only
    rw [replay_append]
    exact bindTexture_mirrors _ _ _ _
      (activateUnit_mirrors { g with textures := setAt g.textures index texture } index api h)
  · exact h

theorem bindingOp_mirrors (D : GraphicsDefs) (g : Graphics) (op : BindingOp)
    (api : BindingState) (h : Mirrors g api) :
    Mirrors (op.run D g).1 (api.replay (op.run D g).2) := by
  cases op with
  | setIndexBuffer buffer => exact setIndexBuffer_mirrors g buffer api h
  | bindVBO vbo => exact bindVBO_mirrors g vbo api h
  | setTexture index texture => exact setTexture_mirrors D g index texture api h

theorem runBindingOps_mirrors (D : GraphicsDefs) (ops : List BindingOp) :
    ∀ (g : Graphics) (api : BindingState), Mirrors g api →
      Mirrors (runBindingOps D ops g).1 (api.replay (runBindingOps D ops g).2) := by
  induction ops with
  | nil => intro g api h; exact h
  | cons op rest ih =>
    intro g api h
    unfold runBindingOps
    rw [forEach_cons]
    simp only
    rw [replay_append]
    exact ih _ _ (bindingOp_mirrors D g op api h)

theorem activateUnit_small (D : GraphicsDefs) (g : Graphics) (index : Nat)
    (hi : index < D.MAX_TEXTURE_UNITS) (h : g.activeTexture = 0 ∨ g.activeTexture < D.MAX_TEXTURE_UNITS) :
    (activateUnit g index).1.activeTexture = 0 ∨
      (activateUnit g index).1.activeTexture < D.MAX_TEXTURE_UNITS := by
  unfold activateUnit
  split
  · right
    exact Nat.lt_of_le_of_lt (Nat.mod_le _ _) hi
  · exact h

theorem bindTexture_activeTexture (g : Graphics) (index : Nat) (texture : Option Texture) :
    (bindTexture g index texture).1.activeTexture = g.activeTexture := by
  unfold bindTexture
  cases texture with
  | none => simp only; split <;> rfl
  | some t => simp only; split <;> rfl

theorem setIndexBuffer_small (D : GraphicsDefs) (g : Graphics) (buffer : Option IndexBuffer)
    (h : g.activeTexture = 0 ∨ g.activeTexture < D.MAX_TEXTURE_UNITS) :
    (SetIndexBuffer g buffer).1.activeTexture = 0 ∨
      (SetIndexBuffer g buffer).1.activeTexture < D.MAX_TEXTURE_UNITS := by
  unfold SetIndexBuffer
  split
  · exact h
  · exact h

theorem bindVBO_small (D : GraphicsDefs) (g : Graphics) (vbo : Nat)
    (h : g.activeTexture = 0 ∨ g.activeTexture < D.MAX_TEXTURE_UNITS) :
    (BindVBO g vbo).1.activeTexture = 0 ∨
      (BindVBO g vbo).1.activeTexture < D.MAX_TEXTURE_UNITS := by
  unfold BindVBO
  split
  · exact h
  · exact h

theorem setTexture_small (D : GraphicsDefs) (g : Graphics) (index : Nat)
    (texture : Option Texture)
    (h : g.activeTexture = 0 ∨ g.activeTexture < D.MAX_TEXTURE_UNITS) :
    (SetTexture D g index texture).1.activeTexture = 0 ∨
      (SetTexture D g index texture).1.activeTexture < D.MAX_TEXTURE_UNITS := by
  unfold SetTexture
  split
  · rename_i hc
    simp only
    rw [bindTexture_activeTexture]
    exact activateUnit_small D { g with textures := setAt g.textures index texture } index hc.1 h
  · exact h

theorem bindingOp_small (D : GraphicsDefs) (g : Graphics) (op : BindingOp)
    (h : g.activeTexture = 0 ∨ g.activeTexture < D.MAX_TEXTURE_UNITS) :
    (op.run D g).1.activeTexture = 0 ∨ (op.run D g).1.activeTexture < D.MAX_TEXTURE_UNITS := by
  cases op with
  | setIndexBuffer buffer => exact setIndexBuffer_small D g buffer h
  | bindVBO vbo => exact bindVBO_small D g vbo h
  | setTexture index texture => exact setTexture_small D g index texture h

theorem runBindingOps_small (D : GraphicsDefs) (ops : List BindingOp) :
    ∀ g : Graphics, (g.activeTexture = 0 ∨ g.activeTexture < D.MAX_TEXTURE_UNITS) →
      ((runBindingOps D ops g).1.activeTexture = 0 ∨
        (runBindingOps D ops g).1.activeTexture < D.MAX_TEXTURE_UNITS) :=
  forEach_inv (BindingOp.run D)
    (fun g => g.activeTexture = 0 ∨ g.activeTexture < D.MAX_TEXTURE_UNITS) ops
    (fun g op _ h => bindingOp_small D g op h)

/-! ## Clamping -/

theorem clamp_bounds (value lo hi : Int) (h : lo ≤ hi) :
    lo ≤ Clamp value lo hi ∧ Clamp value lo hi ≤ hi ∧
      Clamp value lo hi = max lo (min value hi) := by
  unfold Clamp
  split
  · refine ⟨le_refl _, h, ?_⟩
    rw [max_eq_left]
    exact le_trans (min_le_left _ _) (le_of_lt (by assumption))
  · split
    · rename_i h1 h2
      refine ⟨h, le_refl _, ?_⟩
      rw [min_eq_right (le_of_lt h2), max_eq_right h]
    · rename_i h1 h2
      have h3 : lo ≤ value := not_lt.mp h1
      have h4 : value ≤ hi := not_lt.mp h2
      refine ⟨h3, h4, ?_⟩
      rw [min_eq_left h4, max_eq_right h3]

/-- The rectangle both clamping setters compute, for a target of at least 1 x 1. -/
theorem clamped_rect (left top right bottom w h : Int) (hw : 1 ≤ w) (hh : 1 ≤ h) :
    0 ≤ Clamp left 0 (w - 1) ∧
    Clamp left 0 (w - 1) < Clamp right (Clamp left 0 (w - 1) + 1) w ∧
    Clamp right (Clamp left 0 (w - 1) + 1) w ≤ w ∧
    0 ≤ Clamp top 0 (h - 1) ∧
    Clamp top 0 (h - 1) < Clamp bottom (Clamp top 0 (h - 1) + 1) h ∧
    Clamp bottom (Clamp top 0 (h - 1) + 1) h ≤ h ∧
    Clamp left 0 (w - 1) = max 0 (min left (w - 1)) ∧
    Clamp top 0 (h - 1) = max 0 (min top (h - 1)) ∧
    Clamp right (Clamp left 0 (w - 1) + 1) w = max (Clamp left 0 (w - 1) + 1) (min right w) ∧
    Clamp bottom (Clamp top 0 (h - 1) + 1) h = max (Clamp top 0 (h - 1) + 1) (min bottom h) := by
  have hl := clamp_bounds left 0 (w - 1) (by omega)
  have ht := clamp_bounds top 0 (h - 1) (by omega)
  have hr := clamp_bounds right (Clamp left 0 (w - 1) + 1) w (by omega)
  have hb := clamp_bounds bottom (Clamp top 0 (h - 1) + 1) h (by omega)
  refine ⟨hl.1, by omega, hr.2.1, ht.1, by omega, hb.2.1, hl.2.2, ht.2.2, hr.2.2, hb.2.2⟩

/-! ## Render targets, `ResetState` and `Close` -/

/-- `SetRenderTargets` with a non-empty list, member by member. -/
theorem setRenderTargets_members (D : GraphicsDefs) (g : Graphics) (ts : List (Option Texture))
    (ds : Option Texture) (hne : ts ≠ []) :
    (SetRenderTargets D g ts ds).1.backbufferSize = g.backbufferSize ∧
    (SetRenderTargets D g ts ds).1.renderTargetSize =
      (match (SetRenderTargets D g ts ds).1.renderTargets 0 with
        | some target => ⟨target.width, target.height⟩
        | none => g.backbufferSize) ∧
    (0 < D.MAX_RENDERTARGETS → (SetRenderTargets D g ts ds).1.renderTargets 0 = ts.getD 0 none) := by
  have hempty : ¬ (ts.isEmpty = true) := by
    rw [List.isEmpty_iff]
    exact hne
  have hlen : 0 < ts.length := List.length_pos.mpr hne
  unfold SetRenderTargets
  rw [if_neg hempty]
  refine ⟨rfl, rfl, ?_⟩
  intro hmax
  show (if ts.length ≤ 0 ∧ 0 < D.MAX_RENDERTARGETS then none
      else if 0 < D.MAX_RENDERTARGETS ∧ 0 < ts.length then ts.getD 0 none
      else g.renderTargets 0) = ts.getD 0 none
  rw [if_neg (fun h => Nat.not_le.mpr hlen h.1), if_pos ⟨hmax, hlen⟩]

/-- What `ResetState` clears and what it leaves. -/
theorem resetState_members (D : GraphicsDefs) (g : Graphics) :
    (∀ i, GetVertexBuffer D (ResetState D g) i = none) ∧
    (∀ i, GetTexture D (ResetState D g) i = none) ∧
    (∀ stage i, GetConstantBuffer D (ResetState D g) stage i = none) ∧
    GetIndexBuffer (ResetState D g) = none ∧
    GetVertexShader (ResetState D g) = none ∧
    GetPixelShader (ResetState D g) = none ∧
    (ResetState D g).shaderProgram = none ∧
    GetBlendState (ResetState D g) = none ∧
    GetDepthState (ResetState D g) = none ∧
    GetRasterizerState (ResetState D g) = none ∧
    (ResetState D g).vertexAttributesDirty = false ∧
    (ResetState D g).vertexBuffersDirty = false ∧
    (ResetState D g).primitiveType = D.MAX_PRIMITIVE_TYPES ∧
    (ResetState D g).renderTargets = g.renderTargets ∧
    (ResetState D g).depthStencil = g.depthStencil := by
  refine ⟨?_, ?_, ?_, rfl, rfl, rfl, rfl, rfl, rfl, rfl, rfl, rfl, rfl, rfl, rfl⟩
  · intro i
    unfold GetVertexBuffer
    by_cases h : i < D.MAX_VERTEX_STREAMS
    · rw [if_pos h]
      show (if i < D.MAX_VERTEX_STREAMS then none else g.vertexBuffers i) = none
      rw [if_pos h]
    · rw [if_neg h]
  · intro i
    unfold GetTexture
    by_cases h : i < D.MAX_TEXTURE_UNITS
    · rw [if_pos h]
      show (if i < D.MAX_TEXTURE_UNITS then none else g.textures i) = none
      rw [if_pos h]
    · rw [if_neg h]
  · intro stage i
    unfold GetConstantBuffer
    by_cases h : stage < D.MAX_SHADER_STAGES ∧ i < D.MAX_CONSTANT_BUFFERS
    · rw [if_pos h]
      show (if stage < D.MAX_SHADER_STAGES ∧ i < D.MAX_CONSTANT_BUFFERS then none
        else g.constantBuffers stage i) = none
      rw [if_pos h]
    · rw [if_neg h]

/-! ## The GPU object registry -/

/-- One registry call changes the number of entries for `o` as the specification's step does. -/
theorem registryOp_count (o : Nat) (g : Graphics) (op : RegistryOp) :
    (op.run g).gpuObjects.count o = registrationStep o (g.gpuObjects.count o) op := by
  cases op with
  | add object =>
    cases object with
    | none => rfl
    | some x =>
      show (g.gpuObjects ++ [x]).count o = if x = o then g.gpuObjects.count o + 1
        else g.gpuObjects.count o
      rw [List.count_append]
      by_cases h : x = o
      · rw [if_pos h, h]
        simp
      · rw [if_neg h, List.count_singleton]
        have hne : (x == o) = false := beq_eq_false_iff_ne.mpr h
        simp [hne]
  | remove x =>
    show (g.gpuObjects.erase x).count o = if x = o then g.gpuObjects.count o - 1
      else g.gpuObjects.count o
    by_cases h : x = o
    · rw [if_pos h, h, List.count_erase_self]
    · rw [if_neg h, List.count_erase_of_ne (fun hc => h hc.symm)]

theorem runRegistryOps_count (o : Nat) (ops : List RegistryOp) :
    ∀ g : Graphics, (runRegistryOps ops g).gpuObjects.count o =
      ops.foldl (registrationStep o) (g.gpuObjects.count o) := by
  induction ops with
  | nil => intro g; rfl
  | cons op rest ih =>
    intro g
    show (runRegistryOps rest (op.run g)).gpuObjects.count o = _
    rw [ih (op.run g), registryOp_count]
    rfl

/-- The `Release()` calls of `Close` are the entries of the registry, in order. -/
theorem close_released (D : GraphicsDefs) (B : Backend) (g : Graphics) :
    releasesBetween g (Close D B g).1 = g.gpuObjects := by
  unfold releasesBetween
  show (g.released ++ g.gpuObjects).drop g.released.length = g.gpuObjects
  exact List.drop_left _ _

/-! ## The loops of `ResetConstantBuffers` -/

/-- With a stage number below `MAX_CONSTANT_BUFFERS` the inner loop never exits. -/
theorem resetStage_stuck (D : GraphicsDefs) (i : Nat) (hi : i < D.MAX_CONSTANT_BUFFERS)
    (fuel : Nat) : ∀ (j : Nat) (g : Graphics), resetStage D i fuel j g = none := by
  induction fuel with
  | zero =>
    intro j g
    unfold resetStage
    rw [if_pos hi]
  | succ n ih =>
    intro j g
    unfold resetStage
    rw [if_pos hi, ih]

/-- With a stage number at or above `MAX_CONSTANT_BUFFERS` the inner loop exits at once. -/
theorem resetStage_exit (D : GraphicsDefs) (i : Nat) (hi : ¬ i < D.MAX_CONSTANT_BUFFERS)
    (fuel j : Nat) (g : Graphics) : resetStage D i fuel j g = some (g, []) := by
  cases fuel with
  | zero =>
    unfold resetStage
    rw [if_neg hi]
  | succ n =>
    unfold resetStage
    rw [if_neg hi]

theorem resetStages_exit (D : GraphicsDefs) (h : D.MAX_CONSTANT_BUFFERS = 0) (fuel : Nat)
    (stages : List Nat) (g : Graphics) : resetStages D fuel stages g = some (g, []) := by
  induction stages with
  | nil => rfl
  | cons i rest ih =>
    unfold resetStages
    rw [resetStage_exit D i (by rw [h]; exact Nat.not_lt_zero i)]
    show (match resetStages D fuel rest g with
      | some q => some (q.1, [] ++ q.2)
      | none => none) = some (g, [])
    rw [ih]
    rfl

/-! ## The calls of the slot loop -/

theorem slotChange_enable (D : GraphicsDefs) (attrs : List (Nat × Nat)) (g : Graphics)
    (k i : Nat) :
    slotChange D attrs g k = some (GLCall.glEnableVertexAttribArray i) ↔
      k = i ∧ slotUsed D attrs i = true ∧ g.vertexAttributes i = false := by
  unfold slotChange
  constructor
  · intro h
    split at h
    · rename_i hu
      split at h
      · rename_i hv
        have hk : k = i := by
          injection h with h1
          injection h1
        subst hk
        exact ⟨rfl, hu, hv⟩
      · exact absurd h (by simp)
    · split at h
      · exact absurd h (by simp)
      · exact absurd h (by simp)
  · rintro ⟨hk, hu, hv⟩
    subst hk
    rw [if_pos hu, if_pos hv]

theorem slotChange_disable (D : GraphicsDefs) (attrs : List (Nat × Nat)) (g : Graphics)
    (k i : Nat) :
    slotChange D attrs g k = some (GLCall.glDisableVertexAttribArray i) ↔
      k = i ∧ slotUsed D attrs i = false ∧ g.vertexAttributes i = true := by
  unfold slotChange
  constructor
  · intro h
    split at h
    · split at h
      · exact absurd h (by simp)
      · exact absurd h (by simp)
    · rename_i hu
      split at h
      · rename_i hv
        have hk : k = i := by
          injection h with h1
          injection h1
        subst hk
        exact ⟨rfl, Bool.eq_false_iff.mpr hu, hv⟩
      · exact absurd h (by simp)
  · rintro ⟨hk, hu, hv⟩
    subst hk
    rw [if_neg (by rw [hu]; simp), if_pos hv]

theorem slotChange_callSlot (D : GraphicsDefs) (attrs : List (Nat × Nat)) (g : Graphics)
    (k : Nat) (c : GLCall) (h : slotChange D attrs g k = some c) : callSlot c = some k := by
  unfold slotChange at h
  split at h
  · split at h
    · injection h with h1
      rw [← h1]
      rfl
    · exact absurd h (by simp)
  · split at h
    · injection h with h1
      rw [← h1]
      rfl
    · exact absurd h (by simp)

theorem slotChange_congr (D : GraphicsDefs) (attrs : List (Nat × Nat)) (g g1 : Graphics)
    (i : Nat) (h : g1.vertexAttributes i = g.vertexAttributes i) :
    slotChange D attrs g1 i = slotChange D attrs g i := by
  unfold slotChange
  rw [h]

/-- The calls of one iteration of the slot loop. -/
theorem assignSlot_issued (D : GraphicsDefs) (attrs : List (Nat × Nat)) (g : Graphics) (i : Nat) :
    (assignSlot D attrs g i).2 = (slotChange D attrs g i).toList.map (Issued.mk none) := by
  unfold assignSlot slotChange
  by_cases hu : i < attrs.length ∧ (attrs.getD i (0, 0)).1 < D.MAX_ELEMENT_SEMANTICS
  · have hu1 : slotUsed D attrs i = true := by
      unfold slotUsed
      exact decide_eq_true hu
    rw [if_pos hu, if_pos hu1]
    by_cases hv : g.vertexAttributes i = false
    · rw [if_pos hv, if_pos hv]
      rfl
    · rw [if_neg hv, if_neg hv]
      rfl
  · have hu1 : ¬ (slotUsed D attrs i = true) := by
      unfold slotUsed
      intro h
      exact hu (of_decide_eq_true h)
    rw [if_neg hu, if_neg hu1]
    by_cases hv : g.vertexAttributes i = true
    · rw [if_pos hv, if_pos hv]
      rfl
    · rw [if_neg hv, if_neg hv]
      rfl

/-- The calls of the slot loop: each slot is visited once, so the flag an iteration reads is the
one the loop started with. -/
theorem assignSlots_issued (D : GraphicsDefs) (attrs : List (Nat × Nat)) (xs : List Nat)
    (hxs : xs.Nodup) : ∀ g : Graphics,
    (forEach (assignSlot D attrs) xs g).2 =
      (xs.filterMap (slotChange D attrs g)).map (Issued.mk none) := by
  induction xs with
  | nil => intro g; rfl
  | cons x rest ih =>
    intro g
    have hx : x ∉ rest := (List.nodup_cons.mp hxs).1
    have hrest : rest.Nodup := (List.nodup_cons.mp hxs).2
    rw [forEach_cons]
    show (assignSlot D attrs g x).2 ++ (forEach (assignSlot D attrs) rest (assignSlot D attrs g x).1).2 = _
    rw [ih hrest, assignSlot_issued]
    have hsame : rest.filterMap (slotChange D attrs (assignSlot D attrs g x).1) =
        rest.filterMap (slotChange D attrs g) := by
      apply List.filterMap_congr
      intro k hk
      apply slotChange_congr
      rw [assignSlot_vertexAttributes, if_neg (fun h => hx (by rw [← h]; exact hk))]
    rw [hsame, List.filterMap_cons]
    cases slotChange D attrs g x with
    | none => rfl
    | some c => rfl

/-- The first part of `PrepareDraw` when it runs. -/
theorem assignAttributes_run (D : GraphicsDefs) (g : Graphics) (program : ShaderProgram)
    (hp : g.shaderProgram = some program) (hd : g.vertexAttributesDirty = true) :
    assignAttributes D g =
      ({ (forEach (assignSlot D program.attributes) (List.range MAX_VERTEX_ATTRIBUTES)
            (clearSemantics D g)).1 with
          vertexAttributesDirty := false, vertexBuffersDirty := true },
        (forEach (assignSlot D program.attributes) (List.range MAX_VERTEX_ATTRIBUTES)
            (clearSemantics D g)).2) := by
  unfold assignAttributes clearSemantics
  rw [hp]
  simp only [hd, if_true]

theorem assignAttributes_issued (D : GraphicsDefs) (g : Graphics) (program : ShaderProgram)
    (hp : g.shaderProgram = some program) (hd : g.vertexAttributesDirty = true) :
    (assignAttributes D g).2 =
      ((List.range MAX_VERTEX_ATTRIBUTES).filterMap (slotChange D program.attributes g)).map
        (Issued.mk none) ∧
    (∀ i, (assignAttributes D g).1.vertexAttributes i =
      if i < MAX_VERTEX_ATTRIBUTES then slotUsed D program.attributes i
      else g.vertexAttributes i) ∧
    (assignAttributes D g).1.vertexAttributesDirty = false ∧
    (assignAttributes D g).1.vertexBuffersDirty = true := by
  have hcalls := assignSlots_issued D program.attributes (List.range MAX_VERTEX_ATTRIBUTES)
    (List.nodup_range _) (clearSemantics D g)
  have hflags := fun i => assignSlots_vertexAttributes D program.attributes
    (List.range MAX_VERTEX_ATTRIBUTES) i (clearSemantics D g)
  rw [assignAttributes_run D g program hp hd]
  refine ⟨hcalls, ?_, rfl, rfl⟩
  intro i
  have h := hflags i
  simp only [List.mem_range] at h
  exact h

/-- The vertex-buffer loop issues no attribute enable or disable call. -/
theorem bindVertexBuffers_callSlot (D : GraphicsDefs) (g : Graphics) (instanced : Bool)
    (instanceStart : Nat) :
    ∀ c ∈ (bindVertexBuffers D g instanced instanceStart).2, callSlot c.call = none := by
  intro c hc
  obtain ⟨i, j, buffer, e, h⟩ := bindVertexBuffers_calls D g instanced instanceStart c hc
  rcases h.2.2.2.2.2.2 with h1 | h1 | h1
  · rw [h1]; rfl
  · rw [h1]; rfl
  · rw [h1]; rfl

/-! ## The current program and the cache -/

theorem findProgram_mem (cache : List ((Nat × Nat) × ShaderProgram)) (key : Nat × Nat)
    (p : ShaderProgram) (h : findProgram cache key = some p) : (key, p) ∈ cache := by
  unfold findProgram at h
  rw [Option.map_eq_some'] at h
  obtain ⟨e, he, hp⟩ := h
  have hmem := List.mem_of_find?_eq_some he
  have hkey := List.find?_some he
  have hk : e.1 = key := of_decide_eq_true hkey
  have : e = (key, p) := Prod.ext hk hp
  rw [← this]
  exact hmem

/-- Erasing entries by a test on the key leaves the lookup of a key that fails the test as it
was. -/
theorem findProgram_filter (hit : Nat × Nat → Bool) (key : Nat × Nat) (h : hit key = false) :
    ∀ cache : List ((Nat × Nat) × ShaderProgram),
      findProgram (cache.filter (fun e => !hit e.1)) key = findProgram cache key := by
  intro cache
  induction cache with
  | nil => rfl
  | cons e rest ih =>
    unfold findProgram at ih ⊢
    by_cases hk : e.1 = key
    · have hkeep : (!hit e.1) = true := by rw [hk, h]; rfl
      have hf : (e :: rest).filter (fun e => !hit e.1) = e :: rest.filter (fun e => !hit e.1) := by
        rw [List.filter_cons]
        simp only [hkeep, if_true]
      rw [hf]
      simp only [List.find?_cons, decide_eq_true hk]
    · by_cases hkeep : (!hit e.1) = true
      · have hf : (e :: rest).filter (fun e => !hit e.1) =
            e :: rest.filter (fun e => !hit e.1) := by
          rw [List.filter_cons]
          simp only [hkeep, if_true]
        rw [hf]
        simp only [List.find?_cons, decide_eq_false hk]
        exact ih
      · have hf : (e :: rest).filter (fun e => !hit e.1) = rest.filter (fun e => !hit e.1) := by
          rw [List.filter_cons]
          simp only [hkeep]
          rfl
        rw [hf]
        simp only [List.find?_cons, decide_eq_false hk]
        exact ih

theorem holdsCurrent_of_mem (hit : Nat × Nat → Bool) (cache : List ((Nat × Nat) × ShaderProgram))
    (key : Nat × Nat) (p : ShaderProgram) (hmem : (key, p) ∈ cache) (hhit : hit key = true) :
    holdsCurrent hit cache (some p) = true := by
  unfold holdsCurrent
  rw [List.any_eq_true]
  refine ⟨(key, p), hmem, ?_⟩
  simp [hhit]

/-- `CleanupShaderPrograms` writes the cache and the current program only. -/
theorem cleanupShaderPrograms_frame (D : GraphicsDefs) (g : Graphics) (shader : Option Nat) :
    (CleanupShaderPrograms D g shader).1 =
      { g with
        shaderPrograms := (CleanupShaderPrograms D g shader).1.shaderPrograms
        shaderProgram := (CleanupShaderPrograms D g shader).1.shaderProgram } ∧
    (CleanupShaderPrograms D g shader).2 = [] := by
  unfold CleanupShaderPrograms
  cases shader with
  | none => exact ⟨rfl, rfl⟩
  | some s =>
    simp only
    split
    · exact ⟨rfl, rfl⟩
    · exact ⟨rfl, rfl⟩

theorem cleanupShaderPrograms_shaders (D : GraphicsDefs) (g : Graphics) (shader : Option Nat) :
    (CleanupShaderPrograms D g shader).1.vertexShader = g.vertexShader ∧
    (CleanupShaderPrograms D g shader).1.pixelShader = g.pixelShader := by
  rw [(cleanupShaderPrograms_frame D g shader).1]
  exact ⟨rfl, rfl⟩

theorem resetState_owned (D : GraphicsDefs) (g : Graphics) : ProgramOwned (ResetState D g) := by
  intro p hp
  exact absurd hp (by simp [ResetState])

theorem close_owned (D : GraphicsDefs) (B : Backend) (g : Graphics) :
    ProgramOwned (Close D B g).1 := by
  unfold Close
  exact resetState_owned D _

theorem bindProgram_owned (B : Backend) (t : Graphics) : ProgramOwned (bindProgram B t).1 := by
  have hf := bindProgram_fields B t
  by_cases hun : t.vertexShader = none ∨ t.pixelShader = none ∨
      (∃ v, t.vertexShader = some v ∧ (t.shaderVariations v).shaderObject = 0) ∨
      (∃ p, t.pixelShader = some p ∧ (t.shaderVariations p).shaderObject = 0)
  · intro p hp
    rw [(bindProgram_unusable B t hun).2.2.1] at hp
    exact absurd hp (by simp)
  · simp only [not_or, not_exists, not_and] at hun
    obtain ⟨hv, hq, hvo, hqo⟩ := hun
    obtain ⟨v, hv1⟩ := Option.ne_none_iff_exists'.mp hv
    obtain ⟨q, hq1⟩ := Option.ne_none_iff_exists'.mp hq
    have hvo1 := hvo v hv1
    have hqo1 := hqo q hq1
    intro p hp
    refine ⟨v, q, by rw [hf.2.1]; exact hv1, by rw [hf.2.2]; exact hq1, ?_⟩
    cases hfind : findProgram t.shaderPrograms (v, q) with
    | some program =>
      have h := bindProgram_cached B t v q program hv1 hq1 hvo1 hqo1 hfind
      rw [h.2.2.1] at hp
      rw [h.1, hfind, hp]
    | none =>
      have h := bindProgram_created B t v q hv1 hq1 hvo1 hqo1 hfind
      rw [h.2.2.1] at hp
      rw [h.1, findProgram_append_new _ _ _ hfind]
      by_cases hs : (B.Link (t.shaderVariations v) (t.shaderVariations q)).success = true
      · rw [if_pos hs] at hp
        exact hp
      · rw [if_neg hs] at hp
        exact absurd hp (by simp)

theorem setShaders_owned (D : GraphicsDefs) (B : Backend) (g : Graphics) (vs ps : Option Nat)
    (h : ProgramOwned g) : ProgramOwned (SetShaders D B g vs ps).1 := by
  unfold SetShaders
  by_cases hsame : vs = g.vertexShader ∧ ps = g.pixelShader
  · rw [if_pos hsame]
    exact h
  · rw [if_neg hsame]
    exact bindProgram_owned B (trackShaders D B g vs ps)

theorem cleanupShaderPrograms_owned (D : GraphicsDefs) (g : Graphics) (shader : Option Nat)
    (h : ProgramOwned g) : ProgramOwned (CleanupShaderPrograms D g shader).1 := by
  cases shader with
  | none => exact h
  | some s =>
    have heq := cleanupShaderPrograms_eq D g s
    have hsh := cleanupShaderPrograms_shaders D g (some s)
    intro p hp
    rw [heq.2.1] at hp
    by_cases hold : holdsCurrent (cleanupHit D g s) g.shaderPrograms g.shaderProgram = true
    · rw [if_pos hold] at hp
      exact absurd hp (by simp)
    · rw [if_neg hold] at hp
      obtain ⟨v, q, hv, hq, hfind⟩ := h p hp
      refine ⟨v, q, by rw [hsh.1]; exact hv, by rw [hsh.2]; exact hq, ?_⟩
      rw [heq.1]
      have hhit : cleanupHit D g s (v, q) = false := by
        by_contra hc
        rw [Bool.not_eq_false] at hc
        rw [hp] at hold
        exact hold (holdsCurrent_of_mem _ _ _ _ (findProgram_mem _ _ _ hfind) hc)
      rw [findProgram_filter _ _ hhit]
      exact hfind

theorem shaderOp_owned (D : GraphicsDefs) (B : Backend) (g : Graphics) (op : ShaderOp)
    (h : ProgramOwned g) : ProgramOwned (op.run D B g).1 := by
  cases op with
  | setShaders vs ps => exact setShaders_owned D B g vs ps h
  | cleanupShaderPrograms shader => exact cleanupShaderPrograms_owned D g shader h
  | close => exact close_owned D B g

theorem runShaderOps_owned (D : GraphicsDefs) (B : Backend) (ops : List ShaderOp) :
    ∀ g, ProgramOwned g → ProgramOwned (runShaderOps D B ops g).1 := by
  unfold runShaderOps
  exact forEach_inv (ShaderOp.run D B) ProgramOwned ops
    (fun s op _ hs => shaderOp_owned D B s op hs)

/-- Cleaning up the tracked shader of its own stage clears the current program. -/
theorem cleanupShaderPrograms_tracked (D : GraphicsDefs) (g : Graphics) (s : Nat)
    (h : ProgramOwned g)
    (hs : (g.vertexShader = some s ∧ (g.shaderVariations s).stage = D.SHADER_VS) ∨
      (g.pixelShader = some s ∧ (g.shaderVariations s).stage ≠ D.SHADER_VS)) :
    (CleanupShaderPrograms D g (some s)).1.shaderProgram = none := by
  rw [(cleanupShaderPrograms_eq D g s).2.1]
  cases hp : g.shaderProgram with
  | none => simp
  | some p =>
    obtain ⟨v, q, hv, hq, hfind⟩ := h p hp
    have hhit : cleanupHit D g s (v, q) = true := by
      unfold cleanupHit
      rcases hs with ⟨h1, h2⟩ | ⟨h1, h2⟩
      · rw [if_pos h2]
        rw [hv] at h1
        exact decide_eq_true (Option.some.inj h1)
      · rw [if_neg h2]
        rw [hq] at h1
        exact decide_eq_true (Option.some.inj h1)
    rw [if_pos (holdsCurrent_of_mem _ _ _ _ (findProgram_mem _ _ _ hfind) hhit)]

/-! ## The frame of the render-target setters -/

/-- `SetRenderTargets` writes the render-target slots, the depth-stencil and the render-target
size only, and issues no call. -/
theorem setRenderTargets_frame (D : GraphicsDefs) (g : Graphics) (ts : List (Option Texture))
    (ds : Option Texture) :
    (SetRenderTargets D g ts ds).1 =
      { g with
        renderTargets := (SetRenderTargets D g ts ds).1.renderTargets
        depthStencil := (SetRenderTargets D g ts ds).1.depthStencil
        renderTargetSize := (SetRenderTargets D g ts ds).1.renderTargetSize } ∧
    (SetRenderTargets D g ts ds).2 = [] := by
  unfold SetRenderTargets
  split
  · exact ⟨rfl, rfl⟩
  · exact ⟨rfl, rfl⟩

/-! ## Texture target types -/

theorem activateUnit_textureTargets (s : Graphics) (index : Nat) :
    (activateUnit s index).1.textureTargets = s.textureTargets := by
  unfold activateUnit
  split <;> rfl

/-- The target types after the binding part of `SetTexture`. -/
theorem bindTexture_textureTargets (s : Graphics) (index : Nat) (texture : Option Texture)
    (j : Nat) :
    (bindTexture s index texture).1.textureTargets j =
      match texture with
      | some t => if j = index then t.target else s.textureTargets j
      | none => s.textureTargets j := by
  cases texture with
  | none =>
    unfold bindTexture
    simp only
    split <;> rfl
  | some t =>
    unfold bindTexture
    simp only
    by_cases ht : t.target ≠ s.textureTargets index
    · rw [if_pos ht]
      show setAt s.textureTargets index t.target j = _
      by_cases hj : j = index
      · rw [if_pos hj, hj, setAt_same]
      · rw [if_neg hj, setAt_other _ _ _ _ hj]
    · rw [if_neg ht]
      rw [not_not] at ht
      by_cases hj : j = index
      · rw [if_pos hj, hj, ht]
      · rw [if_neg hj]

/-- The target types after `SetTexture`. -/
theorem setTexture_textureTargets (D : GraphicsDefs) (g : Graphics) (index : Nat)
    (texture : Option Texture) (j : Nat) :
    (SetTexture D g index texture).1.textureTargets j =
      match texture with
      | some t =>
        if index < D.MAX_TEXTURE_UNITS ∧ some t ≠ g.textures index ∧ j = index then t.target
        else g.textureTargets j
      | none => g.textureTargets j := by
  unfold SetTexture
  by_cases hrun : index < D.MAX_TEXTURE_UNITS ∧ texture ≠ g.textures index
  · rw [if_pos hrun]
    show (bindTexture (activateUnit { g with textures := setAt g.textures index texture } index).1
      index texture).1.textureTargets j = _
    rw [bindTexture_textureTargets, activateUnit_textureTargets]
    cases texture with
    | none => rfl
    | some t =>
      show (if j = index then t.target else g.textureTargets j) =
        if index < D.MAX_TEXTURE_UNITS ∧ some t ≠ g.textures index ∧ j = index then t.target
        else g.textureTargets j
      by_cases hj : j = index
      · rw [if_pos hj, if_pos ⟨hrun.1, hrun.2, hj⟩]
      · rw [if_neg hj, if_neg (fun h => hj h.2.2)]
  · rw [if_neg hrun]
    cases texture with
    | none => rfl
    | some t =>
      show g.textureTargets j =
        if index < D.MAX_TEXTURE_UNITS ∧ some t ≠ g.textures index ∧ j = index then t.target
        else g.textureTargets j
      rw [if_neg (fun h => hrun ⟨h.1, h.2.1⟩)]

/-- `SetTexture` keeps the target type of every unit with a texture equal to that texture's
target. -/
theorem setTexture_tracks_target (D : GraphicsDefs) (g : Graphics) (index : Nat)
    (texture : Option Texture)
    (h : ∀ i t, GetTexture D g i = some t → g.textureTargets i = t.target) :
    ∀ i t, GetTexture D (SetTexture D g index texture).1 i = some t →
      (SetTexture D g index texture).1.textureTargets i = t.target := by
  intro i t hget
  unfold GetTexture at hget h
  by_cases hi : i < D.MAX_TEXTURE_UNITS
  · rw [if_pos hi, setTexture_textures] at hget
    have hold := h i
    rw [if_pos hi] at hold
    rw [setTexture_textureTargets]
    by_cases hindex : index < D.MAX_TEXTURE_UNITS
    · rw [if_pos hindex] at hget
      by_cases hj : i = index
      · rw [hj, setAt_same] at hget
        rw [hget]
        show (if index < D.MAX_TEXTURE_UNITS ∧ some t ≠ g.textures index ∧ i = index then t.target
          else g.textureTargets i) = t.target
        by_cases hne : some t ≠ g.textures index
        · rw [if_pos ⟨hindex, hne, hj⟩]
        · rw [if_neg (fun h => hne h.2.1)]
          rw [not_not] at hne
          exact hold t (by rw [hj]; exact hne.symm)
      · rw [setAt_other _ _ _ _ hj] at hget
        cases texture with
        | none => exact hold t hget
        | some t1 =>
          show (if index < D.MAX_TEXTURE_UNITS ∧ some t1 ≠ g.textures index ∧ i = index then
            t1.target else g.textureTargets i) = t.target
          rw [if_neg (fun h => hj h.2.2)]
          exact hold t hget
    · rw [if_neg hindex] at hget
      cases texture with
      | none => exact hold t hget
      | some t1 =>
        show (if index < D.MAX_TEXTURE_UNITS ∧ some t1 ≠ g.textures index ∧ i = index then
          t1.target else g.textureTargets i) = t.target
        rw [if_neg (fun h => hindex h.1)]
        exact hold t hget
  · rw [if_neg hi] at hget
    exact absurd hget (by simp)

theorem runSetTextures_tracks_target (D : GraphicsDefs) (ops : List (Nat × Option Texture)) :
    ∀ g : Graphics, (∀ i t, GetTexture D g i = some t → g.textureTargets i = t.target) →
      ∀ i t, GetTexture D (runSetTextures D ops g).1 i = some t →
        (runSetTextures D ops g).1.textureTargets i = t.target := by
  unfold runSetTextures
  exact forEach_inv (fun s op => SetTexture D s op.1 op.2)
    (fun s => ∀ i t, GetTexture D s i = some t → s.textureTargets i = t.target) ops
    (fun s op _ hs => setTexture_tracks_target D s op.1 op.2 hs)

/-- The calls of `SetTexture(index, nullptr)`. -/
theorem setTexture_null_calls (D : GraphicsDefs) (g : Graphics) (index : Nat) :
    (SetTexture D g index none).2 =
      if index < D.MAX_TEXTURE_UNITS ∧ g.textures index ≠ none then
        (activateUnit g index).2 ++
          (if g.textureTargets index ≠ 0 then [GLCall.glBindTexture (g.textureTargets index) 0]
            else [])
      else [] := by
  unfold SetTexture
  by_cases hrun : index < D.MAX_TEXTURE_UNITS ∧ none ≠ g.textures index
  · rw [if_pos hrun, if_pos ⟨hrun.1, fun h => hrun.2 h.symm⟩]
    show (activateUnit { g with textures := setAt g.textures index none } index).2 ++
      (bindTexture (activateUnit { g with textures := setAt g.textures index none } index).1
        index none).2 = _
    have h1 : (activateUnit { g with textures := setAt g.textures index none } index).2 =
        (activateUnit g index).2 := by
      unfold activateUnit
      split <;> rfl
    rw [h1]
    unfold bindTexture
    simp only
    rw [activateUnit_textureTargets]
    by_cases ht : g.textureTargets index ≠ 0
    · rw [if_pos ht, if_pos ht]
    · rw [if_neg ht, if_neg ht]
  · rw [if_neg hrun, if_neg (fun h => hrun ⟨h.1, fun hc => h.2 hc.symm⟩)]

/-! ## Uniform-buffer binding points -/

/-- The call of `SetConstantBuffer`, if any, names the binding point of the slot. -/
theorem bindConstantBuffer_point (D : GraphicsDefs) (g : Graphics) (stage index buffer : Nat)
    (hs : stage < D.MAX_SHADER_STAGES) (hi : index < D.MAX_CONSTANT_BUFFERS) :
    bindConstantBuffer D g stage index buffer =
      match bindingPoint D g stage index with
      | some point => [GLCall.glBindBufferBase GL_UNIFORM_BUFFER point buffer]
      | none => [] := by
  unfold bindConstantBuffer bindingPoint
  simp only [if_pos (show stage < D.MAX_SHADER_STAGES ∧ index < D.MAX_CONSTANT_BUFFERS from
    ⟨hs, hi⟩)]
  by_cases hvs : stage = D.SHADER_VS
  · simp only [if_pos hvs]
    by_cases h : index < g.vsConstantBuffers
    · simp only [if_pos h]
    · simp only [if_neg h]
  · simp only [if_neg hvs]
    by_cases hps : stage = D.SHADER_PS
    · simp only [if_pos hps]
      by_cases h : index < g.psConstantBuffers
      · simp only [if_pos h]
      · simp only [if_neg h]
    · simp only [if_neg hps]

theorem setConstantBuffer_point (D : GraphicsDefs) (g : Graphics) (stage index : Nat)
    (buffer : Option ConstantBuffer) :
    (SetConstantBuffer D g stage index buffer).2 = [] ∨
      ∃ point, bindingPoint D g stage index = some point ∧
        (SetConstantBuffer D g stage index buffer).2 =
          [GLCall.glBindBufferBase GL_UNIFORM_BUFFER point (constantBufferObject buffer)] := by
  rw [setConstantBuffer_calls]
  by_cases hrun : stage < D.MAX_SHADER_STAGES ∧ index < D.MAX_CONSTANT_BUFFERS ∧
      buffer ≠ g.constantBuffers stage index
  · rw [if_pos hrun, bindConstantBuffer_point D g stage index _ hrun.1 hrun.2.1]
    cases h : bindingPoint D g stage index with
    | none => left; rfl
    | some point => right; exact ⟨point, rfl, rfl⟩
  · rw [if_neg hrun]
    left; rfl

/-- The binding point of a slot when the sum of the vertex-stage maximum and the array bound
fits the 32 bits of a `GLuint`. -/
theorem bindingPoint_value (D : GraphicsDefs) (g : Graphics) (stage index point : Nat)
    (hfit : g.vsConstantBuffers + D.MAX_CONSTANT_BUFFERS ≤ 2 ^ 32)
    (h : bindingPoint D g stage index = some point) :
    stage < D.MAX_SHADER_STAGES ∧ index < D.MAX_CONSTANT_BUFFERS ∧
      ((stage = D.SHADER_VS ∧ index < g.vsConstantBuffers ∧ point = index) ∨
        (stage ≠ D.SHADER_VS ∧ stage = D.SHADER_PS ∧ index < g.psConstantBuffers ∧
          point = index + g.vsConstantBuffers)) := by
  unfold bindingPoint at h
  by_cases hr : stage < D.MAX_SHADER_STAGES ∧ index < D.MAX_CONSTANT_BUFFERS
  · rw [if_pos hr] at h
    refine ⟨hr.1, hr.2, ?_⟩
    by_cases hvs : stage = D.SHADER_VS
    · rw [if_pos hvs] at h
      by_cases hq : index < g.vsConstantBuffers
      · rw [if_pos hq] at h
        left
        refine ⟨hvs, hq, ?_⟩
        have := Option.some.inj h
        rw [Nat.mod_eq_of_lt (by omega)] at this
        exact this.symm
      · rw [if_neg hq] at h
        exact absurd h (by simp)
    · rw [if_neg hvs] at h
      by_cases hps : stage = D.SHADER_PS
      · rw [if_pos hps] at h
        by_cases hq : index < g.psConstantBuffers
        · rw [if_pos hq] at h
          right
          refine ⟨hvs, hps, hq, ?_⟩
          have := Option.some.inj h
          rw [Nat.mod_eq_of_lt (by omega)] at this
          exact this.symm
        · rw [if_neg hq] at h
          exact absurd h (by simp)
      · rw [if_neg hps] at h
        exact absurd h (by simp)
  · rw [if_neg hr] at h
    exact absurd h (by simp)

theorem bindingPoint_injective (D : GraphicsDefs) (g : Graphics)
    (hfit : g.vsConstantBuffers + D.MAX_CONSTANT_BUFFERS ≤ 2 ^ 32)
    (stage1 index1 stage2 index2 point : Nat)
    (h1 : bindingPoint D g stage1 index1 = some point)
    (h2 : bindingPoint D g stage2 index2 = some point) :
    stage1 = stage2 ∧ index1 = index2 := by
  have v1 := bindingPoint_value D g stage1 index1 point hfit h1
  have v2 := bindingPoint_value D g stage2 index2 point hfit h2
  rcases v1.2.2 with ⟨a1, b1, c1⟩ | ⟨a1, a2, b1, c1⟩ <;>
    rcases v2.2.2 with ⟨d1, e1, f1⟩ | ⟨d1, d2, e1, f1⟩
  · exact ⟨a1.trans d1.symm, by omega⟩
  · omega
  · omega
  · exact ⟨a2.trans d2.symm, by omega⟩

theorem uniform_replay_single (api : UniformState) (point buffer : Nat) :
    (api.replay [GLCall.glBindBufferBase GL_UNIFORM_BUFFER point buffer]).bindings =
      setAt api.bindings point buffer := by
  rfl

/-- A device that reports a vertex-stage maximum that is not negative (it is an `int`) gives
binding points that fit 32 bits. -/
theorem queryCapabilities_fit (D : GraphicsDefs) (g : Graphics) (vsBlocks psBlocks : Int)
    (h0 : 0 ≤ vsBlocks) (h1 : vsBlocks < 2 ^ 31) (hmax : D.MAX_CONSTANT_BUFFERS ≤ 2 ^ 31) :
    (queryCapabilities D g vsBlocks psBlocks).vsConstantBuffers + D.MAX_CONSTANT_BUFFERS ≤
      2 ^ 32 := by
  show (vsBlocks % 2 ^ D.sizeBits).toNat + D.MAX_CONSTANT_BUFFERS ≤ 2 ^ 32
  obtain ⟨n, hn⟩ := Int.eq_ofNat_of_zero_le h0
  subst hn
  have hcast : ((n : Int) % 2 ^ D.sizeBits).toNat = n % 2 ^ D.sizeBits := by
    have : ((n : Int) % 2 ^ D.sizeBits) = ((n % 2 ^ D.sizeBits : Nat) : Int) := by
      push_cast
      rfl
    rw [this, Int.toNat_natCast]
  rw [hcast]
  have hle : n % 2 ^ D.sizeBits ≤ n := Nat.mod_le _ _
  have hn : n < 2 ^ 31 := by exact_mod_cast h1
  omega

/-! ## The values of the semantic map -/

/-- Why the bound on the value `Resize` appends is needed: the program declares TEXCOORD 1
only, so entry 0 of the TEXCOORD vector is an appended element; were such an element 99, the
TEXCOORD 0 element of the bound buffer would be given slot 99, outside `vertexAttributeDivisors`. -/
theorem unfilled_hole_out_of_range :
    Access.vertexAttributeDivisors 99 ∈
      prepareDrawAccesses (sampleDefsFill 99) (texcoordOneState 99) false 0 ∧
    (Access.vertexAttributeDivisors 99).inRange (sampleDefsFill 99) = false := by
  refine ⟨by decide, by decide⟩

/-! ## The current program in reachable states -/

/-- `PrepareDraw` leaves the tracked shaders, the current program and the cache as they were. -/
theorem prepareDraw_program_fields (D : GraphicsDefs) (g : Graphics) (instanced : Bool)
    (instanceStart : Nat) :
    (PrepareDraw D g instanced instanceStart).1.shaderProgram = g.shaderProgram ∧
    (PrepareDraw D g instanced instanceStart).1.vertexShader = g.vertexShader ∧
    (PrepareDraw D g instanced instanceStart).1.pixelShader = g.pixelShader ∧
    (PrepareDraw D g instanced instanceStart).1.shaderPrograms = g.shaderPrograms := by
  have hA : (assignAttributes D g).1.shaderProgram = g.shaderProgram ∧
      (assignAttributes D g).1.vertexShader = g.vertexShader ∧
      (assignAttributes D g).1.pixelShader = g.pixelShader := by
    by_cases hrun : g.vertexAttributesDirty = true ∧ g.shaderProgram ≠ none
    · obtain ⟨program, hprog⟩ := Option.ne_none_iff_exists'.mp hrun.2
      rw [assignAttributes_run D g program hprog hrun.1]
      have h := forEach_rel (assignSlot D program.attributes) SameButAttributes
        SameButAttributes.refl_attributes SameButAttributes.trans_attributes
        (List.range MAX_VERTEX_ATTRIBUTES) (fun t x _ => assignSlot_same D _ t x)
        (clearSemantics D g)
      unfold SameButAttributes at h
      refine ⟨?_, ?_, ?_⟩
      · show (forEach (assignSlot D program.attributes) (List.range MAX_VERTEX_ATTRIBUTES)
          (clearSemantics D g)).1.shaderProgram = _
        rw [h]
        rfl
      · show (forEach (assignSlot D program.attributes) (List.range MAX_VERTEX_ATTRIBUTES)
          (clearSemantics D g)).1.vertexShader = _
        rw [h]
        rfl
      · show (forEach (assignSlot D program.attributes) (List.range MAX_VERTEX_ATTRIBUTES)
          (clearSemantics D g)).1.pixelShader = _
        rw [h]
        rfl
    · have hidle : g.vertexAttributesDirty = false ∨ g.shaderProgram = none := by
        by_cases hd : g.vertexAttributesDirty = true
        · right
          by_contra hc
          exact hrun ⟨hd, hc⟩
        · left
          exact Bool.eq_false_iff.mpr hd
      rw [assignAttributes_noop D g hidle]
      exact ⟨rfl, rfl, rfl⟩
  have hB : ∀ s : Graphics,
      (bindVertexBuffers D s instanced instanceStart).1.shaderProgram = s.shaderProgram ∧
      (bindVertexBuffers D s instanced instanceStart).1.vertexShader = s.vertexShader ∧
      (bindVertexBuffers D s instanced instanceStart).1.pixelShader = s.pixelShader := by
    intro s
    unfold bindVertexBuffers
    by_cases hrun : s.vertexBuffersDirty = true ∨ instanced = true
    · rw [if_pos hrun]
      have h := bindStreams_same D instanced instanceStart (List.range D.MAX_VERTEX_STREAMS) s
      unfold SameButPointers at h
      refine ⟨?_, ?_, ?_⟩
      · show (forEach (bindStream D instanced instanceStart) (List.range D.MAX_VERTEX_STREAMS)
          s).1.shaderProgram = _
        rw [h]
      · show (forEach (bindStream D instanced instanceStart) (List.range D.MAX_VERTEX_STREAMS)
          s).1.vertexShader = _
        rw [h]
      · show (forEach (bindStream D instanced instanceStart) (List.range D.MAX_VERTEX_STREAMS)
          s).1.pixelShader = _
        rw [h]
    · rw [if_neg hrun]
      exact ⟨rfl, rfl, rfl⟩
  refine ⟨?_, ?_, ?_, prepareDraw_shaderPrograms D g instanced instanceStart⟩
  · unfold PrepareDraw
    exact ((hB _).1).trans hA.1
  · unfold PrepareDraw
    exact ((hB _).2.1).trans hA.2.1
  · unfold PrepareDraw
    exact ((hB _).2.2).trans hA.2.2

theorem programOwned_congr (g g1 : Graphics) (h1 : g1.shaderProgram = g.shaderProgram)
    (h2 : g1.vertexShader = g.vertexShader) (h3 : g1.pixelShader = g.pixelShader)
    (h4 : g1.shaderPrograms = g.shaderPrograms) (h : ProgramOwned g) : ProgramOwned g1 := by
  intro p hp
  rw [h1] at hp
  obtain ⟨v, q, hv, hq, hfind⟩ := h p hp
  exact ⟨v, q, by rw [h2]; exact hv, by rw [h3]; exact hq, by rw [h4]; exact hfind⟩

/-- In every reachable state the current program, when there is one, is the cache's entry for
the tracked pair. -/
theorem reachable_owned (D : GraphicsDefs) (B : Backend) (g : Graphics)
    (h : Reachable D B g) : ProgramOwned g := by
  induction h with
  | construct raw => exact resetState_owned D _
  | setShaders g vs ps _ ih => exact setShaders_owned D B g vs ps ih
  | cleanupShaderPrograms g shader _ ih => exact cleanupShaderPrograms_owned D g shader ih
  | close g _ _ => exact close_owned D B g
  | setVertexBuffer g index buffer _ ih =>
    unfold SetVertexBuffer
    split
    · exact programOwned_congr g _ rfl rfl rfl rfl ih
    · exact ih
  | bindVBO g vbo _ ih =>
    unfold BindVBO
    split
    · exact programOwned_congr g _ rfl rfl rfl rfl ih
    · exact ih
  | prepareDraw g instanced instanceStart _ ih =>
    have h := prepareDraw_program_fields D g instanced instanceStart
    exact programOwned_congr g _ h.1 h.2.1 h.2.2.1 h.2.2.2 ih

/-! ## Claims -/

/-- C1 (evaluation at the failing input). The bound program declares TEXCOORD 1 only, and
stream 0 holds a buffer whose only element is TEXCOORD 0. Whatever value `Vector::Resize` gives
to appended elements, `PrepareDraw` issues an attribute-pointer call for that element, at the
slot whose number is that value, although the program declares no (TEXCOORD, 0). -/
theorem prepareDraw_points_undeclared_element (fill : Nat) :
    (texcoordOneState fill).shaderProgram.map ShaderProgram.attributes = some [(SEM_TEXCOORD, 1)] ∧
    (texcoordOneState fill).vertexBuffers 0 = some texcoordBuffer ∧
    (PrepareDraw (sampleDefsFill fill) (texcoordOneState fill) false 0).2 =
      [⟨none, GLCall.glEnableVertexAttribArray 0⟩,
       ⟨some (0, 0), GLCall.glBindBuffer GL_ARRAY_BUFFER 11⟩,
       ⟨some (0, 0), GLCall.glVertexAttribPointer fill 2 GL_FLOAT false 8 0⟩] := by
  refine ⟨rfl, rfl, ?_⟩
  simp [PrepareDraw, texcoordOneState, assignAttributes, bindVertexBuffers, SetVertexBuffer,
    SetShaders, trackShaders, trackVertexShader, trackPixelShader, fresh, Graphics.construct, ResetState, rawMemory, sampleDefsFill,
    sampleDefs,
    sampleBackend, compileIfNeeded, bindProgram, findProgram, insertProgram, forEach, assignSlot,
    bindStream, bindElement, BindVBO, setDivisor, pointerCall, attributeIndex, elementDivisor,
    dataStart, setAt, vectorResize, MAX_VERTEX_ATTRIBUTES, List.range, List.range.loop,
    texcoordBuffer, SEM_TEXCOORD, GL_ARRAY_BUFFER, GL_FLOAT, elementGLType, elementGLComponents,
    List.enum, List.enumFrom]

/-- C2. After `PrepareDraw` has run with the vertex-attribute map dirty and a program bound,
hardware slot `i < MAX_VERTEX_ATTRIBUTES` is enabled exactly when the program's attribute list
has an entry at slot `i` whose semantic is below `MAX_ELEMENT_SEMANTICS`, whatever the enable
state was before. -/
theorem prepareDraw_enables_declared_slots (D : GraphicsDefs) (g : Graphics) (instanced : Bool)
    (instanceStart : Nat) (program : ShaderProgram)
    (hdirty : g.vertexAttributesDirty = true) (hprogram : g.shaderProgram = some program)
    (i : Nat) (hi : i < MAX_VERTEX_ATTRIBUTES) :
    (PrepareDraw D g instanced instanceStart).1.vertexAttributes i = true ↔
      ∃ a, program.attributes[i]? = some a ∧ a.1 < D.MAX_ELEMENT_SEMANTICS := by
  unfold PrepareDraw
  simp only [bindVertexBuffers_vertexAttributes]
  unfold assignAttributes
  simp only [hprogram, hdirty, if_true]
  rw [assignSlots_vertexAttributes, if_pos (List.mem_range.mpr hi)]
  exact slotUsed_iff D program.attributes i

/-- C2, sample run: slot 1, enabled under the first program, is tested under the second one,
which declares no known semantic there. -/
theorem prepareDraw_enables_declared_slots_witness :
    secondShaderState.vertexAttributes 1 = true ∧
    secondShaderState.vertexAttributesDirty = true ∧
    secondShaderState.shaderProgram =
      some ⟨1001, 7, [(SEM_NORMAL, 0), (8, 0), (SEM_POSITION, 0)]⟩ ∧
    ((PrepareDraw sampleDefs secondShaderState false 0).1.vertexAttributes 1 = true ↔
      ∃ a, [(SEM_NORMAL, 0), (8, 0), (SEM_POSITION, 0)][1]? = some a ∧
        a.1 < sampleDefs.MAX_ELEMENT_SEMANTICS) :=
  ⟨rfl, rfl, rfl,
    prepareDraw_enables_declared_slots sampleDefs secondShaderState false 0
      ⟨1001, 7, [(SEM_NORMAL, 0), (8, 0), (SEM_POSITION, 0)]⟩ rfl rfl 1 (by decide)⟩

/-- C3 (evaluation at the failing input). Two consecutive instanced draws with the same
bindings, the second from instance 10: the `PrepareDraw` of the second draw issues the pointer of
the per-vertex POSITION element again and no call at all for the per-instance TEXCOORD element. -/
theorem second_instanced_draw_calls :
    afterFirstDraw.vertexBuffers 0 = some meshBuffer ∧
    afterFirstDraw.vertexBuffers 1 = some instanceBuffer ∧
    afterFirstDraw.attributeBySemantic SEM_TEXCOORD = [1] ∧
    (PrepareDraw sampleDefs afterFirstDraw true 10).2 =
      [⟨some (0, 0), GLCall.glBindBuffer GL_ARRAY_BUFFER 21⟩,
       ⟨some (0, 0), GLCall.glVertexAttribPointer 0 3 GL_FLOAT false 12 0⟩] := by
  refine ⟨by decide, by decide, by decide, by decide⟩

/-- C4 (evaluation at the failing input). After the second `PrepareDraw` of the sample run the
pointer of slot 1 (the per-instance element) still has data offset 0, the offset of the first
draw; after the variant that never skips it has data offset 160 = 10 * 16. -/
theorem skip_rule_changes_pointers :
    (apiAfterFirstDraw.replay
        ((PrepareDraw sampleDefs afterFirstDraw true 10).2.map Issued.call)).pointers 1 =
      some ⟨22, 4, GL_FLOAT, false, 16, 0⟩ ∧
    (apiAfterFirstDraw.replay
        ((PrepareDrawNoSkip sampleDefs afterFirstDraw true 10).2.map Issued.call)).pointers 1 =
      some ⟨22, 4, GL_FLOAT, false, 16, 160⟩ := by
  refine ⟨by decide, by decide⟩

/-- C5. When `PrepareDraw` is called with `instanced = true` and neither the attribute map nor
the vertex buffers are dirty, every call it issues is issued for some buffer element, and none
for a per-instance element of a bound vertex buffer: in particular no attribute-pointer call. -/
theorem prepareDraw_skips_instance_elements (D : GraphicsDefs) (g : Graphics)
    (instanceStart : Nat) (hattr : g.vertexAttributesDirty = false)
    (hbuf : g.vertexBuffersDirty = false) :
    ∀ c ∈ (PrepareDraw D g true instanceStart).2,
      (∃ i j, c.origin = some (i, j)) ∧
      ∀ (i j : Nat) (buffer : VertexBuffer) (e : VertexElement),
        g.vertexBuffers i = some buffer → buffer.elements[j]? = some e →
        e.perInstance = true → c.origin ≠ some (i, j) := by
  intro c hc
  unfold PrepareDraw at hc
  rw [assignAttributes_noop D g (Or.inl hattr)] at hc
  simp only [List.nil_append] at hc
  obtain ⟨i0, j0, b0, e0, _, horigin, hb0, he0, _, hskip, _⟩ :=
    bindVertexBuffers_calls D g true instanceStart c hc
  refine ⟨⟨i0, j0, horigin⟩, ?_⟩
  intro i j buffer e hb he hinst heq
  rw [horigin] at heq
  injection heq with heq
  injection heq with h1 h2
  subst h1
  subst h2
  rw [hb0] at hb
  injection hb with hb
  subst hb
  rw [he0] at he
  injection he with he
  subst he
  exact hskip ⟨hbuf, rfl, hinst⟩

/-- C5, sample run: the second instanced draw of the sample run; the call examined is the
pointer call it issues, the element the per-instance element of stream 1. -/
theorem prepareDraw_skips_instance_elements_witness :
    afterFirstDraw.vertexAttributesDirty = false ∧ afterFirstDraw.vertexBuffersDirty = false ∧
    (⟨some (0, 0), GLCall.glVertexAttribPointer 0 3 GL_FLOAT false 12 0⟩ : Issued) ∈
      (PrepareDraw sampleDefs afterFirstDraw true 10).2 ∧
    afterFirstDraw.vertexBuffers 1 = some instanceBuffer ∧
    instanceBuffer.elements[0]? = some ⟨4, SEM_TEXCOORD, 0, true, 0⟩ ∧
    (⟨some (0, 0), GLCall.glVertexAttribPointer 0 3 GL_FLOAT false 12 0⟩ : Issued).origin ≠
      some (1, 0) :=
  ⟨by decide, by decide, by decide, by decide, by decide,
    (prepareDraw_skips_instance_elements sampleDefs afterFirstDraw 10 (by decide) (by decide)
      ⟨some (0, 0), GLCall.glVertexAttribPointer 0 3 GL_FLOAT false 12 0⟩ (by decide)).2
      1 0 instanceBuffer ⟨4, SEM_TEXCOORD, 0, true, 0⟩ (by decide) (by decide) rfl⟩

/-- C6 (the claim fails as stated). Streams 0 and 1 hold a per-vertex and a per-instance element
that are given the same slot. In the second of two consecutive instanced draws with these
bindings, a divisor-set call is issued. -/
theorem shared_slot_second_draw_sets_divisor :
    sharedSlotState.vertexBuffers 0 = some texcoordBuffer ∧
    sharedSlotState.vertexBuffers 1 = some instanceBuffer ∧
    (PrepareDraw sampleDefs (PrepareDraw sampleDefs sharedSlotState true 0).1 true 5).2 =
      [⟨some (0, 0), GLCall.glBindBuffer GL_ARRAY_BUFFER 11⟩,
       ⟨some (0, 0), GLCall.glVertexAttribPointer 0 2 GL_FLOAT false 8 0⟩,
       ⟨some (0, 0), GLCall.glVertexAttribDivisorARB 0 0⟩] := by
  refine ⟨by decide, by decide, by decide⟩

/-- C6 (amended). For an element that has a hardware slot `s` and is not skipped, the loop body
issues the divisor-set call (for `s`, with the element's divisor: 1 if per-instance, 0
otherwise) exactly when that divisor differs from the tracked divisor of `s`, issues no other
divisor-set call, and leaves the tracked divisor of `s` equal to the element's divisor. When the
elements of the bound buffers that share a slot agree on their divisor, the second of two
consecutive instanced draws issues no divisor-set call. -/
theorem prepareDraw_divisor_rule (D : GraphicsDefs) (g : Graphics) :
    (∀ (instanced : Bool) (instanceStart i : Nat) (buffer : VertexBuffer)
        (je : Nat × VertexElement),
      je.2.index < (g.attributeBySemantic je.2.semantic).length →
      ¬ (g.vertexBuffersDirty = false ∧ instanced = true ∧ je.2.perInstance = true) →
      (elementDivisor je.2 = if je.2.perInstance = true then 1 else 0) ∧
      ((⟨some (i, je.1), GLCall.glVertexAttribDivisorARB (attributeIndex g je.2)
            (elementDivisor je.2)⟩ : Issued) ∈
          (bindElement D instanced instanceStart i buffer g je).2 ↔
        elementDivisor je.2 ≠ g.vertexAttributeDivisors (attributeIndex g je.2)) ∧
      (bindElement D instanced instanceStart i buffer g je).1.vertexAttributeDivisors
          (attributeIndex g je.2) = elementDivisor je.2 ∧
      (∀ c ∈ (bindElement D instanced instanceStart i buffer g je).2, ∀ a d,
        c.call = GLCall.glVertexAttribDivisorARB a d →
          a = attributeIndex g je.2 ∧ d = elementDivisor je.2 ∧
          elementDivisor je.2 ≠ g.vertexAttributeDivisors (attributeIndex g je.2))) ∧
    (∀ start1 start2 : Nat, DivisorsAgree D (PrepareDraw D g true start1).1 →
      ∀ c ∈ (PrepareDraw D (PrepareDraw D g true start1).1 true start2).2, ∀ a d,
        c.call ≠ GLCall.glVertexAttribDivisorARB a d) := by
  constructor
  · intro instanced instanceStart i buffer je hmap hskip
    exact ⟨rfl, bindElement_divisor D instanced instanceStart i buffer g je hmap hskip⟩
  · intro start1 start2 hagree
    have h := prepareDraw_instanced_state D g start1
    exact prepareDraw_quiet D _ start2 h.1 h.2.1 (h.2.2 hagree)

/-- C7 (the claim fails as stated). A per-instance element at byte offset 0 of a buffer with 16
bytes per instance, drawn from instance 2^60: offset + instanceStart * vertexSize is 2^64, and
the pointer call carries data offset 0. -/
theorem pointer_offset_wraps :
    instancedState.vertexBuffers 1 = some instanceBuffer ∧
    instanceBuffer.elements = [⟨4, SEM_TEXCOORD, 0, true, 0⟩] ∧
    0 + 2 ^ 60 * instanceBuffer.vertexSize = 2 ^ 64 ∧
    (PrepareDraw sampleDefs instancedState true (2 ^ 60)).2 =
      [⟨none, GLCall.glEnableVertexAttribArray 0⟩,
       ⟨none, GLCall.glEnableVertexAttribArray 1⟩,
       ⟨some (0, 0), GLCall.glBindBuffer GL_ARRAY_BUFFER 21⟩,
       ⟨some (0, 0), GLCall.glVertexAttribPointer 0 3 GL_FLOAT false 12 0⟩,
       ⟨some (1, 0), GLCall.glBindBuffer GL_ARRAY_BUFFER 22⟩,
       ⟨some (1, 0), GLCall.glVertexAttribPointer 1 4 GL_FLOAT false 16 0⟩,
       ⟨some (1, 0), GLCall.glVertexAttribDivisorARB 1 1⟩] := by
  refine ⟨by decide, by decide, by decide, by decide⟩

/-- C7 (amended). Every attribute-pointer call issued by `PrepareDraw(instanced, instanceStart)`
is issued for an element of a bound buffer. Its stride is the buffer's vertex size converted to
the 32-bit stride parameter, that is reduced modulo `2 ^ 32`: the vertex size itself whenever
that is below `2 ^ 31`. Its data offset is the element's byte offset for a per-vertex element,
and the element's byte offset plus `instanceStart` times the buffer's vertex size, reduced
modulo `2 ^ sizeBits` (`size_t` arithmetic), for a per-instance element: the exact sum whenever
that is below `2 ^ sizeBits`. -/
theorem prepareDraw_pointer_arguments (D : GraphicsDefs) (g : Graphics) (instanced : Bool)
    (instanceStart : Nat) :
    ∀ c ∈ (PrepareDraw D g instanced instanceStart).2,
      ∀ (index size type : Nat) (normalized : Bool) (stride pointer : Nat),
      c.call = GLCall.glVertexAttribPointer index size type normalized stride pointer →
      ∃ (i j : Nat) (buffer : VertexBuffer) (e : VertexElement),
        c.origin = some (i, j) ∧ g.vertexBuffers i = some buffer ∧
        buffer.elements[j]? = some e ∧ stride = buffer.vertexSize % 2 ^ 32 ∧
        (buffer.vertexSize < 2 ^ 31 → stride = buffer.vertexSize) ∧
        (e.perInstance = false → pointer = e.offset) ∧
        (e.perInstance = true →
          pointer = (e.offset + instanceStart * buffer.vertexSize) % 2 ^ D.sizeBits) ∧
        (e.perInstance = true → e.offset + instanceStart * buffer.vertexSize < 2 ^ D.sizeBits →
          pointer = e.offset + instanceStart * buffer.vertexSize) := by
  intro c hc index size type normalized stride pointer hcall
  unfold PrepareDraw at hc
  rcases List.mem_append.mp hc with hc | hc
  · obtain ⟨_, k, hk | hk⟩ := assignAttributes_calls D g c hc
    · rw [hk] at hcall; cases hcall
    · rw [hk] at hcall; cases hcall
  · obtain ⟨i, j, buffer, e, _, horigin, hbuf, he, _, _, hk⟩ :=
      bindVertexBuffers_calls D _ instanced instanceStart c hc
    rw [(assignAttributes_fields D g).1] at hbuf
    rcases hk with hk | hk | hk
    · rw [hk] at hcall; cases hcall
    · rw [hk] at hcall
      unfold pointerCall at hcall
      injection hcall with _ _ _ _ hstride hptr
      have hd := dataStart_eq D instanceStart buffer e
      refine ⟨i, j, buffer, e, horigin, hbuf, he, hstride.symm, ?_, ?_, ?_, ?_⟩
      · intro hsmall
        rw [← hstride]
        exact Nat.mod_eq_of_lt (Nat.lt_trans hsmall (by decide))
      · intro hpv
        rw [← hptr, hd, hpv]; simp
      · intro hpi
        rw [← hptr, hd, if_pos hpi]
      · intro hpi hlt
        rw [← hptr, hd, if_pos hpi, Nat.mod_eq_of_lt hlt]
    · rw [hk] at hcall; cases hcall

/-- C7, sample runs: the pointer call of the per-instance element of the sample run, drawn from
instance 10; and the pointer call for a buffer that reports a vertex size of 2^32 + 12, whose
stride is 12. -/
theorem prepareDraw_pointer_arguments_witness :
    (wideStrideState.vertexBuffers 0 = some wideBuffer ∧ wideBuffer.vertexSize = 2 ^ 32 + 12 ∧
      (⟨some (0, 0), GLCall.glVertexAttribPointer 0 3 GL_FLOAT false 12 0⟩ : Issued) ∈
        (PrepareDraw sampleDefs wideStrideState false 0).2) ∧
    (⟨some (1, 0), GLCall.glVertexAttribPointer 1 4 GL_FLOAT false 16 160⟩ : Issued) ∈
      (PrepareDraw sampleDefs instancedState true 10).2 ∧
    ∃ (i j : Nat) (buffer : VertexBuffer) (e : VertexElement),
      (⟨some (1, 0), GLCall.glVertexAttribPointer 1 4 GL_FLOAT false 16 160⟩ : Issued).origin =
        some (i, j) ∧
      instancedState.vertexBuffers i = some buffer ∧
      buffer.elements[j]? = some e ∧ 16 = buffer.vertexSize % 2 ^ 32 ∧
      (buffer.vertexSize < 2 ^ 31 → 16 = buffer.vertexSize) ∧
      (e.perInstance = false → 160 = e.offset) ∧
      (e.perInstance = true →
        160 = (e.offset + 10 * buffer.vertexSize) % 2 ^ sampleDefs.sizeBits) ∧
      (e.perInstance = true → e.offset + 10 * buffer.vertexSize < 2 ^ sampleDefs.sizeBits →
        160 = e.offset + 10 * buffer.vertexSize) :=
  ⟨⟨by decide, by decide, by decide⟩, by decide,
    prepareDraw_pointer_arguments sampleDefs instancedState true 10
      ⟨some (1, 0), GLCall.glVertexAttribPointer 1 4 GL_FLOAT false 16 160⟩ (by decide)
      1 4 GL_FLOAT false 16 160 rfl⟩

/-- C6, sample run: the per-vertex element of stream 0 in the state after the first draw (its
slot 0 has divisor 0, so no divisor-set call), and the divisor-set call of the first draw, which
the second draw of the sample run does not repeat. -/
theorem prepareDraw_divisor_rule_witness :
    (0 < (afterFirstDraw.attributeBySemantic SEM_POSITION).length ∧
      ((⟨some (0, 0), GLCall.glVertexAttribDivisorARB 0 0⟩ : Issued) ∈
          (bindElement sampleDefs true 10 0 meshBuffer afterFirstDraw
            (0, ⟨3, SEM_POSITION, 0, false, 0⟩)).2 ↔
        0 ≠ afterFirstDraw.vertexAttributeDivisors 0)) ∧
    (DivisorsAgree sampleDefs (PrepareDraw sampleDefs instancedState true 0).1 ∧
      (⟨some (0, 0), GLCall.glVertexAttribPointer 0 3 GL_FLOAT false 12 0⟩ : Issued) ∈
        (PrepareDraw sampleDefs (PrepareDraw sampleDefs instancedState true 0).1 true 10).2 ∧
      GLCall.glVertexAttribPointer 0 3 GL_FLOAT false 12 0 ≠
        GLCall.glVertexAttribDivisorARB 1 1) :=
  ⟨⟨by decide,
      ((prepareDraw_divisor_rule sampleDefs afterFirstDraw).1 true 10 0 meshBuffer
        (0, ⟨3, SEM_POSITION, 0, false, 0⟩) (by decide) (by decide)).2.1⟩,
    sample_divisorsAgree, by decide,
    (prepareDraw_divisor_rule sampleDefs instancedState).2 0 10 sample_divisorsAgree
      ⟨some (0, 0), GLCall.glVertexAttribPointer 0 3 GL_FLOAT false 12 0⟩ (by decide) 1 1⟩

/-- C8 (the claim fails as stated). On a fresh `Graphics`, `SetShaders` with the pair (2, 9),
which has no cache entry and fails to link: after the call the cache holds the failed program
under (2, 9). Unbinding and binding the pair again finds that entry: no program is created
(the allocation counter stays at 1001) and the failed program becomes the current program. -/
theorem failed_link_is_cached :
    findProgram (fresh sampleDefs).shaderPrograms (2, 9) = none ∧
    (sampleBackend.Link (failedLinkState.shaderVariations 2)
      (failedLinkState.shaderVariations 9)).success = false ∧
    findProgram failedLinkState.shaderPrograms (2, 9) = some ⟨1000, 0, []⟩ ∧
    failedLinkState.shaderProgram = none ∧
    failedLinkState.nextProgram = 1001 ∧
    reboundState.nextProgram = 1001 ∧
    reboundState.shaderProgram = some ⟨1000, 0, []⟩ := by
  refine ⟨by decide, by decide, by decide, by decide, by decide, by decide, by decide⟩

/-- C8 (amended). When `SetShaders(vs, ps)` reaches the cache lookup with a pair that has no
entry, the new program is inserted under (vs, ps) and is still there after the call whether or
not linking succeeded; when linking failed the current program is none. While the cache holds
an entry for the pair, a later `SetShaders` with it creates no program and leaves the cache
unchanged. -/
theorem setShaders_caches_created_program (D : GraphicsDefs) (B : Backend) (g : Graphics)
    (v p : Nat) (hpair : ¬ (some v = g.vertexShader ∧ some p = g.pixelShader))
    (hv : ((SetShaders D B g (some v) (some p)).1.shaderVariations v).shaderObject ≠ 0)
    (hp : ((SetShaders D B g (some v) (some p)).1.shaderVariations p).shaderObject ≠ 0)
    (hnew : findProgram g.shaderPrograms (v, p) = none) :
    findProgram (SetShaders D B g (some v) (some p)).1.shaderPrograms (v, p) =
      some ⟨g.nextProgram,
        (B.Link ((SetShaders D B g (some v) (some p)).1.shaderVariations v)
          ((SetShaders D B g (some v) (some p)).1.shaderVariations p)).programObject,
        (B.Link ((SetShaders D B g (some v) (some p)).1.shaderVariations v)
          ((SetShaders D B g (some v) (some p)).1.shaderVariations p)).attributes⟩ ∧
    (SetShaders D B g (some v) (some p)).1.nextProgram = g.nextProgram + 1 ∧
    ((B.Link ((SetShaders D B g (some v) (some p)).1.shaderVariations v)
        ((SetShaders D B g (some v) (some p)).1.shaderVariations p)).success = false →
      (SetShaders D B g (some v) (some p)).1.shaderProgram = none) ∧
    (∀ g2 : Graphics, findProgram g2.shaderPrograms (v, p) ≠ none →
      (SetShaders D B g2 (some v) (some p)).1.shaderPrograms = g2.shaderPrograms ∧
      (SetShaders D B g2 (some v) (some p)).1.nextProgram = g2.nextProgram) := by
  have hs := setShaders_changed D B g (some v) (some p) hpair
  have ht := trackShaders_fields D B g (some v) (some p)
  rw [hs.2.2.2.2] at hv hp
  have hfind : findProgram (trackShaders D B g (some v) (some p)).shaderPrograms (v, p) =
      none := by rw [ht.2.2.1]; exact hnew
  have hu := bindProgram_created B _ v p ht.1 ht.2.1 hv hp hfind
  rw [hs.1, hs.2.1, hs.2.2.1, hs.2.2.2.2, hu.1, hu.2.1, hu.2.2.1, ht.2.2.1, ht.2.2.2.1]
  refine ⟨findProgram_append_new _ _ _ hnew, rfl, ?_, ?_⟩
  · intro hfail
    rw [hfail]
    rfl
  · intro g2 h2
    exact setShaders_keeps_cache D B g2 v p h2

/-- C8, sample run: the pair (2, 9) on a fresh `Graphics`, and the later call in the state where
the shaders have been unbound. -/
theorem setShaders_caches_created_program_witness :
    ¬ (some 2 = (fresh sampleDefs).vertexShader ∧ some 9 = (fresh sampleDefs).pixelShader) ∧
    (failedLinkState.shaderVariations 2).shaderObject ≠ 0 ∧
    (failedLinkState.shaderVariations 9).shaderObject ≠ 0 ∧
    findProgram (fresh sampleDefs).shaderPrograms (2, 9) = none ∧
    findProgram failedLinkState.shaderPrograms (2, 9) =
      some ⟨(fresh sampleDefs).nextProgram,
        (sampleBackend.Link (failedLinkState.shaderVariations 2)
          (failedLinkState.shaderVariations 9)).programObject,
        (sampleBackend.Link (failedLinkState.shaderVariations 2)
          (failedLinkState.shaderVariations 9)).attributes⟩ ∧
    findProgram (SetShaders sampleDefs sampleBackend failedLinkState none none).1.shaderPrograms
      (2, 9) ≠ none ∧
    reboundState.shaderPrograms =
      (SetShaders sampleDefs sampleBackend failedLinkState none none).1.shaderPrograms :=
  ⟨by decide, by decide, by decide, by decide,
    (setShaders_caches_created_program sampleDefs sampleBackend (fresh sampleDefs) 2 9
      (by decide) (by decide) (by decide) (by decide)).1,
    by decide,
    ((setShaders_caches_created_program sampleDefs sampleBackend (fresh sampleDefs) 2 9
      (by decide) (by decide) (by decide) (by decide)).2.2.2
      (SetShaders sampleDefs sampleBackend failedLinkState none none).1 (by decide)).1⟩

/-- C9. After `SetShaders(vs, ps)` with a pair other than the tracked one, the current program
is none, and `glUseProgram(0)` is the call issued, whenever a shader is null, a shader has no
shader object, or the pair has no cache entry and the program created for it fails to link:
whatever program was bound before. -/
theorem setShaders_failure_unbinds (D : GraphicsDefs) (B : Backend) (g : Graphics)
    (vs ps : Option Nat) (hpair : ¬ (vs = g.vertexShader ∧ ps = g.pixelShader))
    (hfail : vs = none ∨ ps = none ∨
      (∃ v, vs = some v ∧ ((SetShaders D B g vs ps).1.shaderVariations v).shaderObject = 0) ∨
      (∃ p, ps = some p ∧ ((SetShaders D B g vs ps).1.shaderVariations p).shaderObject = 0) ∨
      (∃ v p, vs = some v ∧ ps = some p ∧ findProgram g.shaderPrograms (v, p) = none ∧
        (B.Link ((SetShaders D B g vs ps).1.shaderVariations v)
          ((SetShaders D B g vs ps).1.shaderVariations p)).success = false)) :
    (SetShaders D B g vs ps).1.shaderProgram = none ∧
    (SetShaders D B g vs ps).2 = [GLCall.glUseProgram 0] := by
  have hs := setShaders_changed D B g vs ps hpair
  have ht := trackShaders_fields D B g vs ps
  rw [hs.2.2.2.2] at hfail
  rw [hs.2.2.1, hs.2.2.2.1]
  have hunusable : ∀ h, (bindProgram B (trackShaders D B g vs ps)).1.shaderProgram = none ∧
      (bindProgram B (trackShaders D B g vs ps)).2 = [GLCall.glUseProgram 0] :=
    fun h => ⟨(bindProgram_unusable B _ h).2.2.1, (bindProgram_unusable B _ h).2.2.2⟩
  rcases hfail with h | h | ⟨v, hv, h0⟩ | ⟨p, hp, h0⟩ | ⟨v, p, hv, hp, hnone, hlink⟩
  · exact hunusable (Or.inl (ht.1.trans h))
  · exact hunusable (Or.inr (Or.inl (ht.2.1.trans h)))
  · exact hunusable (Or.inr (Or.inr (Or.inl ⟨v, ht.1.trans hv, h0⟩)))
  · exact hunusable (Or.inr (Or.inr (Or.inr ⟨p, ht.2.1.trans hp, h0⟩)))
  · by_cases hvo : ((trackShaders D B g vs ps).shaderVariations v).shaderObject = 0
    · exact hunusable (Or.inr (Or.inr (Or.inl ⟨v, ht.1.trans hv, hvo⟩)))
    · by_cases hpo : ((trackShaders D B g vs ps).shaderVariations p).shaderObject = 0
      · exact hunusable (Or.inr (Or.inr (Or.inr ⟨p, ht.2.1.trans hp, hpo⟩)))
      · have hfind : findProgram (trackShaders D B g vs ps).shaderPrograms (v, p) = none := by
          rw [ht.2.2.1]; exact hnone
        have hu := bindProgram_created B _ v p (ht.1.trans hv) (ht.2.1.trans hp) hvo hpo hfind
        rw [hu.2.2.1, hu.2.2.2, hlink]
        exact ⟨rfl, rfl⟩

/-- C9, sample run: a program is bound for the pair (2, 3); `SetShaders` with the pair (2, 9),
which fails to link, leaves no current program. -/
theorem setShaders_failure_unbinds_witness :
    (SetShaders sampleDefs sampleBackend (fresh sampleDefs) (some 2) (some 3)).1.shaderProgram =
      some ⟨1000, 5, [(SEM_POSITION, 0), (SEM_TEXCOORD, 0)]⟩ ∧
    relinkFailedState.shaderProgram = none :=
  ⟨by decide,
    (setShaders_failure_unbinds sampleDefs sampleBackend
      (SetShaders sampleDefs sampleBackend (fresh sampleDefs) (some 2) (some 3)).1
      (some 2) (some 9) (by decide)
      (Or.inr (Or.inr (Or.inr (Or.inr ⟨2, 9, rfl, rfl, by decide, by decide⟩))))).1⟩

/-- C10. `SetShaders` changes the cache, or creates a program, only by appending one new program
under a pair that had no entry. When the pair has an entry, the cache is left unchanged, and
when the lookup is reached (a pair other than the tracked one, both shaders with a shader
object) the cached program becomes the current program. In every reachable state the cache has
no two entries with the same pair, so a pair is mapped to at most one program. -/
theorem setShaders_one_program_per_pair (D : GraphicsDefs) (B : Backend) :
    (∀ (g : Graphics) (vs ps : Option Nat),
      ((SetShaders D B g vs ps).1.shaderPrograms ≠ g.shaderPrograms ∨
        (SetShaders D B g vs ps).1.nextProgram ≠ g.nextProgram) →
      ∃ (v p : Nat) (program : ShaderProgram), vs = some v ∧ ps = some p ∧
        findProgram g.shaderPrograms (v, p) = none ∧ program.addr = g.nextProgram ∧
        (SetShaders D B g vs ps).1.shaderPrograms = g.shaderPrograms ++ [((v, p), program)]) ∧
    (∀ (g : Graphics) (v p : Nat) (program : ShaderProgram),
      findProgram g.shaderPrograms (v, p) = some program →
      ((SetShaders D B g (some v) (some p)).1.shaderPrograms = g.shaderPrograms ∧
        (SetShaders D B g (some v) (some p)).1.nextProgram = g.nextProgram) ∧
      (¬ (some v = g.vertexShader ∧ some p = g.pixelShader) →
        ((SetShaders D B g (some v) (some p)).1.shaderVariations v).shaderObject ≠ 0 →
        ((SetShaders D B g (some v) (some p)).1.shaderVariations p).shaderObject ≠ 0 →
        (SetShaders D B g (some v) (some p)).1.shaderProgram = some program ∧
        (SetShaders D B g (some v) (some p)).2 = [GLCall.glUseProgram program.programObject])) ∧
    (∀ g : Graphics, Reachable D B g →
      (g.shaderPrograms.map Prod.fst).Nodup ∧
      ∀ (key : Nat × Nat) (p1 p2 : ShaderProgram),
        (key, p1) ∈ g.shaderPrograms → (key, p2) ∈ g.shaderPrograms → p1 = p2) := by
  refine ⟨?_, ?_, ?_⟩
  · intro g vs ps hchange
    rcases setShaders_cache_change D B g vs ps with
      hc | ⟨v, p, program, hv, hp, hnone, haddr, hcache, _⟩
    · rcases hchange with h | h
      · exact absurd hc.1 h
      · exact absurd hc.2 h
    · exact ⟨v, p, program, hv, hp, hnone, haddr, hcache⟩
  · intro g v p program hfind
    refine ⟨setShaders_keeps_cache D B g v p (by rw [hfind]; simp), ?_⟩
    intro hpair hvo hpo
    have hs := setShaders_changed D B g (some v) (some p) hpair
    have ht := trackShaders_fields D B g (some v) (some p)
    rw [hs.2.2.2.2] at hvo hpo
    have hu := bindProgram_cached B _ v p program ht.1 ht.2.1 hvo hpo
      (by rw [ht.2.2.1]; exact hfind)
    rw [hs.2.2.1, hs.2.2.2.1]
    exact ⟨hu.2.2.1, hu.2.2.2⟩
  · intro g hg
    have h := reachable_keys_nodup D B g hg
    exact ⟨h, nodup_keys_unique g.shaderPrograms h⟩

/-- C10, sample run: with programs for the pairs (2, 3) and (4, 3) in the cache and (4, 3)
bound, `SetShaders` with (2, 3) binds the program created for (2, 3) earlier (address 1000) and
leaves the cache unchanged; the first `SetShaders` of the run, on an empty cache, is the one
that appended it. -/
theorem setShaders_one_program_per_pair_witness :
    ((SetShaders sampleDefs sampleBackend (fresh sampleDefs) (some 2) (some 3)).1.shaderPrograms ≠
        (fresh sampleDefs).shaderPrograms ∧
      ∃ (v p : Nat) (program : ShaderProgram), some 2 = some v ∧ some 3 = some p ∧
        findProgram (fresh sampleDefs).shaderPrograms (v, p) = none ∧
        program.addr = (fresh sampleDefs).nextProgram ∧
        (SetShaders sampleDefs sampleBackend (fresh sampleDefs) (some 2) (some 3)).1.shaderPrograms =
          (fresh sampleDefs).shaderPrograms ++ [((v, p), program)]) ∧
    (findProgram twoProgramsState.shaderPrograms (2, 3) =
        some ⟨1000, 5, [(SEM_POSITION, 0), (SEM_TEXCOORD, 0)]⟩ ∧
      (SetShaders sampleDefs sampleBackend twoProgramsState (some 2) (some 3)).1.shaderProgram =
        some ⟨1000, 5, [(SEM_POSITION, 0), (SEM_TEXCOORD, 0)]⟩ ∧
      (SetShaders sampleDefs sampleBackend twoProgramsState (some 2) (some 3)).1.shaderPrograms =
        twoProgramsState.shaderPrograms) ∧
    (Reachable sampleDefs sampleBackend twoProgramsState ∧
      (twoProgramsState.shaderPrograms.map Prod.fst).Nodup) :=
  ⟨⟨by decide,
      (setShaders_one_program_per_pair sampleDefs sampleBackend).1 (fresh sampleDefs)
        (some 2) (some 3) (Or.inl (by decide))⟩,
    ⟨by decide,
      (((setShaders_one_program_per_pair sampleDefs sampleBackend).2.1 twoProgramsState 2 3
        ⟨1000, 5, [(SEM_POSITION, 0), (SEM_TEXCOORD, 0)]⟩ (by decide)).2
        (by decide) (by decide) (by decide)).1,
      ((setShaders_one_program_per_pair sampleDefs sampleBackend).2.1 twoProgramsState 2 3
        ⟨1000, 5, [(SEM_POSITION, 0), (SEM_TEXCOORD, 0)]⟩ (by decide)).1.1⟩,
    ⟨Reachable.setShaders _ _ _ (Reachable.setShaders _ _ _ (Reachable.construct rawMemory)),
      ((setShaders_one_program_per_pair sampleDefs sampleBackend).2.2 twoProgramsState
        (Reachable.setShaders _ _ _
          (Reachable.setShaders _ _ _ (Reachable.construct rawMemory)))).1⟩⟩

/-- C11 (the claim fails as stated). The shader at address 3 reports the pixel stage and was
bound as vertex shader, which put the pair (3, 2) in the cache. `CleanupShaderPrograms` for it
looks at the second member of the keys only: the entry stays. -/
theorem cleanup_keeps_wrong_side_entry :
    Reachable sampleDefs sampleBackend wrongSideState ∧
    (wrongSideState.shaderVariations 3).stage ≠ sampleDefs.SHADER_VS ∧
    wrongSideState.shaderPrograms = [((3, 2), ⟨1000, 5, []⟩)] ∧
    (CleanupShaderPrograms sampleDefs wrongSideState (some 3)).1.shaderPrograms =
      [((3, 2), ⟨1000, 5, []⟩)] :=
  ⟨Reachable.setShaders _ _ _ (Reachable.construct rawMemory), by decide, by decide, by decide⟩

/-- C11 (amended). After `CleanupShaderPrograms(s)` for a non-null shader `s`, no cache entry has
`s` as the first member of its key when `s` reports the vertex stage, and none has `s` as the
second member when it reports another stage. When every key in the cache has a shader
reporting the vertex stage first and a shader reporting another stage second, no entry has `s`
as either member. -/
theorem cleanupShaderPrograms_removes_staged_side (D : GraphicsDefs) (g : Graphics) (s : Nat) :
    ((g.shaderVariations s).stage = D.SHADER_VS →
      ∀ e ∈ (CleanupShaderPrograms D g (some s)).1.shaderPrograms, e.1.1 ≠ s) ∧
    ((g.shaderVariations s).stage ≠ D.SHADER_VS →
      ∀ e ∈ (CleanupShaderPrograms D g (some s)).1.shaderPrograms, e.1.2 ≠ s) ∧
    ((∀ e ∈ g.shaderPrograms, (g.shaderVariations e.1.1).stage = D.SHADER_VS ∧
        (g.shaderVariations e.1.2).stage ≠ D.SHADER_VS) →
      ∀ e ∈ (CleanupShaderPrograms D g (some s)).1.shaderPrograms, e.1.1 ≠ s ∧ e.1.2 ≠ s) := by
  have hvs : (g.shaderVariations s).stage = D.SHADER_VS →
      ∀ e ∈ (CleanupShaderPrograms D g (some s)).1.shaderPrograms, e.1.1 ≠ s := by
    intro hstage e he heq
    have h := ((cleanupShaderPrograms_mem D g s e).mp he).2
    unfold cleanupHit at h
    rw [if_pos hstage] at h
    simp [heq] at h
  have hps : (g.shaderVariations s).stage ≠ D.SHADER_VS →
      ∀ e ∈ (CleanupShaderPrograms D g (some s)).1.shaderPrograms, e.1.2 ≠ s := by
    intro hstage e he heq
    have h := ((cleanupShaderPrograms_mem D g s e).mp he).2
    unfold cleanupHit at h
    rw [if_neg hstage] at h
    simp [heq] at h
  refine ⟨hvs, hps, ?_⟩
  intro hstaged e he
  have hin := ((cleanupShaderPrograms_mem D g s e).mp he).1
  by_cases hstage : (g.shaderVariations s).stage = D.SHADER_VS
  · refine ⟨hvs hstage e he, ?_⟩
    intro heq
    exact (hstaged e hin).2 (by rw [heq]; exact hstage)
  · refine ⟨?_, hps hstage e he⟩
    intro heq
    exact hstage (by rw [← heq]; exact (hstaged e hin).1)

/-- C11, sample run: the program of the pair (2, 3) is in the cache; shader 2 reports the
vertex stage, and after `CleanupShaderPrograms` for it the cache, here empty, has no entry with
2 as first member. -/
theorem cleanupShaderPrograms_removes_staged_side_witness :
    boundProgramState.shaderPrograms =
      [((2, 3), ⟨1000, 5, [(SEM_POSITION, 0), (SEM_TEXCOORD, 0)]⟩)] ∧
    (boundProgramState.shaderVariations 2).stage = sampleDefs.SHADER_VS ∧
    (∀ e ∈ boundProgramState.shaderPrograms,
      (boundProgramState.shaderVariations e.1.1).stage = sampleDefs.SHADER_VS ∧
      (boundProgramState.shaderVariations e.1.2).stage ≠ sampleDefs.SHADER_VS) ∧
    (∀ e ∈ (CleanupShaderPrograms sampleDefs boundProgramState (some 2)).1.shaderPrograms,
      e.1.1 ≠ 2 ∧ e.1.2 ≠ 2) :=
  ⟨by decide, by decide, by decide,
    (cleanupShaderPrograms_removes_staged_side sampleDefs boundProgramState 2).2.2 (by decide)⟩

/-- C12. `CleanupShaderPrograms(s)` keeps, unchanged and in order, exactly the cache entries that
its key test does not select, among them every entry whose key does not contain `s`; a null
shader changes nothing. The current program is left as it was or set to none, and a current
program becomes none if and only if an entry that owns it (same address) is removed from the
cache by the call. -/
theorem cleanupShaderPrograms_clears_current (D : GraphicsDefs) (g : Graphics) :
    CleanupShaderPrograms D g none = (g, []) ∧
    ∀ s : Nat,
      (CleanupShaderPrograms D g (some s)).1.shaderPrograms =
        g.shaderPrograms.filter (fun e => !cleanupHit D g s e.1) ∧
      (∀ e ∈ g.shaderPrograms, e.1.1 ≠ s → e.1.2 ≠ s →
        e ∈ (CleanupShaderPrograms D g (some s)).1.shaderPrograms) ∧
      ((CleanupShaderPrograms D g (some s)).1.shaderProgram = g.shaderProgram ∨
        (CleanupShaderPrograms D g (some s)).1.shaderProgram = none) ∧
      (∀ program : ShaderProgram, g.shaderProgram = some program →
        ((CleanupShaderPrograms D g (some s)).1.shaderProgram = none ↔
          ∃ e ∈ g.shaderPrograms, e.2.addr = program.addr ∧
            e ∉ (CleanupShaderPrograms D g (some s)).1.shaderPrograms)) := by
  refine ⟨rfl, ?_⟩
  intro s
  have heq := cleanupShaderPrograms_eq D g s
  refine ⟨heq.1, ?_, ?_, ?_⟩
  · intro e he h1 h2
    refine (cleanupShaderPrograms_mem D g s e).mpr ⟨he, ?_⟩
    unfold cleanupHit
    split <;> simp [h1, h2]
  · rw [heq.2.1]
    split
    · exact Or.inr rfl
    · exact Or.inl rfl
  · intro program hprogram
    rw [heq.2.1, hprogram]
    constructor
    · intro hnone
      by_cases hh : holdsCurrent (cleanupHit D g s) g.shaderPrograms (some program) = true
      · unfold holdsCurrent at hh
        rw [List.any_eq_true] at hh
        obtain ⟨e, he, hhit⟩ := hh
        rw [Bool.and_eq_true, decide_eq_true_eq] at hhit
        refine ⟨e, he, ?_, ?_⟩
        · have := hhit.2
          simp only [Option.map_some'] at this
          injection this with this
          exact this.symm
        · intro hmem
          have := ((cleanupShaderPrograms_mem D g s e).mp hmem).2
          rw [hhit.1] at this
          cases this
      · rw [if_neg hh] at hnone
        cases hnone
    · rintro ⟨e, he, haddr, hgone⟩
      have hhit : cleanupHit D g s e.1 = true := by
        by_contra hn
        exact hgone ((cleanupShaderPrograms_mem D g s e).mpr ⟨he, by simpa using hn⟩)
      have hh : holdsCurrent (cleanupHit D g s) g.shaderPrograms (some program) = true := by
        unfold holdsCurrent
        rw [List.any_eq_true]
        exact ⟨e, he, by simp [hhit, haddr]⟩
      rw [if_pos hh]

/-- C12, sample run: the program of the pair (2, 3) is bound; after `CleanupShaderPrograms` for
shader 2 its entry is gone and there is no current program. -/
theorem cleanupShaderPrograms_clears_current_witness :
    boundProgramState.shaderProgram =
      some ⟨1000, 5, [(SEM_POSITION, 0), (SEM_TEXCOORD, 0)]⟩ ∧
    (CleanupShaderPrograms sampleDefs boundProgramState (some 2)).1.shaderPrograms = [] ∧
    ((CleanupShaderPrograms sampleDefs boundProgramState (some 2)).1.shaderProgram = none ↔
      ∃ e ∈ boundProgramState.shaderPrograms,
        e.2.addr = (⟨1000, 5, [(SEM_POSITION, 0), (SEM_TEXCOORD, 0)]⟩ : ShaderProgram).addr ∧
        e ∉ (CleanupShaderPrograms sampleDefs boundProgramState (some 2)).1.shaderPrograms) ∧
    (CleanupShaderPrograms sampleDefs boundProgramState (some 2)).1.shaderProgram = none :=
  ⟨by decide, by decide,
    ((cleanupShaderPrograms_clears_current sampleDefs boundProgramState).2 2).2.2.2
      ⟨1000, 5, [(SEM_POSITION, 0), (SEM_TEXCOORD, 0)]⟩ (by decide),
    by decide⟩

/-- C13. `SetShaders(vs, ps)` with the tracked vertex and pixel shader changes nothing and issues
no call; with any other pair, the tracked vertex and pixel shader are `vs` and `ps` afterwards
and the vertex-attribute map is dirty. -/
theorem setShaders_tracks_pair (D : GraphicsDefs) (B : Backend) (g : Graphics)
    (vs ps : Option Nat) :
    (vs = g.vertexShader ∧ ps = g.pixelShader → SetShaders D B g vs ps = (g, [])) ∧
    (¬ (vs = g.vertexShader ∧ ps = g.pixelShader) →
      (SetShaders D B g vs ps).1.vertexShader = vs ∧
      (SetShaders D B g vs ps).1.pixelShader = ps ∧
      (SetShaders D B g vs ps).1.vertexAttributesDirty = true) := by
  constructor
  · intro h
    unfold SetShaders
    rw [if_pos h]
  · intro h
    have ht := trackShaders_fields D B g vs ps
    have hb := bindProgram_fields B (trackShaders D B g vs ps)
    unfold SetShaders
    rw [if_neg h]
    exact ⟨hb.2.1.trans ht.1, hb.2.2.trans ht.2.1, rfl⟩

/-- C13, sample run: the pair (2, 3) bound again in the state where it is tracked, and the pair
(4, 3) bound in that state. -/
theorem setShaders_tracks_pair_witness :
    (some 2 = boundProgramState.vertexShader ∧ some 3 = boundProgramState.pixelShader) ∧
    (SetShaders sampleDefs sampleBackend boundProgramState (some 2) (some 3)).2 = [] ∧
    ¬ (some 4 = boundProgramState.vertexShader ∧ some 3 = boundProgramState.pixelShader) ∧
    twoProgramsState.vertexShader = some 4 ∧
    twoProgramsState.pixelShader = some 3 ∧
    twoProgramsState.vertexAttributesDirty = true :=
  ⟨by decide,
    congrArg Prod.snd ((setShaders_tracks_pair sampleDefs sampleBackend boundProgramState
      (some 2) (some 3)).1 (by decide)),
    by decide,
    ((setShaders_tracks_pair sampleDefs sampleBackend boundProgramState (some 4) (some 3)).2
      (by decide)).1,
    ((setShaders_tracks_pair sampleDefs sampleBackend boundProgramState (some 4) (some 3)).2
      (by decide)).2.1,
    ((setShaders_tracks_pair sampleDefs sampleBackend boundProgramState (some 4) (some 3)).2
      (by decide)).2.2⟩

/-- C14. Each setter called with the value its accessor returns for the slot, that is with the
value tracked for it, issues no call and leaves the whole state as it is: `SetVertexBuffer`,
`SetIndexBuffer`, `SetTexture`, `SetConstantBuffer`, `SetShaders`, `SetBlendState`,
`SetDepthState` (state and stencil reference), `SetRasterizerState`, `SetScissorRect` and
`BindVBO`. -/
theorem set_tracked_value_noop (D : GraphicsDefs) (B : Backend) (g : Graphics) :
    (∀ index, SetVertexBuffer D g index (GetVertexBuffer D g index) = (g, [])) ∧
    SetIndexBuffer g g.indexBuffer = (g, []) ∧
    (∀ index, SetTexture D g index (GetTexture D g index) = (g, [])) ∧
    (∀ stage index,
      SetConstantBuffer D g stage index (GetConstantBuffer D g stage index) = (g, [])) ∧
    SetShaders D B g g.vertexShader g.pixelShader = (g, []) ∧
    SetBlendState g g.blendState = (g, []) ∧
    SetDepthState g g.depthState g.stencilRef = (g, []) ∧
    SetRasterizerState g g.rasterizerState = (g, []) ∧
    SetScissorRect g g.scissorRect = (g, []) ∧
    BindVBO g g.boundVBO = (g, []) := by
  refine ⟨?_, ?_, ?_, ?_, ?_, ?_, ?_, ?_, ?_, ?_⟩
  · intro index
    unfold SetVertexBuffer GetVertexBuffer
    by_cases hi : index < D.MAX_VERTEX_STREAMS
    · rw [if_pos hi, if_neg (fun h => h.2 rfl)]
    · rw [if_neg (fun h => hi h.1)]
  · unfold SetIndexBuffer
    rw [if_neg (fun h => h rfl)]
  · intro index
    unfold SetTexture GetTexture
    by_cases hi : index < D.MAX_TEXTURE_UNITS
    · rw [if_pos hi, if_neg (fun h => h.2 rfl)]
    · rw [if_neg (fun h => hi h.1)]
  · intro stage index
    unfold SetConstantBuffer GetConstantBuffer
    by_cases hr : stage < D.MAX_SHADER_STAGES ∧ index < D.MAX_CONSTANT_BUFFERS
    · rw [if_pos hr, if_neg (fun h => h.2.2 rfl)]
    · rw [if_neg (fun h => hr ⟨h.1, h.2.1⟩)]
  · unfold SetShaders
    rw [if_pos ⟨rfl, rfl⟩]
  · unfold SetBlendState
    rw [if_neg (fun h => h rfl)]
  · unfold SetDepthState
    rw [if_neg (fun h => h.elim (fun h1 => h1 rfl) (fun h2 => h2 rfl))]
  · unfold SetRasterizerState
    rw [if_neg (fun h => h rfl)]
  · unfold SetScissorRect
    rw [if_neg (fun h => h rfl)]
  · unfold BindVBO
    rw [if_neg (fun h => h rfl)]

/-- C15 (the claim fails as stated). On a device that reports 12 uniform blocks for the vertex
stage, `SetConstantBuffer(SHADER_VS, 13, buffer)`: index 13 is below `MAX_CONSTANT_BUFFERS`,
so the tracked slot changes from null to the buffer, and no bind call is issued. -/
theorem constant_buffer_tracked_without_bind :
    queriedState.vsConstantBuffers = 12 ∧
    GetConstantBuffer sampleDefs queriedState sampleDefs.SHADER_VS 13 = none ∧
    GetConstantBuffer sampleDefs
      (SetConstantBuffer sampleDefs queriedState sampleDefs.SHADER_VS 13
        (some sampleConstantBuffer)).1 sampleDefs.SHADER_VS 13 = some sampleConstantBuffer ∧
    (SetConstantBuffer sampleDefs queriedState sampleDefs.SHADER_VS 13
      (some sampleConstantBuffer)).2 = [] := by
  refine ⟨by decide, by decide, by decide, by decide⟩

/-- C15 (amended). `SetConstantBuffer` changes the tracked slot exactly when the stage is below
`MAX_SHADER_STAGES`, the index below `MAX_CONSTANT_BUFFERS` and the buffer differs from the
tracked one, and the slot then holds the buffer. It issues a call only if it changes the tracked
slot and the index is below the queried maximum of the stage (vertex or pixel, two distinct
stages); with an index at or above the queried maximum it issues no call, whether or not the
tracked slot changes. When it changes the tracked slot and the index is below the queried
maximum of the stage, it issues the bind call for the slot and no other call:
`glBindBufferBase(GL_UNIFORM_BUFFER, index, object)` for the vertex stage and
`glBindBufferBase(GL_UNIFORM_BUFFER, index + vsConstantBuffers, object)` for the pixel stage,
`object` being the buffer's object, or 0 for a null buffer, and the binding point a 32-bit
value. -/
theorem setConstantBuffer_tracks_and_binds (D : GraphicsDefs) (g : Graphics) (stage index : Nat)
    (buffer : Option ConstantBuffer) :
    ((SetConstantBuffer D g stage index buffer).1.constantBuffers stage index ≠
        g.constantBuffers stage index ↔
      stage < D.MAX_SHADER_STAGES ∧ index < D.MAX_CONSTANT_BUFFERS ∧
        buffer ≠ g.constantBuffers stage index) ∧
    (stage < D.MAX_SHADER_STAGES → index < D.MAX_CONSTANT_BUFFERS →
      (SetConstantBuffer D g stage index buffer).1.constantBuffers stage index = buffer) ∧
    ((SetConstantBuffer D g stage index buffer).2 ≠ [] →
      (SetConstantBuffer D g stage index buffer).1.constantBuffers stage index ≠
        g.constantBuffers stage index ∧
      ((stage = D.SHADER_VS ∧ index < g.vsConstantBuffers) ∨
        (stage = D.SHADER_PS ∧ index < g.psConstantBuffers))) ∧
    (stage = D.SHADER_VS → g.vsConstantBuffers ≤ index →
      (SetConstantBuffer D g stage index buffer).2 = []) ∧
    (stage = D.SHADER_PS → D.SHADER_PS ≠ D.SHADER_VS → g.psConstantBuffers ≤ index →
      (SetConstantBuffer D g stage index buffer).2 = []) ∧
    (stage = D.SHADER_VS → index < g.vsConstantBuffers →
      (SetConstantBuffer D g stage index buffer).1.constantBuffers stage index ≠
        g.constantBuffers stage index →
      (SetConstantBuffer D g stage index buffer).2 =
        [GLCall.glBindBufferBase GL_UNIFORM_BUFFER (index % 2 ^ 32)
          (constantBufferObject buffer)]) ∧
    (stage = D.SHADER_PS → D.SHADER_PS ≠ D.SHADER_VS → index < g.psConstantBuffers →
      (SetConstantBuffer D g stage index buffer).1.constantBuffers stage index ≠
        g.constantBuffers stage index →
      (SetConstantBuffer D g stage index buffer).2 =
        [GLCall.glBindBufferBase GL_UNIFORM_BUFFER ((index + g.vsConstantBuffers) % 2 ^ 32)
          (constantBufferObject buffer)]) := by
  have hslot := setConstantBuffer_constantBuffers D g stage index buffer stage index
  have hcalls := setConstantBuffer_calls D g stage index buffer
  have hchange : (SetConstantBuffer D g stage index buffer).1.constantBuffers stage index ≠
        g.constantBuffers stage index ↔
      stage < D.MAX_SHADER_STAGES ∧ index < D.MAX_CONSTANT_BUFFERS ∧
        buffer ≠ g.constantBuffers stage index := by
    rw [hslot]
    constructor
    · intro h
      by_cases hr : stage < D.MAX_SHADER_STAGES ∧ index < D.MAX_CONSTANT_BUFFERS ∧
          stage = stage ∧ index = index
      · rw [if_pos hr] at h
        exact ⟨hr.1, hr.2.1, h⟩
      · rw [if_neg hr] at h
        exact absurd rfl h
    · rintro ⟨h1, h2, h3⟩
      rw [if_pos ⟨h1, h2, rfl, rfl⟩]
      exact h3
  refine ⟨hchange, ?_, ?_, ?_, ?_, ?_, ?_⟩
  · intro h1 h2
    rw [hslot, if_pos ⟨h1, h2, rfl, rfl⟩]
  · intro hne
    by_cases hr : stage < D.MAX_SHADER_STAGES ∧ index < D.MAX_CONSTANT_BUFFERS ∧
        buffer ≠ g.constantBuffers stage index
    · refine ⟨hchange.mpr hr, ?_⟩
      rw [hcalls, if_pos hr] at hne
      unfold bindConstantBuffer at hne
      by_cases hvs : stage = D.SHADER_VS
      · rw [if_pos hvs] at hne
        by_cases hlt : index < g.vsConstantBuffers
        · exact Or.inl ⟨hvs, hlt⟩
        · rw [if_neg hlt] at hne
          exact absurd rfl hne
      · rw [if_neg hvs] at hne
        by_cases hps : stage = D.SHADER_PS
        · rw [if_pos hps] at hne
          by_cases hlt : index < g.psConstantBuffers
          · exact Or.inr ⟨hps, hlt⟩
          · rw [if_neg hlt] at hne
            exact absurd rfl hne
        · rw [if_neg hps] at hne
          exact absurd rfl hne
    · rw [hcalls, if_neg hr] at hne
      exact absurd rfl hne
  · intro hvs hge
    rw [hcalls]
    split
    · unfold bindConstantBuffer
      rw [if_pos hvs, if_neg (Nat.not_lt.mpr hge)]
    · rfl
  · intro hps hdistinct hge
    rw [hcalls]
    split
    · unfold bindConstantBuffer
      rw [if_neg (fun h => hdistinct (hps.symm.trans h)), if_pos hps,
        if_neg (Nat.not_lt.mpr hge)]
    · rfl
  · intro hvs hlt hchanged
    rw [hcalls, if_pos (hchange.mp hchanged)]
    unfold bindConstantBuffer
    rw [if_pos hvs, if_pos hlt]
  · intro hps hdistinct hlt hchanged
    rw [hcalls, if_pos (hchange.mp hchanged)]
    unfold bindConstantBuffer
    rw [if_neg (fun h => hdistinct (hps.symm.trans h)), if_pos hps, if_pos hlt]

/-- C15, sample run: on the device reporting 12 uniform blocks, slot 3 of the vertex stage, where
the call binds, slot 13, where the tracked slot changes and nothing is bound, and slot 3 of the
pixel stage, bound at binding point 15. -/
theorem setConstantBuffer_tracks_and_binds_witness :
    ((0 = sampleDefs.SHADER_VS ∧ 3 < queriedState.vsConstantBuffers ∧
        (SetConstantBuffer sampleDefs queriedState 0 3
          (some sampleConstantBuffer)).1.constantBuffers 0 3 ≠
          queriedState.constantBuffers 0 3) ∧
      (SetConstantBuffer sampleDefs queriedState 0 3 (some sampleConstantBuffer)).2 =
        [GLCall.glBindBufferBase GL_UNIFORM_BUFFER (3 % 2 ^ 32)
          (constantBufferObject (some sampleConstantBuffer))]) ∧
    ((1 = sampleDefs.SHADER_PS ∧ sampleDefs.SHADER_PS ≠ sampleDefs.SHADER_VS ∧
        3 < queriedState.psConstantBuffers) ∧
      (SetConstantBuffer sampleDefs queriedState 1 3 (some sampleConstantBuffer)).2 =
        [GLCall.glBindBufferBase GL_UNIFORM_BUFFER ((3 + queriedState.vsConstantBuffers) % 2 ^ 32)
          (constantBufferObject (some sampleConstantBuffer))] ∧
      (3 + queriedState.vsConstantBuffers) % 2 ^ 32 = 15) ∧
    (SetConstantBuffer sampleDefs queriedState 0 3 (some sampleConstantBuffer)).2 ≠ [] ∧
    ((SetConstantBuffer sampleDefs queriedState 0 3
        (some sampleConstantBuffer)).1.constantBuffers 0 3 ≠ queriedState.constantBuffers 0 3 ∧
      ((0 = sampleDefs.SHADER_VS ∧ 3 < queriedState.vsConstantBuffers) ∨
        (0 = sampleDefs.SHADER_PS ∧ 3 < queriedState.psConstantBuffers))) ∧
    (0 = sampleDefs.SHADER_VS ∧ queriedState.vsConstantBuffers ≤ 13) ∧
    (SetConstantBuffer sampleDefs queriedState 0 13 (some sampleConstantBuffer)).2 = [] ∧
    (SetConstantBuffer sampleDefs queriedState 0 13
      (some sampleConstantBuffer)).1.constantBuffers 0 13 = some sampleConstantBuffer :=
  ⟨⟨⟨by decide, by decide, by decide⟩,
      (setConstantBuffer_tracks_and_binds sampleDefs queriedState 0 3
        (some sampleConstantBuffer)).2.2.2.2.2.1 (by decide) (by decide) (by decide)⟩,
    ⟨⟨by decide, by decide, by decide⟩,
      (setConstantBuffer_tracks_and_binds sampleDefs queriedState 1 3
        (some sampleConstantBuffer)).2.2.2.2.2.2 (by decide) (by decide) (by decide)
        (by decide),
      by decide⟩,
    by decide,
    (setConstantBuffer_tracks_and_binds sampleDefs queriedState 0 3
      (some sampleConstantBuffer)).2.2.1 (by decide),
    by decide,
    (setConstantBuffer_tracks_and_binds sampleDefs queriedState 0 13
      (some sampleConstantBuffer)).2.2.2.1 (by decide) (by decide),
    (setConstantBuffer_tracks_and_binds sampleDefs queriedState 0 13
      (some sampleConstantBuffer)).2.1 (by decide) (by decide)⟩

/-- C16. From a reset state, after any sequence of `SetIndexBuffer`, `BindVBO` and `SetTexture`
calls, the OpenGL calls issued, replayed on a context with nothing bound and unit 0 active,
leave the element-array binding equal to the tracked index buffer's object (0 if none), the
array-buffer binding equal to the tracked `boundVBO`, and the active texture unit equal to the
tracked `activeTexture`: as the 32-bit enum `GL_TEXTURE0 + activeTexture`, which is the plain
sum when the texture units fit below `2 ^ 32 - GL_TEXTURE0`. -/
theorem simple_bindings_mirror (D : GraphicsDefs) (raw : Graphics) (ops : List BindingOp) :
    (bindingsInitial.replay (runBindingOps D ops (ResetState D raw)).2).elementArrayBuffer =
      indexBufferObject (runBindingOps D ops (ResetState D raw)).1.indexBuffer ∧
    (bindingsInitial.replay (runBindingOps D ops (ResetState D raw)).2).arrayBuffer =
      (runBindingOps D ops (ResetState D raw)).1.boundVBO ∧
    (bindingsInitial.replay (runBindingOps D ops (ResetState D raw)).2).activeTexture =
      (GL_TEXTURE0 + (runBindingOps D ops (ResetState D raw)).1.activeTexture) % 2 ^ 32 ∧
    (GL_TEXTURE0 + D.MAX_TEXTURE_UNITS ≤ 2 ^ 32 →
      (bindingsInitial.replay (runBindingOps D ops (ResetState D raw)).2).activeTexture =
        GL_TEXTURE0 + (runBindingOps D ops (ResetState D raw)).1.activeTexture) := by
  have hinit : Mirrors (ResetState D raw) bindingsInitial := by
    refine ⟨rfl, rfl, ?_⟩
    show GL_TEXTURE0 = (GL_TEXTURE0 + 0) % 2 ^ 32
    decide
  have h := runBindingOps_mirrors D ops (ResetState D raw) bindingsInitial hinit
  refine ⟨h.1, h.2.1, h.2.2, ?_⟩
  intro hfit
  rw [h.2.2]
  have hsmall := runBindingOps_small D ops (ResetState D raw) (Or.inl rfl)
  apply Nat.mod_eq_of_lt
  have h0 : GL_TEXTURE0 < 2 ^ 32 := by decide
  rcases hsmall with h1 | h1
  · rw [h1]; exact h0
  · omega

/-- C16, sample run: five calls on a fresh `Graphics`; the last texture unit touched is 1. -/
theorem simple_bindings_mirror_witness :
    GL_TEXTURE0 + sampleDefs.MAX_TEXTURE_UNITS ≤ 2 ^ 32 ∧
    (runBindingOps sampleDefs sampleBindingOps (ResetState sampleDefs rawMemory)).1.activeTexture =
      1 ∧
    (bindingsInitial.replay
      (runBindingOps sampleDefs sampleBindingOps (ResetState sampleDefs rawMemory)).2).activeTexture =
      GL_TEXTURE0 +
        (runBindingOps sampleDefs sampleBindingOps (ResetState sampleDefs rawMemory)).1.activeTexture :=
  ⟨by decide, by decide,
    (simple_bindings_mirror sampleDefs rawMemory sampleBindingOps).2.2.2 (by decide)⟩

/-- C17. For vertex buffers, textures and constant buffers: after a set at an index within the
array (for constant buffers, a stage and an index within the array) the accessor returns the
value set there and what it returned before everywhere else; a set at an index or stage outside
the array changes nothing and issues no call, and the accessor returns null there. -/
theorem accessors_mirror_setters (D : GraphicsDefs) (g : Graphics) :
    (∀ (i : Nat) (v : Option VertexBuffer), i < D.MAX_VERTEX_STREAMS →
      GetVertexBuffer D (SetVertexBuffer D g i v).1 i = v ∧
      ∀ j, j ≠ i → GetVertexBuffer D (SetVertexBuffer D g i v).1 j = GetVertexBuffer D g j) ∧
    (∀ (i : Nat) (v : Option VertexBuffer), D.MAX_VERTEX_STREAMS ≤ i →
      SetVertexBuffer D g i v = (g, []) ∧ GetVertexBuffer D g i = none) ∧
    (∀ (i : Nat) (v : Option Texture), i < D.MAX_TEXTURE_UNITS →
      GetTexture D (SetTexture D g i v).1 i = v ∧
      ∀ j, j ≠ i → GetTexture D (SetTexture D g i v).1 j = GetTexture D g j) ∧
    (∀ (i : Nat) (v : Option Texture), D.MAX_TEXTURE_UNITS ≤ i →
      SetTexture D g i v = (g, []) ∧ GetTexture D g i = none) ∧
    (∀ (stage i : Nat) (v : Option ConstantBuffer),
      stage < D.MAX_SHADER_STAGES → i < D.MAX_CONSTANT_BUFFERS →
      GetConstantBuffer D (SetConstantBuffer D g stage i v).1 stage i = v ∧
      ∀ st j, ¬ (st = stage ∧ j = i) →
        GetConstantBuffer D (SetConstantBuffer D g stage i v).1 st j =
          GetConstantBuffer D g st j) ∧
    (∀ (stage i : Nat) (v : Option ConstantBuffer),
      D.MAX_SHADER_STAGES ≤ stage ∨ D.MAX_CONSTANT_BUFFERS ≤ i →
      SetConstantBuffer D g stage i v = (g, []) ∧ GetConstantBuffer D g stage i = none) := by
  refine ⟨?_, ?_, ?_, ?_, ?_, ?_⟩
  · intro i v hi
    unfold GetVertexBuffer
    rw [setVertexBuffer_vertexBuffers, if_pos hi, if_pos hi, setAt_same]
    refine ⟨rfl, ?_⟩
    intro j hj
    rw [setAt_other _ _ _ _ hj]
  · intro i v hi
    unfold SetVertexBuffer GetVertexBuffer
    rw [if_neg (fun h => Nat.not_lt.mpr hi h.1), if_neg (Nat.not_lt.mpr hi)]
    exact ⟨rfl, rfl⟩
  · intro i v hi
    unfold GetTexture
    rw [setTexture_textures, if_pos hi, if_pos hi, setAt_same]
    refine ⟨rfl, ?_⟩
    intro j hj
    rw [setAt_other _ _ _ _ hj]
  · intro i v hi
    unfold SetTexture GetTexture
    rw [if_neg (fun h => Nat.not_lt.mpr hi h.1), if_neg (Nat.not_lt.mpr hi)]
    exact ⟨rfl, rfl⟩
  · intro stage i v hs hi
    have key : ∀ st j, GetConstantBuffer D (SetConstantBuffer D g stage i v).1 st j =
        if st < D.MAX_SHADER_STAGES ∧ j < D.MAX_CONSTANT_BUFFERS then
          (if stage < D.MAX_SHADER_STAGES ∧ i < D.MAX_CONSTANT_BUFFERS ∧ st = stage ∧ j = i
            then v else g.constantBuffers st j)
        else none := by
      intro st j
      unfold GetConstantBuffer
      rw [setConstantBuffer_constantBuffers]
    constructor
    · rw [key, if_pos ⟨hs, hi⟩, if_pos ⟨hs, hi, rfl, rfl⟩]
    · intro st j hne
      have hin : (if stage < D.MAX_SHADER_STAGES ∧ i < D.MAX_CONSTANT_BUFFERS ∧ st = stage ∧
          j = i then v else g.constantBuffers st j) = g.constantBuffers st j :=
        if_neg (fun h => hne ⟨h.2.2.1, h.2.2.2⟩)
      rw [key, hin]
      rfl
  · intro stage i v hout
    have hnot : ¬ (stage < D.MAX_SHADER_STAGES ∧ i < D.MAX_CONSTANT_BUFFERS) := by
      rintro ⟨h1, h2⟩
      rcases hout with h | h
      · exact Nat.not_lt.mpr h h1
      · exact Nat.not_lt.mpr h h2
    unfold SetConstantBuffer GetConstantBuffer
    rw [if_neg (fun h => hnot ⟨h.1, h.2.1⟩), if_neg hnot]
    exact ⟨rfl, rfl⟩

/-- C17, sample run: a texture set in unit 3 of a fresh `Graphics` and read back there and in
unit 4; a set in unit 16, outside the array. -/
theorem accessors_mirror_setters_witness :
    (3 < sampleDefs.MAX_TEXTURE_UNITS ∧
      GetTexture sampleDefs (SetTexture sampleDefs (fresh sampleDefs) 3 (some largeTarget)).1 3 =
        some largeTarget ∧
      GetTexture sampleDefs (SetTexture sampleDefs (fresh sampleDefs) 3 (some largeTarget)).1 4 =
        GetTexture sampleDefs (fresh sampleDefs) 4) ∧
    (sampleDefs.MAX_TEXTURE_UNITS ≤ 16 ∧
      (SetTexture sampleDefs (fresh sampleDefs) 16 (some largeTarget)).2 = [] ∧
      GetTexture sampleDefs (fresh sampleDefs) 16 = none) :=
  ⟨⟨by decide,
      ((accessors_mirror_setters sampleDefs (fresh sampleDefs)).2.2.1 3 (some largeTarget)
        (by decide)).1,
      ((accessors_mirror_setters sampleDefs (fresh sampleDefs)).2.2.1 3 (some largeTarget)
        (by decide)).2 4 (by decide)⟩,
    ⟨by decide,
      congrArg Prod.snd ((accessors_mirror_setters sampleDefs (fresh sampleDefs)).2.2.2.1 16
        (some largeTarget) (by decide)).1,
      ((accessors_mirror_setters sampleDefs (fresh sampleDefs)).2.2.2.1 16
        (some largeTarget) (by decide)).2⟩⟩

/-- C18. For every input rectangle and a render target of at least 1 x 1, the viewport stored by
`SetViewport` satisfies `0 ≤ left < right ≤ width` and `0 ≤ top < bottom ≤ height`; left and top
are the inputs clamped to `[0, size - 1]`, right and bottom the inputs clamped to
`[left + 1, width]` and `[top + 1, height]`. -/
theorem setViewport_clamps (g : Graphics) (rect : IntRect) (hw : 1 ≤ g.renderTargetSize.x)
    (hh : 1 ≤ g.renderTargetSize.y) :
    0 ≤ (SetViewport g rect).1.viewport.left ∧
    (SetViewport g rect).1.viewport.left < (SetViewport g rect).1.viewport.right ∧
    (SetViewport g rect).1.viewport.right ≤ g.renderTargetSize.x ∧
    0 ≤ (SetViewport g rect).1.viewport.top ∧
    (SetViewport g rect).1.viewport.top < (SetViewport g rect).1.viewport.bottom ∧
    (SetViewport g rect).1.viewport.bottom ≤ g.renderTargetSize.y ∧
    (SetViewport g rect).1.viewport.left = max 0 (min rect.left (g.renderTargetSize.x - 1)) ∧
    (SetViewport g rect).1.viewport.top = max 0 (min rect.top (g.renderTargetSize.y - 1)) ∧
    (SetViewport g rect).1.viewport.right =
      max ((SetViewport g rect).1.viewport.left + 1) (min rect.right g.renderTargetSize.x) ∧
    (SetViewport g rect).1.viewport.bottom =
      max ((SetViewport g rect).1.viewport.top + 1) (min rect.bottom g.renderTargetSize.y) :=
  clamped_rect rect.left rect.top rect.right rect.bottom g.renderTargetSize.x
    g.renderTargetSize.y hw hh

/-- C18, sample run: the rectangle {-10, 5, 10000, 10} against a render target of 800 x 600 is
stored as {0, 5, 800, 10}. -/
theorem setViewport_clamps_witness :
    largeTargetState.renderTargetSize = ⟨800, 600⟩ ∧
    (SetViewport largeTargetState ⟨-10, 5, 10000, 10⟩).1.viewport = ⟨0, 5, 800, 10⟩ ∧
    (SetViewport largeTargetState ⟨-10, 5, 10000, 10⟩).1.viewport.left <
      (SetViewport largeTargetState ⟨-10, 5, 10000, 10⟩).1.viewport.right :=
  ⟨by decide, by decide,
    (setViewport_clamps largeTargetState ⟨-10, 5, 10000, 10⟩ (by decide) (by decide)).2.1⟩

/-- C19 (the claim fails as stated). The tracked scissor rectangle is {0, 0, 800, 600} and the
render target is now 100 x 100. `SetScissorRect` with {0, 0, 800, 600} finds the input equal to
the tracked rectangle and leaves it: right and bottom exceed the render target. -/
theorem scissor_rect_not_reclamped :
    shrunkTargetState.renderTargetSize = ⟨100, 100⟩ ∧
    shrunkTargetState.scissorRect = ⟨0, 0, 800, 600⟩ ∧
    (SetScissorRect shrunkTargetState ⟨0, 0, 800, 600⟩).1.scissorRect = ⟨0, 0, 800, 600⟩ ∧
    ¬ ((SetScissorRect shrunkTargetState ⟨0, 0, 800, 600⟩).1.scissorRect.right ≤
      shrunkTargetState.renderTargetSize.x) := by
  refine ⟨by decide, by decide, by decide, by decide⟩

/-- C19 (amended). For a render target of at least 1 x 1, when the input rectangle differs from
the tracked scissor rectangle, the rectangle tracked after `SetScissorRect` satisfies
`0 ≤ left < right ≤ width` and `0 ≤ top < bottom ≤ height`, with the same clamping as the
viewport. When the input equals the tracked rectangle the call changes nothing. -/
theorem setScissorRect_clamps (g : Graphics) (rect : IntRect) :
    (rect ≠ g.scissorRect → 1 ≤ g.renderTargetSize.x → 1 ≤ g.renderTargetSize.y →
      0 ≤ (SetScissorRect g rect).1.scissorRect.left ∧
      (SetScissorRect g rect).1.scissorRect.left < (SetScissorRect g rect).1.scissorRect.right ∧
      (SetScissorRect g rect).1.scissorRect.right ≤ g.renderTargetSize.x ∧
      0 ≤ (SetScissorRect g rect).1.scissorRect.top ∧
      (SetScissorRect g rect).1.scissorRect.top < (SetScissorRect g rect).1.scissorRect.bottom ∧
      (SetScissorRect g rect).1.scissorRect.bottom ≤ g.renderTargetSize.y ∧
      (SetScissorRect g rect).1.scissorRect.left =
        max 0 (min rect.left (g.renderTargetSize.x - 1)) ∧
      (SetScissorRect g rect).1.scissorRect.top =
        max 0 (min rect.top (g.renderTargetSize.y - 1)) ∧
      (SetScissorRect g rect).1.scissorRect.right =
        max ((SetScissorRect g rect).1.scissorRect.left + 1)
          (min rect.right g.renderTargetSize.x) ∧
      (SetScissorRect g rect).1.scissorRect.bottom =
        max ((SetScissorRect g rect).1.scissorRect.top + 1)
          (min rect.bottom g.renderTargetSize.y)) ∧
    (rect = g.scissorRect → SetScissorRect g rect = (g, [])) := by
  constructor
  · intro hne hw hh
    unfold SetScissorRect
    rw [if_pos hne]
    exact clamped_rect rect.left rect.top rect.right rect.bottom g.renderTargetSize.x
      g.renderTargetSize.y hw hh
  · intro heq
    unfold SetScissorRect
    rw [if_neg (fun h => h heq)]

/-- C19, sample run: against the 100 x 100 render target, the rectangle {0, 0, 800, 601}
differs from the tracked one and is clamped to {0, 0, 100, 100}. -/
theorem setScissorRect_clamps_witness :
    (⟨0, 0, 800, 601⟩ : IntRect) ≠ shrunkTargetState.scissorRect ∧
    (SetScissorRect shrunkTargetState ⟨0, 0, 800, 601⟩).1.scissorRect = ⟨0, 0, 100, 100⟩ ∧
    (SetScissorRect shrunkTargetState ⟨0, 0, 800, 601⟩).1.scissorRect.right ≤
      shrunkTargetState.renderTargetSize.x :=
  ⟨by decide, by decide,
    ((setScissorRect_clamps shrunkTargetState ⟨0, 0, 800, 601⟩).1 (by decide) (by decide)
      (by decide)).2.2.1⟩

/-- C20. For a non-empty list `ts` of color targets and a depth-stencil `ds`, after
`SetRenderTargets(ts, ds)`: for `i < MAX_RENDERTARGETS`, `RenderTarget(i)` is `ts[i]` when
`i < length ts` and null otherwise; the targets of `ts` at `MAX_RENDERTARGETS` and beyond are
ignored (`RenderTarget` is null there); and `DepthStencil()` is `ds`. -/
theorem setRenderTargets_slots (D : GraphicsDefs) (g : Graphics) (ts : List (Option Texture))
    (ds : Option Texture) (hne : ts ≠ []) :
    (∀ (i : Nat) (h : i < ts.length), i < D.MAX_RENDERTARGETS →
      RenderTarget D (SetRenderTargets D g ts ds).1 i = ts.get ⟨i, h⟩) ∧
    (∀ i : Nat, i < D.MAX_RENDERTARGETS → ts.length ≤ i →
      RenderTarget D (SetRenderTargets D g ts ds).1 i = none) ∧
    (∀ i : Nat, D.MAX_RENDERTARGETS ≤ i →
      RenderTarget D (SetRenderTargets D g ts ds).1 i = none) ∧
    DepthStencil (SetRenderTargets D g ts ds).1 = ds := by
  have hempty : ¬ (ts.isEmpty = true) := by
    rw [List.isEmpty_iff]
    exact hne
  have key : ∀ i, (SetRenderTargets D g ts ds).1.renderTargets i =
      if ts.length ≤ i ∧ i < D.MAX_RENDERTARGETS then none
      else if i < D.MAX_RENDERTARGETS ∧ i < ts.length then ts.getD i none
      else g.renderTargets i := by
    intro i
    unfold SetRenderTargets
    rw [if_neg hempty]
  have hds : (SetRenderTargets D g ts ds).1.depthStencil = ds := by
    unfold SetRenderTargets
    rw [if_neg hempty]
  unfold RenderTarget DepthStencil
  refine ⟨?_, ?_, ?_, hds⟩
  · intro i h hi
    rw [if_pos hi, key, if_neg (fun hc => Nat.not_le.mpr h hc.1), if_pos ⟨hi, h⟩]
    rw [List.getD_eq_getElem?_getD, List.getElem?_eq_getElem h]
    rfl
  · intro i hi hlen
    rw [if_pos hi, key, if_pos ⟨hlen, hi⟩]
  · intro i hi
    rw [if_neg (Nat.not_lt.mpr hi)]

/-- C20, sample run: five targets given to a `Graphics` with four render-target slots. -/
theorem setRenderTargets_slots_witness :
    ([some largeTarget, none, some smallTarget, some smallTarget, some largeTarget] :
      List (Option Texture)) ≠ [] ∧
    RenderTarget sampleDefs
      (SetRenderTargets sampleDefs (fresh sampleDefs)
        [some largeTarget, none, some smallTarget, some smallTarget, some largeTarget]
        (some smallTarget)).1 2 = some smallTarget ∧
    RenderTarget sampleDefs
      (SetRenderTargets sampleDefs (fresh sampleDefs)
        [some largeTarget, none, some smallTarget, some smallTarget, some largeTarget]
        (some smallTarget)).1 4 = none ∧
    DepthStencil
      (SetRenderTargets sampleDefs (fresh sampleDefs)
        [some largeTarget, none, some smallTarget, some smallTarget, some largeTarget]
        (some smallTarget)).1 = some smallTarget :=
  ⟨by decide,
    (setRenderTargets_slots sampleDefs (fresh sampleDefs)
      [some largeTarget, none, some smallTarget, some smallTarget, some largeTarget]
      (some smallTarget) (by decide)).1 2 (by decide) (by decide),
    (setRenderTargets_slots sampleDefs (fresh sampleDefs)
      [some largeTarget, none, some smallTarget, some smallTarget, some largeTarget]
      (some smallTarget) (by decide)).2.2.1 4 (by decide),
    (setRenderTargets_slots sampleDefs (fresh sampleDefs)
      [some largeTarget, none, some smallTarget, some smallTarget, some largeTarget]
      (some smallTarget) (by decide)).2.2.2⟩

/-- C21. After `SetRenderTargets` with a non-empty list the current render-target size is the
width and height of the color target in slot 0 when that slot is non-empty, and the backbuffer
size when it is empty; slot 0 holds the first target of the list, and the backbuffer size is
not changed by the call. The same holds after `SetRenderTarget`, whose only target is the first,
and after `ResetRenderTargets`, which leaves slot 0 empty. -/
theorem setRenderTargets_size (D : GraphicsDefs) (g : Graphics) (ts : List (Option Texture))
    (ds : Option Texture) (hne : ts ≠ []) :
    (∀ t, RenderTarget D (SetRenderTargets D g ts ds).1 0 = some t →
      RenderTargetWidth (SetRenderTargets D g ts ds).1 = t.width ∧
      RenderTargetHeight (SetRenderTargets D g ts ds).1 = t.height) ∧
    (0 < D.MAX_RENDERTARGETS → RenderTarget D (SetRenderTargets D g ts ds).1 0 = none →
      RenderTargetWidth (SetRenderTargets D g ts ds).1 = Width g ∧
      RenderTargetHeight (SetRenderTargets D g ts ds).1 = Height g) ∧
    (0 < D.MAX_RENDERTARGETS →
      RenderTarget D (SetRenderTargets D g ts ds).1 0 = ts.getD 0 none) ∧
    Width (SetRenderTargets D g ts ds).1 = Width g ∧
    Height (SetRenderTargets D g ts ds).1 = Height g ∧
    (∀ t d, 0 < D.MAX_RENDERTARGETS →
      RenderTargetWidth (SetRenderTarget D g (some t) d).1 = t.width ∧
      RenderTargetHeight (SetRenderTarget D g (some t) d).1 = t.height) ∧
    (∀ d, 0 < D.MAX_RENDERTARGETS →
      RenderTargetWidth (SetRenderTarget D g none d).1 = Width g ∧
      RenderTargetHeight (SetRenderTarget D g none d).1 = Height g) ∧
    (0 < D.MAX_RENDERTARGETS →
      RenderTargetWidth (ResetRenderTargets D g).1 = Width g ∧
      RenderTargetHeight (ResetRenderTargets D g).1 = Height g) := by
  have key := setRenderTargets_members D g ts ds hne
  have one : ∀ (t : Option Texture) (d : Option Texture), 0 < D.MAX_RENDERTARGETS →
      (SetRenderTarget D g t d).1.renderTargetSize =
        (match t with
          | some target => ⟨target.width, target.height⟩
          | none => g.backbufferSize) := by
    intro t d hmax
    have k := setRenderTargets_members D { g with renderTargetVector := [t] } [t] d
      (List.cons_ne_nil t [])
    unfold SetRenderTarget
    rw [k.2.1, k.2.2 hmax]
    rfl
  unfold RenderTargetWidth RenderTargetHeight Width Height
  refine ⟨?_, ?_, ?_, ?_, ?_, ?_, ?_, ?_⟩
  · intro t ht
    unfold RenderTarget at ht
    by_cases hmax : 0 < D.MAX_RENDERTARGETS
    · rw [if_pos hmax] at ht
      rw [key.2.1, ht]
      exact ⟨rfl, rfl⟩
    · rw [if_neg hmax] at ht
      exact absurd ht (by simp)
  · intro hmax ht
    unfold RenderTarget at ht
    rw [if_pos hmax] at ht
    rw [key.2.1, ht]
    exact ⟨rfl, rfl⟩
  · intro hmax
    unfold RenderTarget
    rw [if_pos hmax]
    exact key.2.2 hmax
  · rw [key.1]
  · rw [key.1]
  · intro t d hmax
    rw [one (some t) d hmax]
    exact ⟨rfl, rfl⟩
  · intro d hmax
    rw [one none d hmax]
    exact ⟨rfl, rfl⟩
  · intro hmax
    unfold ResetRenderTargets
    rw [one none none hmax]
    exact ⟨rfl, rfl⟩

/-- C21, sample run: two targets set where the 800 x 600 target was bound; the size is that of
the first, 100 x 100. -/
theorem setRenderTargets_size_witness :
    ([some smallTarget, some largeTarget] : List (Option Texture)) ≠ [] ∧
    RenderTarget sampleDefs
      (SetRenderTargets sampleDefs largeTargetState [some smallTarget, some largeTarget] none).1 0 =
      some smallTarget ∧
    RenderTargetWidth
      (SetRenderTargets sampleDefs largeTargetState [some smallTarget, some largeTarget] none).1 =
      100 ∧
    RenderTargetHeight
      (SetRenderTargets sampleDefs largeTargetState [some smallTarget, some largeTarget] none).1 =
      100 :=
  ⟨by decide, by decide,
    ((setRenderTargets_size sampleDefs largeTargetState [some smallTarget, some largeTarget] none
      (by decide)).1 smallTarget (by decide)).1,
    ((setRenderTargets_size sampleDefs largeTargetState [some smallTarget, some largeTarget] none
      (by decide)).1 smallTarget (by decide)).2⟩

/-- C22 (the code departs from the claim). `Close` and `ResetState` clear the vertex-buffer,
texture and constant-buffer slots, the index buffer, the shaders, the current program, the
blend, depth and rasterizer states, both dirty flags and the primitive-type cache, but they
leave every render-target slot and the depth-stencil as they were, and the constructor leaves
them as the memory held them: after `SetRenderTarget(large, small)` and `Close`,
`RenderTarget(0)` still returns `large` and `DepthStencil()` still returns `small`. -/
theorem close_keeps_render_targets (D : GraphicsDefs) (B : Backend) (g : Graphics) :
    ((∀ i, GetVertexBuffer D (Close D B g).1 i = none) ∧
      (∀ i, GetTexture D (Close D B g).1 i = none) ∧
      (∀ stage i, GetConstantBuffer D (Close D B g).1 stage i = none) ∧
      GetIndexBuffer (Close D B g).1 = none ∧
      GetVertexShader (Close D B g).1 = none ∧
      GetPixelShader (Close D B g).1 = none ∧
      (Close D B g).1.shaderProgram = none ∧
      GetBlendState (Close D B g).1 = none ∧
      GetDepthState (Close D B g).1 = none ∧
      GetRasterizerState (Close D B g).1 = none ∧
      (Close D B g).1.vertexAttributesDirty = false ∧
      (Close D B g).1.vertexBuffersDirty = false ∧
      (Close D B g).1.primitiveType = D.MAX_PRIMITIVE_TYPES) ∧
    ((∀ i, RenderTarget D (Close D B g).1 i = RenderTarget D g i) ∧
      DepthStencil (Close D B g).1 = DepthStencil g) ∧
    ((∀ i, RenderTarget D (ResetState D g) i = RenderTarget D g i) ∧
      DepthStencil (ResetState D g) = DepthStencil g) ∧
    ((∀ i, RenderTarget D (Graphics.construct D g) i = RenderTarget D g i) ∧
      DepthStencil (Graphics.construct D g) = DepthStencil g) ∧
    (RenderTarget sampleDefs targetsBoundState 0 = some largeTarget ∧
      DepthStencil targetsBoundState = some smallTarget ∧
      RenderTarget sampleDefs (Close sampleDefs sampleBackend targetsBoundState).1 0 =
        some largeTarget ∧
      DepthStencil (Close sampleDefs sampleBackend targetsBoundState).1 = some smallTarget) := by
  refine ⟨?_, ⟨fun i => rfl, rfl⟩, ⟨fun i => rfl, rfl⟩, ⟨fun i => rfl, rfl⟩,
    by decide, by decide, by decide, by decide⟩
  have h := resetState_members D { g with
      shaderPrograms := []
      released := g.released ++ g.gpuObjects
      shaderVariations :=
        fun a => Nat.iterate B.Release (g.gpuObjects.count a) (g.shaderVariations a)
      backbufferSize := ⟨0, 0⟩ }
  exact ⟨h.1, h.2.1, h.2.2.1, h.2.2.2.1, h.2.2.2.2.1, h.2.2.2.2.2.1, h.2.2.2.2.2.2.1,
    h.2.2.2.2.2.2.2.1, h.2.2.2.2.2.2.2.2.1, h.2.2.2.2.2.2.2.2.2.1, h.2.2.2.2.2.2.2.2.2.2.1,
    h.2.2.2.2.2.2.2.2.2.2.2.1, h.2.2.2.2.2.2.2.2.2.2.2.2.1⟩

/-- C23 (the claim fails as stated). Object 7 is registered, object 8 is registered, object 7 is
registered again and object 8 is removed: the registry holds 7 twice and `Close` calls the
release operation of object 7 twice. -/
theorem double_registration_released_twice :
    (runRegistryOps sampleRegistryOps (fresh sampleDefs)).gpuObjects = [7, 7] ∧
    releasesBetween (runRegistryOps sampleRegistryOps (fresh sampleDefs))
      (Close sampleDefs sampleBackend (runRegistryOps sampleRegistryOps (fresh sampleDefs))).1 =
      [7, 7] ∧
    (releasesBetween (runRegistryOps sampleRegistryOps (fresh sampleDefs))
      (Close sampleDefs sampleBackend
        (runRegistryOps sampleRegistryOps (fresh sampleDefs))).1).count 7 = 2 := by
  refine ⟨by decide, by decide, by decide⟩

/-- C23 (amended). After any sequence of `AddGPUObject` and `RemoveGPUObject` calls on a new
`Graphics`, `Close` calls the release operation once for every entry of the registry, in
registration order: object `o` is released as many times as it has registrations that were not
removed since, so exactly once when it has one and not at all when it has none. Afterwards the
shader-program cache is empty and the backbuffer size is zero; `Close` itself issues no OpenGL
call. -/
theorem close_releases_registry (D : GraphicsDefs) (B : Backend) (raw : Graphics)
    (ops : List RegistryOp) (o : Nat) :
    releasesBetween (runRegistryOps ops (Graphics.construct D raw))
        (Close D B (runRegistryOps ops (Graphics.construct D raw))).1 =
      (runRegistryOps ops (Graphics.construct D raw)).gpuObjects ∧
    (releasesBetween (runRegistryOps ops (Graphics.construct D raw))
        (Close D B (runRegistryOps ops (Graphics.construct D raw))).1).count o =
      liveRegistrations o ops ∧
    (liveRegistrations o ops = 1 →
      (releasesBetween (runRegistryOps ops (Graphics.construct D raw))
        (Close D B (runRegistryOps ops (Graphics.construct D raw))).1).count o = 1) ∧
    (liveRegistrations o ops = 0 →
      o ∉ releasesBetween (runRegistryOps ops (Graphics.construct D raw))
        (Close D B (runRegistryOps ops (Graphics.construct D raw))).1) ∧
    (Close D B (runRegistryOps ops (Graphics.construct D raw))).1.shaderPrograms = [] ∧
    (Close D B (runRegistryOps ops (Graphics.construct D raw))).1.backbufferSize = ⟨0, 0⟩ ∧
    (Close D B (runRegistryOps ops (Graphics.construct D raw))).2 = [] := by
  have hrel := close_released D B (runRegistryOps ops (Graphics.construct D raw))
  have hcount : (runRegistryOps ops (Graphics.construct D raw)).gpuObjects.count o =
      liveRegistrations o ops := by
    rw [runRegistryOps_count]
    rfl
  refine ⟨hrel, ?_, ?_, ?_, rfl, rfl, rfl⟩
  · rw [hrel, hcount]
  · intro h
    rw [hrel, hcount, h]
  · intro h
    rw [hrel]
    intro hmem
    have hpos := List.count_pos_iff.mpr hmem
    rw [hcount, h] at hpos
    exact Nat.lt_irrefl 0 hpos

/-- C23, sample run: objects 7 and 8 registered, a null pointer passed, 8 removed; `Close`
releases 7 once and 8 not at all. -/
theorem close_releases_registry_witness :
    liveRegistrations 7 singleRegistryOps = 1 ∧
    liveRegistrations 8 singleRegistryOps = 0 ∧
    (releasesBetween (runRegistryOps singleRegistryOps (Graphics.construct sampleDefs rawMemory))
        (Close sampleDefs sampleBackend
          (runRegistryOps singleRegistryOps (Graphics.construct sampleDefs rawMemory))).1).count 7 =
      1 ∧
    8 ∉ releasesBetween (runRegistryOps singleRegistryOps (Graphics.construct sampleDefs rawMemory))
        (Close sampleDefs sampleBackend
          (runRegistryOps singleRegistryOps (Graphics.construct sampleDefs rawMemory))).1 :=
  ⟨by decide, by decide,
    (close_releases_registry sampleDefs sampleBackend rawMemory singleRegistryOps 7).2.2.1
      (by decide),
    (close_releases_registry sampleDefs sampleBackend rawMemory singleRegistryOps 8).2.2.2.1
      (by decide)⟩

/-- C24 (the code departs from the claim). The inner loop of `ResetConstantBuffers` tests the
stage counter `i` where it should test the slot counter `j`: when there is at least one shader
stage and at least one constant-buffer slot, the loop for stage 0 never exits, however many
iterations it is given. The function returns exactly when `MAX_SHADER_STAGES` or
`MAX_CONSTANT_BUFFERS` is zero; with the values of Turso3D (2 and 15) it never does. -/
theorem resetConstantBuffers_never_returns (D : GraphicsDefs) (g : Graphics) :
    (0 < D.MAX_SHADER_STAGES → 0 < D.MAX_CONSTANT_BUFFERS →
      ∀ fuel, ResetConstantBuffers D fuel g = none) ∧
    ((∃ fuel, ResetConstantBuffers D fuel g ≠ none) ↔
      D.MAX_SHADER_STAGES = 0 ∨ D.MAX_CONSTANT_BUFFERS = 0) ∧
    (∀ fuel, ResetConstantBuffers sampleDefs fuel (fresh sampleDefs) = none) := by
  have stuck : ∀ (E : GraphicsDefs) (s : Graphics), 0 < E.MAX_SHADER_STAGES →
      0 < E.MAX_CONSTANT_BUFFERS → ∀ fuel, ResetConstantBuffers E fuel s = none := by
    intro E s hs hb fuel
    unfold ResetConstantBuffers
    obtain ⟨n, hn⟩ := Nat.exists_eq_succ_of_ne_zero (Nat.pos_iff_ne_zero.mp hs)
    rw [hn, List.range_succ_eq_map]
    unfold resetStages
    rw [resetStage_stuck E 0 hb]
  refine ⟨stuck D g, ?_, fun fuel => stuck sampleDefs (fresh sampleDefs) (by decide) (by decide) fuel⟩
  constructor
  · rintro ⟨fuel, hf⟩
    by_contra hc
    rw [not_or] at hc
    exact hf (stuck D g (Nat.pos_of_ne_zero hc.1) (Nat.pos_of_ne_zero hc.2) fuel)
  · intro h
    refine ⟨0, ?_⟩
    rcases h with h | h
    · unfold ResetConstantBuffers
      rw [h]
      simp [resetStages]
    · unfold ResetConstantBuffers
      rw [resetStages_exit D h]
      simp

/-- C25 (the code departs from the claim). After `SetDepthState(state, ref)`, `GetDepthState()`
returns `state`, but `StencilRef()` returns what it returned before: it equals `ref` only if
it did already. On a new `Graphics`, `SetDepthState(5, 7)` leaves the stencil ref at 0. -/
theorem setDepthState_keeps_stencilRef (g : Graphics) (state : Option Nat) (stencilRef_ : Nat) :
    GetDepthState (SetDepthState g state stencilRef_).1 = state ∧
    StencilRef (SetDepthState g state stencilRef_).1 = StencilRef g ∧
    (StencilRef (SetDepthState g state stencilRef_).1 = stencilRef_ ↔
      StencilRef g = stencilRef_) ∧
    (StencilRef (fresh sampleDefs) = 0 ∧
      GetDepthState (SetDepthState (fresh sampleDefs) (some 5) 7).1 = some 5 ∧
      StencilRef (SetDepthState (fresh sampleDefs) (some 5) 7).1 = 0) := by
  have href : StencilRef (SetDepthState g state stencilRef_).1 = StencilRef g := by
    unfold SetDepthState StencilRef
    split <;> rfl
  refine ⟨?_, href, by rw [href], by decide, by decide, by decide⟩
  unfold SetDepthState GetDepthState
  by_cases h : state ≠ g.depthState ∨ stencilRef_ ≠ g.stencilRef
  · rw [if_pos h]
  · rw [if_neg h]
    have h1 : state = g.depthState := by
      by_contra hc
      exact h (Or.inl hc)
    exact h1.symm

/-- C26. An indexed `Draw` or an indexed `DrawInstanced` requested while no index buffer is
bound returns at once: no OpenGL call is issued and the tracked state, dirty flags included, is
the state it was called in. -/
theorem indexed_draw_needs_index_buffer (D : GraphicsDefs) (g : Graphics)
    (type indexStart indexCount vertexStart instanceStart instanceCount : Nat)
    (h : g.indexBuffer = none) :
    DrawIndexed D g type indexStart indexCount vertexStart = (g, []) ∧
    DrawInstancedIndexed D g type indexStart indexCount vertexStart instanceStart instanceCount =
      (g, []) := by
  unfold DrawIndexed DrawInstancedIndexed
  rw [h]
  exact ⟨rfl, rfl⟩

/-- C26, sample run: with a program and two vertex buffers bound and both dirty flags set, the
non-indexed draw issues eight calls, the two indexed draws none; once an index buffer of 16-bit
indices is bound, the indexed draw ends with `glDrawElements`. -/
theorem indexed_draw_needs_index_buffer_witness :
    instancedState.indexBuffer = none ∧
    instancedState.vertexAttributesDirty = true ∧
    (Draw sampleDefs instancedState 4 0 3).2.length = 8 ∧
    (DrawIndexed sampleDefs instancedState 4 0 3 0).2 = [] ∧
    (DrawInstancedIndexed sampleDefs instancedState 4 0 3 0 0 10).2 = [] ∧
    (DrawIndexed sampleDefs (SetIndexBuffer instancedState (some ⟨1, 55, 2⟩)).1 4 6 3 0).2.getLast? =
      some (GLCall.glDrawElements 4 3 GL_UNSIGNED_SHORT 12) :=
  ⟨by decide, by decide, by decide,
    congrArg Prod.snd (indexed_draw_needs_index_buffer sampleDefs instancedState 4 0 3 0 0 10
      (by decide)).1,
    congrArg Prod.snd (indexed_draw_needs_index_buffer sampleDefs instancedState 4 0 3 0 0 10
      (by decide)).2,
    by decide⟩

/-- C27. When the vertex-attribute map is not dirty, or no program is bound, `PrepareDraw`
issues no attribute enable or disable call and leaves the per-slot enable flags, the
semantic-to-slot map and the attribute-dirty flag as they were. When the map is dirty and a
program is bound, the attribute-dirty flag is false afterwards and the vertex-buffer loop runs
in the same call: the first part leaves the vertex-buffer dirty flag set, and the result of
`PrepareDraw` is the result of the loop over the vertex streams, run from the state the first
part leaves. -/
theorem prepareDraw_attribute_step (D : GraphicsDefs) (g : Graphics) (instanced : Bool)
    (instanceStart : Nat) :
    (g.vertexAttributesDirty = false ∨ g.shaderProgram = none →
      (∀ c ∈ (PrepareDraw D g instanced instanceStart).2, callSlot c.call = none) ∧
      (PrepareDraw D g instanced instanceStart).1.vertexAttributes = g.vertexAttributes ∧
      (PrepareDraw D g instanced instanceStart).1.attributeBySemantic = g.attributeBySemantic ∧
      (PrepareDraw D g instanced instanceStart).1.vertexAttributesDirty =
        g.vertexAttributesDirty) ∧
    (g.vertexAttributesDirty = true → g.shaderProgram ≠ none →
      (PrepareDraw D g instanced instanceStart).1.vertexAttributesDirty = false ∧
      (assignAttributes D g).1.vertexBuffersDirty = true ∧
      (PrepareDraw D g instanced instanceStart).1 =
        { (forEach (bindStream D instanced instanceStart) (List.range D.MAX_VERTEX_STREAMS)
            (assignAttributes D g).1).1 with vertexBuffersDirty := false } ∧
      (PrepareDraw D g instanced instanceStart).2 =
        (assignAttributes D g).2 ++
          (forEach (bindStream D instanced instanceStart) (List.range D.MAX_VERTEX_STREAMS)
            (assignAttributes D g).1).2) := by
  have hframe : ∀ s : Graphics,
      (bindVertexBuffers D s instanced instanceStart).1.vertexAttributes = s.vertexAttributes ∧
      (bindVertexBuffers D s instanced instanceStart).1.attributeBySemantic =
        s.attributeBySemantic ∧
      (bindVertexBuffers D s instanced instanceStart).1.vertexAttributesDirty =
        s.vertexAttributesDirty := by
    intro s
    unfold bindVertexBuffers
    by_cases hrun : s.vertexBuffersDirty = true ∨ instanced = true
    · rw [if_pos hrun]
      have h := (bindStreams_same D instanced instanceStart (List.range D.MAX_VERTEX_STREAMS)
        s).fields_pointers
      exact ⟨h.1, h.2.1, h.2.2.2.2.1⟩
    · rw [if_neg hrun]
      exact ⟨rfl, rfl, rfl⟩
  constructor
  · intro hidle
    have hA := assignAttributes_noop D g hidle
    unfold PrepareDraw
    rw [hA]
    refine ⟨?_, (hframe g).1, (hframe g).2.1, (hframe g).2.2⟩
    intro c hc
    rw [List.nil_append] at hc
    exact bindVertexBuffers_callSlot D g instanced instanceStart c hc
  · intro hd hp
    obtain ⟨program, hprog⟩ := Option.ne_none_iff_exists'.mp hp
    have hA := assignAttributes_issued D g program hprog hd
    have hB : bindVertexBuffers D (assignAttributes D g).1 instanced instanceStart =
        ({ (forEach (bindStream D instanced instanceStart) (List.range D.MAX_VERTEX_STREAMS)
            (assignAttributes D g).1).1 with vertexBuffersDirty := false },
          (forEach (bindStream D instanced instanceStart) (List.range D.MAX_VERTEX_STREAMS)
            (assignAttributes D g).1).2) := by
      unfold bindVertexBuffers
      rw [if_pos (Or.inl hA.2.2.2)]
    unfold PrepareDraw
    refine ⟨?_, hA.2.2.2, ?_, ?_⟩
    · rw [(hframe (assignAttributes D g).1).2.2]
      exact hA.2.2.1
    · rw [hB]
    · rw [hB]

/-- C27, sample runs: a second instanced draw with a clean attribute map issues calls, none of
them an enable or disable call; a first draw with a dirty map and a program bound leaves the
map clean. -/
theorem prepareDraw_attribute_step_witness :
    (afterFirstDraw.vertexAttributesDirty = false ∧
      (∀ c ∈ (PrepareDraw sampleDefs afterFirstDraw true 10).2, callSlot c.call = none) ∧
      (PrepareDraw sampleDefs afterFirstDraw true 10).2 ≠ []) ∧
    (instancedState.vertexAttributesDirty = true ∧ instancedState.shaderProgram ≠ none ∧
      (PrepareDraw sampleDefs instancedState false 0).1.vertexAttributesDirty = false) :=
  ⟨⟨by decide,
      ((prepareDraw_attribute_step sampleDefs afterFirstDraw true 10).1 (Or.inl (by decide))).1,
      by decide⟩,
    ⟨by decide, by decide,
      ((prepareDraw_attribute_step sampleDefs instancedState false 0).2 (by decide)
        (by decide)).1⟩⟩

/-- C28. For every prior state and every slot `i`: `PrepareDraw` issues an enable call for `i`
exactly when `i` was disabled and is enabled afterwards, a disable call exactly when `i` was
enabled and is disabled afterwards; the slots named by the enable and disable calls issued are
pairwise distinct, so there is at most one such call per slot; and no enable or disable call
names a slot whose enable flag is the same before and after. -/
theorem prepareDraw_minimal_slot_calls (D : GraphicsDefs) (g : Graphics) (instanced : Bool)
    (instanceStart : Nat) (i : Nat) :
    ((∃ c ∈ (PrepareDraw D g instanced instanceStart).2,
        c.call = GLCall.glEnableVertexAttribArray i) ↔
      g.vertexAttributes i = false ∧
        (PrepareDraw D g instanced instanceStart).1.vertexAttributes i = true) ∧
    ((∃ c ∈ (PrepareDraw D g instanced instanceStart).2,
        c.call = GLCall.glDisableVertexAttribArray i) ↔
      g.vertexAttributes i = true ∧
        (PrepareDraw D g instanced instanceStart).1.vertexAttributes i = false) ∧
    ((PrepareDraw D g instanced instanceStart).2.filterMap (fun c => callSlot c.call)).Nodup ∧
    ((PrepareDraw D g instanced instanceStart).1.vertexAttributes i = g.vertexAttributes i →
      ∀ c ∈ (PrepareDraw D g instanced instanceStart).2, callSlot c.call ≠ some i) := by
  have hflags : (PrepareDraw D g instanced instanceStart).1.vertexAttributes =
      (assignAttributes D g).1.vertexAttributes := by
    unfold PrepareDraw
    exact bindVertexBuffers_vertexAttributes D (assignAttributes D g).1 instanced instanceStart
  have hB := bindVertexBuffers_callSlot D (assignAttributes D g).1 instanced instanceStart
  have hcalls : ∀ c, c ∈ (PrepareDraw D g instanced instanceStart).2 →
      ∀ k, callSlot c.call = some k → c ∈ (assignAttributes D g).2 := by
    intro c hc k hk
    unfold PrepareDraw at hc
    rcases List.mem_append.mp hc with h | h
    · exact h
    · rw [hB c h] at hk
      exact absurd hk (by simp)
  have hsub : ∀ c, c ∈ (assignAttributes D g).2 →
      c ∈ (PrepareDraw D g instanced instanceStart).2 := by
    intro c hc
    unfold PrepareDraw
    exact List.mem_append_left _ hc
  have hslots : (PrepareDraw D g instanced instanceStart).2.filterMap (fun c => callSlot c.call) =
      (assignAttributes D g).2.filterMap (fun c => callSlot c.call) := by
    unfold PrepareDraw
    rw [List.filterMap_append]
    have hnil : (bindVertexBuffers D (assignAttributes D g).1 instanced instanceStart).2.filterMap
        (fun c => callSlot c.call) = [] := by
      rw [List.filterMap_eq_nil_iff]
      exact hB
    rw [hnil, List.append_nil]
  rw [hflags, hslots]
  by_cases hrun : g.vertexAttributesDirty = true ∧ g.shaderProgram ≠ none
  · obtain ⟨program, hprog⟩ := Option.ne_none_iff_exists'.mp hrun.2
    have hA := assignAttributes_issued D g program hprog hrun.1
    have hmem : ∀ call : GLCall, (∃ c ∈ (PrepareDraw D g instanced instanceStart).2,
        c.call = call) → callSlot call ≠ none →
        ∃ k, k < MAX_VERTEX_ATTRIBUTES ∧ slotChange D program.attributes g k = some call := by
      rintro call ⟨c, hc, hcc⟩ hslot
      obtain ⟨k, hk⟩ := Option.ne_none_iff_exists'.mp hslot
      have hin := hcalls c hc k (by rw [hcc]; exact hk)
      rw [hA.1, List.mem_map] at hin
      obtain ⟨call1, h1, h2⟩ := hin
      rw [List.mem_filterMap] at h1
      obtain ⟨k1, hk1, hk2⟩ := h1
      refine ⟨k1, List.mem_range.mp hk1, ?_⟩
      rw [hk2, ← hcc, ← h2]
    have hmk : ∀ (k : Nat) (call : GLCall), k < MAX_VERTEX_ATTRIBUTES →
        slotChange D program.attributes g k = some call →
        ∃ c ∈ (PrepareDraw D g instanced instanceStart).2, c.call = call := by
      intro k call hk hch
      refine ⟨⟨none, call⟩, hsub _ ?_, rfl⟩
      rw [hA.1, List.mem_map]
      exact ⟨call, List.mem_filterMap.mpr ⟨k, List.mem_range.mpr hk, hch⟩, rfl⟩
    refine ⟨?_, ?_, ?_, ?_⟩
    · constructor
      · intro h
        obtain ⟨k, hk, hch⟩ := hmem _ h (by simp [callSlot])
        have h3 := (slotChange_enable D program.attributes g k i).mp hch
        obtain ⟨hki, hu, hv⟩ := h3
        subst hki
        rw [hA.2.1, if_pos hk]
        exact ⟨hv, hu⟩
      · rintro ⟨hv, hnew⟩
        rw [hA.2.1] at hnew
        by_cases hk : i < MAX_VERTEX_ATTRIBUTES
        · rw [if_pos hk] at hnew
          exact hmk i _ hk ((slotChange_enable D program.attributes g i i).mpr ⟨rfl, hnew, hv⟩)
        · rw [if_neg hk, hv] at hnew
          exact absurd hnew (by simp)
    · constructor
      · intro h
        obtain ⟨k, hk, hch⟩ := hmem _ h (by simp [callSlot])
        have h3 := (slotChange_disable D program.attributes g k i).mp hch
        obtain ⟨hki, hu, hv⟩ := h3
        subst hki
        rw [hA.2.1, if_pos hk]
        exact ⟨hv, hu⟩
      · rintro ⟨hv, hnew⟩
        rw [hA.2.1] at hnew
        by_cases hk : i < MAX_VERTEX_ATTRIBUTES
        · rw [if_pos hk] at hnew
          exact hmk i _ hk ((slotChange_disable D program.attributes g i i).mpr ⟨rfl, hnew, hv⟩)
        · rw [if_neg hk, hv] at hnew
          exact absurd hnew (by simp)
    · rw [hA.1, List.filterMap_map, List.filterMap_filterMap]
      apply List.Nodup.filterMap _ (List.nodup_range _)
      intro a a1 b hb hb1
      rw [Option.mem_def, Option.bind_eq_some] at hb hb1
      obtain ⟨c, hc, hcs⟩ := hb
      obtain ⟨c1, hc1, hcs1⟩ := hb1
      have e1 := slotChange_callSlot D program.attributes g a c hc
      have e2 := slotChange_callSlot D program.attributes g a1 c1 hc1
      have e3 : callSlot c = some b := hcs
      have e4 : callSlot c1 = some b := hcs1
      rw [e1] at e3
      rw [e2] at e4
      exact (Option.some.inj e3).trans (Option.some.inj e4).symm
    · intro hsame c hc hslot
      have hin := hcalls c hc i hslot
      rw [hA.1, List.mem_map] at hin
      obtain ⟨call1, h1, h2⟩ := hin
      rw [List.mem_filterMap] at h1
      obtain ⟨k1, hk1, hk2⟩ := h1
      have e1 := slotChange_callSlot D program.attributes g k1 call1 hk2
      have e2 : callSlot call1 = some i := by rw [← hslot, ← h2]
      rw [e1] at e2
      have hki : k1 = i := Option.some.inj e2
      subst hki
      rw [hA.2.1, if_pos (List.mem_range.mp hk1)] at hsame
      unfold slotChange at hk2
      rw [hsame] at hk2
      by_cases hv : g.vertexAttributes k1 = true
      · rw [if_pos hv, if_neg (by rw [hv]; simp)] at hk2
        exact absurd hk2 (by simp)
      · rw [if_neg hv, if_neg hv] at hk2
        exact absurd hk2 (by simp)
  · have hidle : g.vertexAttributesDirty = false ∨ g.shaderProgram = none := by
      by_cases hd : g.vertexAttributesDirty = true
      · right
        by_contra hc
        exact hrun ⟨hd, hc⟩
      · left
        exact Bool.eq_false_iff.mpr hd
    have hA := assignAttributes_noop D g hidle
    have hno : ∀ c ∈ (PrepareDraw D g instanced instanceStart).2, callSlot c.call = none := by
      intro c hc
      unfold PrepareDraw at hc
      rw [hA, List.nil_append] at hc
      exact bindVertexBuffers_callSlot D g instanced instanceStart c hc
    rw [hA]
    refine ⟨?_, ?_, List.nodup_nil, ?_⟩
    · constructor
      · rintro ⟨c, hc, hcc⟩
        have h := hno c hc
        rw [hcc] at h
        exact absurd h (by simp [callSlot])
      · rintro ⟨h1, h2⟩
        rw [h1] at h2
        exact absurd h2 (by simp)
    · constructor
      · rintro ⟨c, hc, hcc⟩
        have h := hno c hc
        rw [hcc] at h
        exact absurd h (by simp [callSlot])
      · rintro ⟨h1, h2⟩
        rw [h1] at h2
        exact absurd h2 (by simp)
    · intro _ c hc hslot
      rw [hno c hc] at hslot
      exact absurd hslot (by simp)

/-- C29 (the claim fails as stated). The shader at address 3 reports the pixel stage and is the
tracked vertex shader, with the program of the pair (3, 2) current. `CleanupShaderPrograms` for
it looks at the second member of the keys: the entry and the current program stay, the tracked
shaders stay, and `SetShaders` with the tracked pair, which changes nothing, leaves the program
bound. -/
theorem wrong_side_cleanup_keeps_program :
    Reachable sampleDefs sampleBackend wrongSideState ∧
    GetVertexShader wrongSideState = some 3 ∧
    GetPixelShader wrongSideState = some 2 ∧
    (wrongSideState.shaderVariations 3).stage ≠ sampleDefs.SHADER_VS ∧
    wrongSideState.shaderProgram = some ⟨1000, 5, []⟩ ∧
    (CleanupShaderPrograms sampleDefs wrongSideState (some 3)).1.shaderProgram =
      some ⟨1000, 5, []⟩ ∧
    GetVertexShader (CleanupShaderPrograms sampleDefs wrongSideState (some 3)).1 = some 3 ∧
    GetPixelShader (CleanupShaderPrograms sampleDefs wrongSideState (some 3)).1 = some 2 ∧
    (SetShaders sampleDefs sampleBackend
      (CleanupShaderPrograms sampleDefs wrongSideState (some 3)).1 (some 3) (some 2)).2 = [] ∧
    (SetShaders sampleDefs sampleBackend
      (CleanupShaderPrograms sampleDefs wrongSideState (some 3)).1 (some 3)
      (some 2)).1.shaderProgram = some ⟨1000, 5, []⟩ :=
  ⟨Reachable.setShaders _ _ _ (Reachable.construct rawMemory), by decide, by decide, by decide,
    by decide, by decide, by decide, by decide, by decide, by decide⟩

/-- C29 (amended). `CleanupShaderPrograms(s)` writes the shader-program cache and the
current-program reference only and issues no call: the tracked vertex and pixel shader are as
before, also when one of them is `s`, so `SetShaders` with the tracked pair right afterwards
changes nothing and issues no call. The current program is then what the cleanup left: none
whenever the cleanup left it none, which it does when `s` is the tracked shader of its own
stage (the tracked vertex shader reporting the vertex stage, or the tracked pixel shader
reporting another stage) and the current program was the cache's entry for the tracked
pair, as it is in every reachable state. -/
theorem cleanupShaderPrograms_keeps_shaders (D : GraphicsDefs) (B : Backend) (g : Graphics)
    (shader : Option Nat) :
    (CleanupShaderPrograms D g shader).1 =
      { g with
        shaderPrograms := (CleanupShaderPrograms D g shader).1.shaderPrograms
        shaderProgram := (CleanupShaderPrograms D g shader).1.shaderProgram } ∧
    (CleanupShaderPrograms D g shader).2 = [] ∧
    GetVertexShader (CleanupShaderPrograms D g shader).1 = GetVertexShader g ∧
    GetPixelShader (CleanupShaderPrograms D g shader).1 = GetPixelShader g ∧
    SetShaders D B (CleanupShaderPrograms D g shader).1 (GetVertexShader g) (GetPixelShader g) =
      ((CleanupShaderPrograms D g shader).1, []) ∧
    ((CleanupShaderPrograms D g shader).1.shaderProgram = none →
      (SetShaders D B (CleanupShaderPrograms D g shader).1 (GetVertexShader g)
        (GetPixelShader g)).1.shaderProgram = none) ∧
    (∀ s, shader = some s → ProgramOwned g →
      (GetVertexShader g = some s ∧ (g.shaderVariations s).stage = D.SHADER_VS) ∨
        (GetPixelShader g = some s ∧ (g.shaderVariations s).stage ≠ D.SHADER_VS) →
      (SetShaders D B (CleanupShaderPrograms D g shader).1 (GetVertexShader g)
        (GetPixelShader g)).1.shaderProgram = none) ∧
    (∀ s, shader = some s → Reachable D B g →
      (GetVertexShader g = some s ∧ (g.shaderVariations s).stage = D.SHADER_VS) ∨
        (GetPixelShader g = some s ∧ (g.shaderVariations s).stage ≠ D.SHADER_VS) →
      (SetShaders D B (CleanupShaderPrograms D g shader).1 (GetVertexShader g)
        (GetPixelShader g)).1.shaderProgram = none) := by
  have hframe := cleanupShaderPrograms_frame D g shader
  have hsh := cleanupShaderPrograms_shaders D g shader
  have hnoop : SetShaders D B (CleanupShaderPrograms D g shader).1 (GetVertexShader g)
      (GetPixelShader g) = ((CleanupShaderPrograms D g shader).1, []) := by
    unfold SetShaders GetVertexShader GetPixelShader
    rw [if_pos ⟨hsh.1.symm, hsh.2.symm⟩]
  refine ⟨hframe.1, hframe.2, hsh.1, hsh.2, hnoop, ?_, ?_, ?_⟩
  · intro h
    rw [hnoop]
    exact h
  · intro s hs howned htracked
    rw [hnoop, hs]
    exact cleanupShaderPrograms_tracked D g s howned htracked
  · intro s hs hreach htracked
    rw [hnoop, hs]
    exact cleanupShaderPrograms_tracked D g s (reachable_owned D B g hreach) htracked

/-- C29, sample run: shaders 2 and 3 bound with their program current; after
`CleanupShaderPrograms` for shader 2 the tracked vertex shader is still 2, and `SetShaders(2, 3)`
leaves the current program none. -/
theorem cleanupShaderPrograms_keeps_shaders_witness :
    Reachable sampleDefs sampleBackend boundProgramState ∧
    GetVertexShader boundProgramState = some 2 ∧
    (boundProgramState.shaderVariations 2).stage = sampleDefs.SHADER_VS ∧
    boundProgramState.shaderProgram ≠ none ∧
    GetVertexShader (CleanupShaderPrograms sampleDefs boundProgramState (some 2)).1 = some 2 ∧
    (SetShaders sampleDefs sampleBackend
      (CleanupShaderPrograms sampleDefs boundProgramState (some 2)).1
      (GetVertexShader boundProgramState) (GetPixelShader boundProgramState)).1.shaderProgram =
      none :=
  ⟨Reachable.setShaders _ _ _ (Reachable.construct rawMemory),
    by decide, by decide, by decide, by decide,
    (cleanupShaderPrograms_keeps_shaders sampleDefs sampleBackend boundProgramState
      (some 2)).2.2.2.2.2.2.2 2 rfl
      (Reachable.setShaders _ _ _ (Reachable.construct rawMemory))
      (Or.inl ⟨by decide, by decide⟩)⟩

/-- C30. In every state reached from a reset state by `SetShaders`, `CleanupShaderPrograms` and
`Close` calls, a current program that is not none is what the cache holds under the key
(tracked vertex shader, tracked pixel shader); in particular it is a program of an entry of the
cache. -/
theorem current_program_in_cache (D : GraphicsDefs) (B : Backend) (raw : Graphics)
    (ops : List ShaderOp) (p : ShaderProgram) :
    (runShaderOps D B ops (ResetState D raw)).1.shaderProgram = some p →
    ∃ v q, GetVertexShader (runShaderOps D B ops (ResetState D raw)).1 = some v ∧
      GetPixelShader (runShaderOps D B ops (ResetState D raw)).1 = some q ∧
      findProgram (runShaderOps D B ops (ResetState D raw)).1.shaderPrograms (v, q) = some p ∧
      ((v, q), p) ∈ (runShaderOps D B ops (ResetState D raw)).1.shaderPrograms := by
  intro hp
  obtain ⟨v, q, hv, hq, hfind⟩ :=
    runShaderOps_owned D B ops (ResetState D raw) (resetState_owned D raw) p hp
  exact ⟨v, q, hv, hq, hfind, findProgram_mem _ _ _ hfind⟩

/-- C30, sample run: shaders (2, 3), then (4, 3), cleanup of shader 2, then shaders (4, 5); the
current program is the cache's entry for (4, 5). -/
theorem current_program_in_cache_witness :
    (runShaderOps sampleDefs sampleBackend sampleShaderOps
      (ResetState sampleDefs rawMemory)).1.shaderProgram = some ⟨1002, 9, [(1, 0), (8, 0), (0, 0)]⟩ ∧
    ∃ v q, GetVertexShader (runShaderOps sampleDefs sampleBackend sampleShaderOps
        (ResetState sampleDefs rawMemory)).1 = some v ∧
      GetPixelShader (runShaderOps sampleDefs sampleBackend sampleShaderOps
        (ResetState sampleDefs rawMemory)).1 = some q ∧
      findProgram (runShaderOps sampleDefs sampleBackend sampleShaderOps
        (ResetState sampleDefs rawMemory)).1.shaderPrograms (v, q) = some ⟨1002, 9, [(1, 0), (8, 0), (0, 0)]⟩ ∧
      ((v, q), ⟨1002, 9, [(1, 0), (8, 0), (0, 0)]⟩) ∈ (runShaderOps sampleDefs sampleBackend sampleShaderOps
        (ResetState sampleDefs rawMemory)).1.shaderPrograms :=
  ⟨by decide,
    current_program_in_cache sampleDefs sampleBackend rawMemory sampleShaderOps ⟨1002, 9, [(1, 0), (8, 0), (0, 0)]⟩
      (by decide)⟩

/-- C32. When the vertex-stage maximum plus `MAX_CONSTANT_BUFFERS` fits the 32 bits of the
binding-point argument: `SetConstantBuffer` binds vertex-stage index `i < vsConstantBuffers` at
binding point `i` and pixel-stage index `j < psConstantBuffers` at `j + vsConstantBuffers`; a
call it issues names the binding point of its slot; two slots with the same binding point are
the same slot; and on OpenGL's side a call of `SetConstantBuffer` for one slot leaves the
binding of every other slot's binding point as it was, while its own binding point holds the
buffer's object when a call is issued. -/
theorem constant_buffer_points_distinct (D : GraphicsDefs) (g : Graphics)
    (hfit : g.vsConstantBuffers + D.MAX_CONSTANT_BUFFERS ≤ 2 ^ 32) :
    (∀ index, index < D.MAX_CONSTANT_BUFFERS → D.SHADER_VS < D.MAX_SHADER_STAGES →
      index < g.vsConstantBuffers → bindingPoint D g D.SHADER_VS index = some index) ∧
    (∀ index, index < D.MAX_CONSTANT_BUFFERS → D.SHADER_PS < D.MAX_SHADER_STAGES →
      D.SHADER_PS ≠ D.SHADER_VS → index < g.psConstantBuffers →
      bindingPoint D g D.SHADER_PS index = some (index + g.vsConstantBuffers)) ∧
    (∀ stage index buffer,
      (SetConstantBuffer D g stage index buffer).2 = [] ∨
        ∃ point, bindingPoint D g stage index = some point ∧
          (SetConstantBuffer D g stage index buffer).2 =
            [GLCall.glBindBufferBase GL_UNIFORM_BUFFER point (constantBufferObject buffer)]) ∧
    (∀ stage1 index1 stage2 index2 point,
      bindingPoint D g stage1 index1 = some point →
      bindingPoint D g stage2 index2 = some point → stage1 = stage2 ∧ index1 = index2) ∧
    (∀ (api : UniformState) stage index buffer stage2 index2 point2,
      bindingPoint D g stage2 index2 = some point2 → ¬ (stage2 = stage ∧ index2 = index) →
      (api.replay (SetConstantBuffer D g stage index buffer).2).bindings point2 =
        api.bindings point2) ∧
    (∀ (api : UniformState) stage index buffer point,
      bindingPoint D g stage index = some point →
      (SetConstantBuffer D g stage index buffer).2 ≠ [] →
      (api.replay (SetConstantBuffer D g stage index buffer).2).bindings point =
        constantBufferObject buffer) := by
  refine ⟨?_, ?_, setConstantBuffer_point D g, bindingPoint_injective D g hfit, ?_, ?_⟩
  · intro index hi hs hq
    unfold bindingPoint
    rw [if_pos ⟨hs, hi⟩, if_pos rfl, if_pos hq, Nat.mod_eq_of_lt (by omega)]
  · intro index hi hs hne hq
    unfold bindingPoint
    rw [if_pos ⟨hs, hi⟩, if_neg hne, if_pos rfl, if_pos hq, Nat.mod_eq_of_lt (by omega)]
  · intro api stage index buffer stage2 index2 point2 h2 hne
    rcases setConstantBuffer_point D g stage index buffer with h | ⟨point, hp, h⟩
    · rw [h]
      rfl
    · rw [h, uniform_replay_single]
      apply setAt_other
      intro heq
      rw [heq] at h2
      exact hne (bindingPoint_injective D g hfit stage2 index2 stage index point h2 hp)
  · intro api stage index buffer point hp hcalls
    rcases setConstantBuffer_point D g stage index buffer with h | ⟨point1, hp1, h⟩
    · exact absurd h hcalls
    · rw [hp] at hp1
      rw [h, uniform_replay_single, ← Option.some.inj hp1, setAt_same]

/-- C32, sample run: the device reports 12 uniform blocks for each stage; slot 3 of the vertex
stage has binding point 3 and slot 3 of the pixel stage has binding point 15. -/
theorem constant_buffer_points_distinct_witness :
    (queryCapabilities sampleDefs (fresh sampleDefs) 12 12).vsConstantBuffers +
      sampleDefs.MAX_CONSTANT_BUFFERS ≤ 2 ^ 32 ∧
    bindingPoint sampleDefs (queryCapabilities sampleDefs (fresh sampleDefs) 12 12)
      sampleDefs.SHADER_VS 3 = some 3 ∧
    bindingPoint sampleDefs (queryCapabilities sampleDefs (fresh sampleDefs) 12 12)
      sampleDefs.SHADER_PS 3 =
      some (3 + (queryCapabilities sampleDefs (fresh sampleDefs) 12 12).vsConstantBuffers) ∧
    (SetConstantBuffer sampleDefs (queryCapabilities sampleDefs (fresh sampleDefs) 12 12)
      sampleDefs.SHADER_PS 3 (some sampleConstantBuffer)).2 =
      [GLCall.glBindBufferBase GL_UNIFORM_BUFFER 15 31] :=
  ⟨queryCapabilities_fit sampleDefs (fresh sampleDefs) 12 12 (by decide) (by decide) (by decide),
    (constant_buffer_points_distinct sampleDefs
      (queryCapabilities sampleDefs (fresh sampleDefs) 12 12)
      (queryCapabilities_fit sampleDefs (fresh sampleDefs) 12 12 (by decide) (by decide)
        (by decide))).1 3 (by decide) (by decide) (by decide),
    (constant_buffer_points_distinct sampleDefs
      (queryCapabilities sampleDefs (fresh sampleDefs) 12 12)
      (queryCapabilities_fit sampleDefs (fresh sampleDefs) 12 12 (by decide) (by decide)
        (by decide))).2.1 3 (by decide) (by decide) (by decide) (by decide),
    by decide⟩

/-- C33. After any sequence of `SetTexture` calls from a reset state, every texture unit whose
tracked texture is non-null has a tracked target type equal to that texture's target. From any
state, `SetTexture(index, nullptr)` leaves every tracked target type as it was; when it changes
the unit, it binds object 0 to the unit's target type if that type is non-zero (after the
switch of the active unit, if any) and issues no bind call otherwise. In the sample run unit 3
ends with no texture and the target type of the cube map bound there last. -/
theorem setTexture_target_types (D : GraphicsDefs) (raw : Graphics)
    (ops : List (Nat × Option Texture)) :
    (∀ i t, GetTexture D (runSetTextures D ops (ResetState D raw)).1 i = some t →
      (runSetTextures D ops (ResetState D raw)).1.textureTargets i = t.target) ∧
    (∀ (g : Graphics) (index : Nat),
      (SetTexture D g index none).1.textureTargets = g.textureTargets ∧
      (index < D.MAX_TEXTURE_UNITS → GetTexture D g index ≠ none →
        (g.textureTargets index ≠ 0 →
          (SetTexture D g index none).2 =
            (activateUnit g index).2 ++ [GLCall.glBindTexture (g.textureTargets index) 0]) ∧
        (g.textureTargets index = 0 →
          (SetTexture D g index none).2 = (activateUnit g index).2))) ∧
    (GetTexture sampleDefs
        (runSetTextures sampleDefs sampleTextureOps (ResetState sampleDefs rawMemory)).1 3 = none ∧
      (runSetTextures sampleDefs sampleTextureOps
        (ResetState sampleDefs rawMemory)).1.textureTargets 3 = cubeTarget.target ∧
      GLCall.glBindTexture cubeTarget.target 0 ∈
        (runSetTextures sampleDefs sampleTextureOps (ResetState sampleDefs rawMemory)).2) := by
  refine ⟨?_, ?_, by decide, by decide, by decide⟩
  · apply runSetTextures_tracks_target
    intro i t hget
    have hnone := (resetState_members D raw).2.1 i
    rw [hnone] at hget
    exact absurd hget (by simp)
  · intro g index
    constructor
    · funext j
      rw [setTexture_textureTargets]
    · intro hindex hget
      have hne : g.textures index ≠ none := by
        unfold GetTexture at hget
        rw [if_pos hindex] at hget
        exact hget
      have hcalls := setTexture_null_calls D g index
      rw [if_pos ⟨hindex, hne⟩] at hcalls
      constructor
      · intro ht
        rw [hcalls, if_pos ht]
      · intro ht
        rw [hcalls, if_neg (not_not.mpr ht), List.append_nil]

/-- C34. `SetRenderTargets` writes the render-target slots, the depth-stencil and the
render-target size only and issues no call: the viewport and the scissor rectangle are as
before. So do `SetRenderTarget` and `ResetRenderTargets`, which also assign the one-element
helper vector they pass. With an empty list `SetRenderTargets` changes nothing. In the sample
runs the viewport and the scissor rectangle stay {0, 0, 800, 600} when the render target
becomes 100 x 100. -/
theorem setRenderTargets_keeps_rectangles (D : GraphicsDefs) (g : Graphics)
    (ts : List (Option Texture)) (ds rt : Option Texture) :
    ((SetRenderTargets D g ts ds).1 =
        { g with
          renderTargets := (SetRenderTargets D g ts ds).1.renderTargets
          depthStencil := (SetRenderTargets D g ts ds).1.depthStencil
          renderTargetSize := (SetRenderTargets D g ts ds).1.renderTargetSize } ∧
      (SetRenderTargets D g ts ds).2 = [] ∧
      (SetRenderTargets D g ts ds).1.viewport = g.viewport ∧
      (SetRenderTargets D g ts ds).1.scissorRect = g.scissorRect) ∧
    ((SetRenderTarget D g rt ds).1 =
        { g with
          renderTargetVector := [rt]
          renderTargets := (SetRenderTarget D g rt ds).1.renderTargets
          depthStencil := (SetRenderTarget D g rt ds).1.depthStencil
          renderTargetSize := (SetRenderTarget D g rt ds).1.renderTargetSize } ∧
      (SetRenderTarget D g rt ds).2 = [] ∧
      (SetRenderTarget D g rt ds).1.viewport = g.viewport ∧
      (SetRenderTarget D g rt ds).1.scissorRect = g.scissorRect) ∧
    ((ResetRenderTargets D g).1 =
        { g with
          renderTargetVector := [none]
          renderTargets := (ResetRenderTargets D g).1.renderTargets
          depthStencil := (ResetRenderTargets D g).1.depthStencil
          renderTargetSize := (ResetRenderTargets D g).1.renderTargetSize } ∧
      (ResetRenderTargets D g).2 = [] ∧
      (ResetRenderTargets D g).1.viewport = g.viewport ∧
      (ResetRenderTargets D g).1.scissorRect = g.scissorRect) ∧
    SetRenderTargets D g [] ds = (g, []) ∧
    (shrunkViewportState.renderTargetSize = ⟨100, 100⟩ ∧
      shrunkViewportState.viewport = ⟨0, 0, 800, 600⟩ ∧
      shrunkTargetState.renderTargetSize = ⟨100, 100⟩ ∧
      shrunkTargetState.scissorRect = ⟨0, 0, 800, 600⟩) := by
  have h1 := setRenderTargets_frame D g ts ds
  have h2 := setRenderTargets_frame D { g with renderTargetVector := [rt] } [rt] ds
  have h3 := setRenderTargets_frame D { g with renderTargetVector := [none] } [none] none
  refine ⟨⟨h1.1, h1.2, ?_, ?_⟩, ⟨?_, h2.2, ?_, ?_⟩, ⟨?_, h3.2, ?_, ?_⟩, rfl,
    by decide, by decide, by decide, by decide⟩
  · rw [h1.1]
  · rw [h1.1]
  · exact h2.1
  · show (SetRenderTargets D { g with renderTargetVector := [rt] } [rt] ds).1.viewport = _
    rw [h2.1]
  · show (SetRenderTargets D { g with renderTargetVector := [rt] } [rt] ds).1.scissorRect = _
    rw [h2.1]
  · exact h3.1
  · show (SetRenderTargets D { g with renderTargetVector := [none] } [none] none).1.viewport = _
    rw [h3.1]
  · show (SetRenderTargets D { g with renderTargetVector := [none] } [none] none).1.scissorRect = _
    rw [h3.1]

end Turso3D
